import Mathlib

/-!
# Warzone 2100 multiplayer trust layer: responsibility model and message policy

A shallow embedding of the parts of `src/multiplay.cpp` and
`lib/netplay/netplay.h` that decide who is responsible for a player slot and
which network messages are processed, ignored, or answered with a kick.

Conventions of the embedding:

* C++ `int` values are `Int`, `uint8_t` / `uint32_t` values are `Nat`; the two
  conversions the code performs implicitly (`int` to `unsigned` in a mixed
  comparison, `uint32_t` to `int` in a `return`) are the explicit functions
  `toUInt32` and `toInt32`.
* `NetPlay.players` is a `std::vector<PLAYER>`; a read outside the vector has
  no defined result in C++, so every function that indexes the vector returns
  an `Option` and yields `none` for such a read.
* Global variables read by the code are fields of `Globals`.
* Constants whose `#define` lives in headers outside the embedded files
  (`MAX_PLAYERS`, `MAX_CONNECTED_PLAYERS`) are fields of `Consts`.
* Calls into other translation units (`NETpop`, `kickPlayer`,
  `sendInGameSystemMessage`, the per-kind `recv...` handlers) are recorded as
  an ordered list of `Event`s.
-/

namespace Warzone

/-! ## Data model -/

/-- Lobby connection errors, `enum LOBBY_ERROR_TYPES` (netplay.h). -/
inductive LOBBY_ERROR_TYPES where
  | ERROR_NOERROR
  | ERROR_CONNECTION
  | ERROR_FULL
  | ERROR_INVALID
  | ERROR_KICKED
  | ERROR_WRONGVERSION
  | ERROR_WRONGPASSWORD
  | ERROR_HOSTDROPPED
  | ERROR_WRONGDATA
  | ERROR_UNKNOWNFILEISSUE
  | ERROR_REDIRECT
  deriving DecidableEq, Repr

/-- Game mode, `enum GS_GAMEMODE` (main.h). -/
inductive GS_GAMEMODE where
  | GS_TITLE_SCREEN
  | GS_NORMAL
  | GS_SAVEGAMELOAD
  deriving DecidableEq, Repr

/-! ### `enum MESSAGE_TYPES` (netplay.h), as the `uint8_t` values on the wire -/

abbrev NET_MIN_TYPE : Nat := 33
abbrev NET_PING : Nat := 34
abbrev NET_PLAYER_STATS : Nat := 35
abbrev NET_TEXTMSG : Nat := 36
abbrev NET_PLAYERRESPONDING : Nat := 37
abbrev NET_OPTIONS : Nat := 38
abbrev NET_KICK : Nat := 39
abbrev NET_FIREUP : Nat := 40
abbrev NET_COLOURREQUEST : Nat := 41
abbrev NET_FACTIONREQUEST : Nat := 42
abbrev NET_AITEXTMSG : Nat := 43
abbrev NET_BEACONMSG : Nat := 44
abbrev NET_TEAMREQUEST : Nat := 45
abbrev NET_JOIN : Nat := 46
abbrev NET_ACCEPTED : Nat := 47
abbrev NET_PLAYER_INFO : Nat := 48
abbrev NET_PLAYER_JOINED : Nat := 49
abbrev NET_PLAYER_LEAVING : Nat := 50
abbrev NET_PLAYER_DROPPED : Nat := 51
abbrev NET_GAME_FLAGS : Nat := 52
abbrev NET_READY_REQUEST : Nat := 53
abbrev NET_REJECTED : Nat := 54
abbrev NET_POSITIONREQUEST : Nat := 55
abbrev NET_DATA_CHECK : Nat := 56
abbrev NET_HOST_DROPPED : Nat := 57
abbrev NET_SEND_TO_PLAYER : Nat := 58
abbrev NET_SHARE_GAME_QUEUE : Nat := 59
abbrev NET_FILE_REQUESTED : Nat := 60
abbrev NET_FILE_CANCELLED : Nat := 61
abbrev NET_FILE_PAYLOAD : Nat := 62
abbrev NET_DEBUG_SYNC : Nat := 63
abbrev NET_VOTE : Nat := 64
abbrev NET_VOTE_REQUEST : Nat := 65
abbrev NET_SPECTEXTMSG : Nat := 66
abbrev NET_PLAYERNAME_CHANGEREQUEST : Nat := 67
abbrev NET_PLAYER_SLOTTYPE_REQUEST : Nat := 68
abbrev NET_PLAYER_SWAP_INDEX : Nat := 69
abbrev NET_PLAYER_SWAP_INDEX_ACK : Nat := 70
abbrev NET_DATA_CHECK2 : Nat := 71
abbrev NET_SECURED_NET_MESSAGE : Nat := 72
abbrev NET_TEAM_STRATEGY : Nat := 73
abbrev NET_QUICK_CHAT_MSG : Nat := 74
abbrev NET_HOST_CONFIG : Nat := 75
abbrev NET_MAX_TYPE : Nat := 76

abbrev GAME_MIN_TYPE : Nat := 111
abbrev GAME_DROIDINFO : Nat := 112
abbrev GAME_STRUCTUREINFO : Nat := 113
abbrev GAME_RESEARCHSTATUS : Nat := 114
abbrev GAME_TEMPLATE : Nat := 115
abbrev GAME_TEMPLATEDEST : Nat := 116
abbrev GAME_ALLIANCE : Nat := 117
abbrev GAME_GIFT : Nat := 118
abbrev GAME_LASSAT : Nat := 119
abbrev GAME_GAME_TIME : Nat := 120
abbrev GAME_PLAYER_LEFT : Nat := 121
abbrev GAME_DROIDDISEMBARK : Nat := 122
abbrev GAME_SYNC_REQUEST : Nat := 123
abbrev GAME_DEBUG_MODE : Nat := 124
abbrev GAME_DEBUG_ADD_DROID : Nat := 125
abbrev GAME_DEBUG_ADD_STRUCTURE : Nat := 126
abbrev GAME_DEBUG_ADD_FEATURE : Nat := 127
abbrev GAME_DEBUG_REMOVE_DROID : Nat := 128
abbrev GAME_DEBUG_REMOVE_STRUCTURE : Nat := 129
abbrev GAME_DEBUG_REMOVE_FEATURE : Nat := 130
abbrev GAME_DEBUG_FINISH_RESEARCH : Nat := 131
abbrev GAME_SYNC_OPT_CHANGE : Nat := 132
abbrev GAME_MAX_TYPE : Nat := 133

abbrev REPLAY_ENDED : Nat := 255

attribute [simp] NET_MIN_TYPE NET_PING NET_PLAYER_STATS NET_TEXTMSG NET_PLAYERRESPONDING
  NET_OPTIONS NET_KICK NET_FIREUP NET_COLOURREQUEST NET_FACTIONREQUEST NET_AITEXTMSG
  NET_BEACONMSG NET_TEAMREQUEST NET_JOIN NET_ACCEPTED NET_PLAYER_INFO NET_PLAYER_JOINED
  NET_PLAYER_LEAVING NET_PLAYER_DROPPED NET_GAME_FLAGS NET_READY_REQUEST NET_REJECTED
  NET_POSITIONREQUEST NET_DATA_CHECK NET_HOST_DROPPED NET_SEND_TO_PLAYER NET_SHARE_GAME_QUEUE
  NET_FILE_REQUESTED NET_FILE_CANCELLED NET_FILE_PAYLOAD NET_DEBUG_SYNC NET_VOTE
  NET_VOTE_REQUEST NET_SPECTEXTMSG NET_PLAYERNAME_CHANGEREQUEST NET_PLAYER_SLOTTYPE_REQUEST
  NET_PLAYER_SWAP_INDEX NET_PLAYER_SWAP_INDEX_ACK NET_DATA_CHECK2 NET_SECURED_NET_MESSAGE
  NET_TEAM_STRATEGY NET_QUICK_CHAT_MSG NET_HOST_CONFIG NET_MAX_TYPE GAME_MIN_TYPE
  GAME_DROIDINFO GAME_STRUCTUREINFO GAME_RESEARCHSTATUS GAME_TEMPLATE GAME_TEMPLATEDEST
  GAME_ALLIANCE GAME_GIFT GAME_LASSAT GAME_GAME_TIME GAME_PLAYER_LEFT GAME_DROIDDISEMBARK
  GAME_SYNC_REQUEST GAME_DEBUG_MODE GAME_DEBUG_ADD_DROID GAME_DEBUG_ADD_STRUCTURE
  GAME_DEBUG_ADD_FEATURE GAME_DEBUG_REMOVE_DROID GAME_DEBUG_REMOVE_STRUCTURE
  GAME_DEBUG_REMOVE_FEATURE GAME_DEBUG_FINISH_RESEARCH GAME_SYNC_OPT_CHANGE GAME_MAX_TYPE
  REPLAY_ENDED

/-- Player slot, `struct PLAYER` (netplay.h).  `difficulty` and `faction` are
enumerations declared outside the embedded files and are kept as their
integer codes; `wzFiles` is kept as the list of pending download handles. -/
structure PLAYER where
  name : String
  position : Int
  colour : Int
  allocated : Bool
  heartattacktime : Nat
  heartbeat : Bool
  kick : Bool
  team : Int
  ready : Bool
  ai : Int
  difficulty : Int
  autoGame : Bool
  faction : Nat
  isSpectator : Bool
  isAdmin : Bool
  wzFiles : List Nat
  IPtextAddress : String
  deriving DecidableEq, Repr

/-- The fields of `struct NETPLAY` (netplay.h) that the embedded code reads. -/
structure NETPLAY where
  players : List PLAYER
  hostPlayer : Nat
  isHost : Bool
  deriving DecidableEq, Repr

/-- Compile-time constants defined in headers outside the embedded files. -/
structure Consts where
  MAX_PLAYERS : Nat
  MAX_CONNECTED_PLAYERS : Nat
  QUEUE_GAME : Nat
  deriving DecidableEq, Repr

/-- Queue identifier, `struct NETQUEUE` (declared in nettypes.h): the slot
index and the queue type, both `uint8_t`. -/
structure NETQUEUE where
  index : Nat
  queueType : Nat
  deriving DecidableEq, Repr

/-- Outcome of the message policy, `enum class HandleMessageAction`. -/
inductive HandleMessageAction where
  | Process_Message
  | Silently_Ignore
  | Disallow_And_Kick_Sender
  deriving DecidableEq, Repr

/-- Observable calls made by the dispatch code into other translation units,
in program order.  `handler name queue` records that the body of one `case`
label of `recvMessage` ran: `name` is the handler function it calls, or
`case <KIND>` for a body written inline in the switch.  `log` is a `debug`
call with its numeric arguments, `sendQuickChat notice player target` a lobby
notice about `player` sent to everyone (`none`) or to one slot, `NETsend player
type fields` a message of kind `type` encoded on the net queue of `player`,
`call name args` any other call into another translation unit. -/
inductive Event where
  | NETpop (queue : NETQUEUE)
  | syncDebug (format : String) (index : Nat) (type : Nat)
  | debug (level : String) (format : String) (player : Nat) (type : Nat)
  | sendInGameSystemMessage (format : String) (player : Nat) (type : Nat)
  | kickPlayer (index : Nat) (reason : String) (type : LOBBY_ERROR_TYPES) (banPlayer : Bool)
  | handler (name : String) (queue : NETQUEUE)
  | addConsoleMessage (text : String)
  | log (level : String) (format : String) (args : List Int)
  | sendQuickChat (notice : String) (player : Nat) (target : Option Nat)
  | commandInterfaceOutput (format : String) (player : Nat)
  | NETsend (player : Nat) (type : Nat) (fields : List Int)
  | NETlogEntry (format : String) (actual : Int) (bad : Int)
  | call (name : String) (args : List Int)
  deriving DecidableEq, Repr

/-- Global variables read by the responsibility model and the message policy:
`NetPlay`, `selectedPlayer`, `realSelectedPlayer` (both `uint32_t`),
the value of `GetGameMode()`, `gameInitialised`,
`bDisplayMultiJoiningStatus` (a `UBYTE`), the value of `NETisReplay()` and
`ingame.localJoiningInProgress`. -/
structure Globals where
  NetPlay : NETPLAY
  selectedPlayer : Nat
  realSelectedPlayer : Nat
  gameMode : GS_GAMEMODE
  gameInitialised : Bool
  bDisplayMultiJoiningStatus : Nat
  isReplay : Bool
  localJoiningInProgress : Bool
  deriving DecidableEq, Repr

/-- Conversion of an `int` operand to `unsigned` in a mixed comparison. -/
def toUInt32 (x : Int) : Nat := (x % 4294967296).toNat

/-- Conversion of a `uint32_t` value to `int` (two's complement). -/
def toInt32 (x : Nat) : Int :=
  if x % 4294967296 < 2147483648 then ((x % 4294967296 : Nat) : Int)
  else ((x % 4294967296 : Nat) : Int) - 4294967296

/-! ## Responsibility model (multiplay.cpp, `isHumanPlayer`, `whosResponsible`) -/

/-- Source function `isHumanPlayer(int player)`: out-of-range indices are not
human, otherwise the slot's `allocated` flag is read. -/
def isHumanPlayer (c : Consts) (np : NETPLAY) (player : Int) : Option Bool :=
  if player ≥ (c.MAX_CONNECTED_PLAYERS : Int) ∨ player < 0 then
    some false
  else
    (np.players[player.toNat]?).map (fun p => p.allocated)

/-- Source function `whosResponsible(int player)`. -/
def whosResponsible (c : Consts) (g : Globals) (player : Int) : Option Int :=
  match isHumanPlayer c g.NetPlay player with
  | none => none
  | some true => some player
  | some false =>
    if toUInt32 player = g.selectedPlayer then
      some player
    else
      some (toInt32 g.NetPlay.hostPlayer)

/-- Source function `myResponsibility(int player)`. -/
def myResponsibility (c : Consts) (g : Globals) (player : Int) : Option Bool :=
  (whosResponsible c g player).map
    (fun r => decide (toUInt32 r = g.selectedPlayer ∨ toUInt32 r = g.realSelectedPlayer))

/-- Source function `responsibleFor(int player, int playerinquestion)`. -/
def responsibleFor (c : Consts) (g : Globals) (player playerinquestion : Int) : Option Bool :=
  (whosResponsible c g playerinquestion).map (fun r => decide (r = player))

/-! ## Message authorization policy (multiplay.cpp, `getMessageHandlingAction`) -/

/-- The `switch (type)` guarded by `type > NET_MIN_TYPE && type < NET_MAX_TYPE`
in `getMessageHandlingAction`.  `some a` is `return a`; `none` is leaving the
switch through `break`. -/
def netTypeSwitch (g : Globals) (queue : NETQUEUE) (senderIsSpectator senderIsAdmin : Bool)
    (type : Nat) : Option HandleMessageAction :=
  if type = NET_OPTIONS ∨ type = NET_PLAYER_INFO ∨ type = NET_PLAYER_JOINED
      ∨ type = NET_FILE_PAYLOAD ∨ type = NET_VOTE_REQUEST ∨ type = NET_HOST_CONFIG then
    -- only the host is allowed to send these messages
    if queue.index ≠ g.NetPlay.hostPlayer then
      some HandleMessageAction.Disallow_And_Kick_Sender
    else none
  else if type = NET_KICK ∨ type = NET_TEAMREQUEST ∨ type = NET_FACTIONREQUEST
      ∨ type = NET_POSITIONREQUEST then
    if senderIsSpectator = true ∧ ¬ senderIsAdmin = true then
      some HandleMessageAction.Disallow_And_Kick_Sender
    else none
  else if type = NET_AITEXTMSG ∨ type = NET_BEACONMSG then
    if senderIsSpectator = true then
      some HandleMessageAction.Disallow_And_Kick_Sender
    else none
  else if type = NET_TEXTMSG then
    if senderIsSpectator = true ∧ g.gameMode = GS_GAMEMODE.GS_NORMAL then
      if g.gameInitialised = true ∧ g.bDisplayMultiJoiningStatus = 0 then
        some HandleMessageAction.Disallow_And_Kick_Sender
      else
        some HandleMessageAction.Silently_Ignore
    else none
  else if type = NET_SPECTEXTMSG then
    if ¬ senderIsSpectator = true then
      some HandleMessageAction.Silently_Ignore
    else none
  else if type = NET_COLOURREQUEST then
    some HandleMessageAction.Process_Message
  else if type = NET_DATA_CHECK2 then
    if senderIsSpectator = true then
      some HandleMessageAction.Silently_Ignore
    else none
  else
    -- default: certain messages are always allowed, no matter who it is
    some HandleMessageAction.Process_Message

/-- The `switch (type)` guarded by `type > GAME_MIN_TYPE && type < GAME_MAX_TYPE`
in `getMessageHandlingAction`; `none` is leaving the switch through `break`. -/
def gameTypeSwitch (senderIsSpectator : Bool) (type : Nat) : Option HandleMessageAction :=
  if type = GAME_GAME_TIME ∨ type = GAME_PLAYER_LEFT then
    some HandleMessageAction.Process_Message
  else if type = GAME_SYNC_REQUEST then
    if senderIsSpectator = true then
      some HandleMessageAction.Silently_Ignore
    else none
  else if type = GAME_DEBUG_MODE ∨ type = GAME_DEBUG_ADD_DROID
      ∨ type = GAME_DEBUG_ADD_STRUCTURE ∨ type = GAME_DEBUG_ADD_FEATURE
      ∨ type = GAME_DEBUG_REMOVE_DROID ∨ type = GAME_DEBUG_REMOVE_STRUCTURE
      ∨ type = GAME_DEBUG_REMOVE_FEATURE ∨ type = GAME_DEBUG_FINISH_RESEARCH then
    if senderIsSpectator = true then
      some HandleMessageAction.Disallow_And_Kick_Sender
    else none
  else
    if senderIsSpectator = true then
      some HandleMessageAction.Disallow_And_Kick_Sender
    else none

/-- Source function `getMessageHandlingAction(NETQUEUE& queue, uint8_t type)`.
The result is `none` exactly when the sender flags would be read outside
`NetPlay.players`. -/
def getMessageHandlingAction (g : Globals) (queue : NETQUEUE) (type : Nat) :
    Option HandleMessageAction :=
  if queue.index = g.NetPlay.hostPlayer then
    -- host gets access to all messages
    some HandleMessageAction.Process_Message
  else
    match g.NetPlay.players[queue.index]? with
    | none => none
    | some sender =>
      let senderIsSpectator := sender.isSpectator
      let senderIsAdmin := sender.isAdmin
      let net :=
        if NET_MIN_TYPE < type ∧ type < NET_MAX_TYPE then
          netTypeSwitch g queue senderIsSpectator senderIsAdmin type
        else none
      match net with
      | some a => some a
      | none =>
        let game :=
          if GAME_MIN_TYPE < type ∧ type < GAME_MAX_TYPE then
            gameTypeSwitch senderIsSpectator type
          else none
        match game with
        | some a => some a
        | none =>
          if type = REPLAY_ENDED then
            some HandleMessageAction.Silently_Ignore
          else
            some HandleMessageAction.Process_Message

/-! ## Dispatch (multiplay.cpp, `shouldProcessMessage`, `recvMessage`) -/

/-- Source function `shouldProcessMessage(NETQUEUE& queue, uint8_t type)`:
the returned flag and the calls made. -/
def shouldProcessMessage (g : Globals) (queue : NETQUEUE) (type : Nat) :
    Option (Bool × List Event) :=
  match getMessageHandlingAction g queue type with
  | none => none
  | some HandleMessageAction.Process_Message => some (true, [])
  | some HandleMessageAction.Silently_Ignore => some (false, [Event.NETpop queue])
  | some HandleMessageAction.Disallow_And_Kick_Sender =>
    if g.NetPlay.isHost = true then
      some (false,
        [ Event.NETpop queue,
          Event.debug "LOG_INFO" "Auto kicking player %s, invalid command received: %s"
            queue.index type,
          Event.sendInGameSystemMessage "Auto kicking player %s, invalid command received: %u"
            queue.index type,
          Event.kickPlayer queue.index "Unauthorized network command"
            LOBBY_ERROR_TYPES.ERROR_INVALID false ])
    else
      some (false, [Event.NETpop queue])

/-- The first `switch` of `recvMessage` ("messages only in game"), entered
only when `ingame.localJoiningInProgress` is false: the value of
`processedMessage1` after it and the calls made. -/
def gameOnlyPass (g : Globals) (queue : NETQUEUE) (type : Nat) : Bool × List Event :=
  if g.localJoiningInProgress = true then (false, [])
  else if type = GAME_DROIDINFO then (true, [Event.handler "recvDroidInfo" queue])
  else if type = NET_TEXTMSG then (true, [Event.handler "receiveInGameTextMessage" queue])
  else if type = NET_DATA_CHECK then (true, [Event.handler "recvDataCheck" queue])
  else if type = NET_DATA_CHECK2 then (true, [Event.handler "recvDataCheck2" queue])
  else if type = NET_AITEXTMSG then (true, [Event.handler "recvTextMessageAI" queue])
  else if type = NET_SPECTEXTMSG then (true, [Event.handler "recvSpecInGameTextMessage" queue])
  else if type = NET_BEACONMSG then (true, [Event.handler "recvBeacon" queue])
  else if type = NET_TEAM_STRATEGY then (true, [Event.handler "recvStrategyPlanUpdate" queue])
  else if type = NET_QUICK_CHAT_MSG then (true, [Event.handler "recvQuickChat" queue])
  else if type = GAME_SYNC_REQUEST then (true, [Event.handler "recvSyncRequest" queue])
  else if type = GAME_DROIDDISEMBARK then (true, [Event.handler "recvDroidDisEmbark" queue])
  else if type = GAME_GIFT then (true, [Event.handler "recvGift" queue])
  else if type = GAME_LASSAT then (true, [Event.handler "recvLasSat" queue])
  else if type = GAME_DEBUG_MODE then (true, [Event.handler "recvProcessDebugMappings" queue])
  else if type = GAME_DEBUG_ADD_DROID then (true, [Event.handler "recvDroid" queue])
  else if type = GAME_DEBUG_ADD_STRUCTURE then (true, [Event.handler "recvBuildFinished" queue])
  else if type = GAME_DEBUG_ADD_FEATURE then
    (true, [Event.handler "recvMultiPlayerFeature" queue])
  else if type = GAME_DEBUG_REMOVE_DROID then (true, [Event.handler "recvDestroyDroid" queue])
  else if type = GAME_DEBUG_REMOVE_STRUCTURE then
    (true, [Event.handler "recvDestroyStructure" queue])
  else if type = GAME_DEBUG_REMOVE_FEATURE then
    (true, [Event.handler "recvDestroyFeature" queue])
  else if type = GAME_DEBUG_FINISH_RESEARCH then (true, [Event.handler "recvResearch" queue])
  else if type = GAME_SYNC_OPT_CHANGE then (true, [Event.handler "recvSyncOptChange" queue])
  else if type = REPLAY_ENDED then
    if ¬ g.isReplay = true then
      -- ignore
      (true, [])
    else
      (true, [ Event.addConsoleMessage "REPLAY HAS ENDED",
               Event.addConsoleMessage "(Press ESC to quit.)" ])
  else (false, [])

/-- The second `switch` of `recvMessage` ("messages usable all the time"):
the value of `processedMessage2` after it and the calls made.  The bodies
written inline in the switch (they decode the payload and update session
state, and leave the switch only through `break`) are recorded as one
`handler` event each. -/
def alwaysPass (queue : NETQUEUE) (type : Nat) : Bool × List Event :=
  if type = NET_PING then (true, [Event.handler "recvPing" queue])
  else if type = NET_PLAYER_DROPPED then (true, [Event.handler "case NET_PLAYER_DROPPED" queue])
  else if type = NET_PLAYERRESPONDING then
    (true, [Event.handler "case NET_PLAYERRESPONDING" queue])
  else if type = GAME_ALLIANCE then (true, [Event.handler "recvAlliance" queue])
  else if type = NET_VOTE then (true, [Event.handler "case NET_VOTE" queue])
  else if type = NET_VOTE_REQUEST then (true, [Event.handler "case NET_VOTE_REQUEST" queue])
  else if type = NET_KICK then (true, [Event.handler "case NET_KICK" queue])
  else if type = NET_HOST_CONFIG then (true, [Event.handler "recvHostConfig" queue])
  else if type = GAME_RESEARCHSTATUS then (true, [Event.handler "recvResearchStatus" queue])
  else if type = GAME_STRUCTUREINFO then (true, [Event.handler "recvStructureInfo" queue])
  else if type = NET_PLAYER_STATS then (true, [Event.handler "recvMultiStats" queue])
  else if type = GAME_PLAYER_LEFT then (true, [Event.handler "recvPlayerLeft" queue])
  else (false, [])

/-- What one iteration of the `while` loop of `recvMessage` did with the
message `(queue, type)` it received. -/
structure Iteration where
  processedMessage1 : Bool
  processedMessage2 : Bool
  events : List Event
  deriving DecidableEq, Repr

/-- One iteration of the `while` loop of `recvMessage` for the message
`(queue, type)` returned by `NETrecvNet` / `NETrecvGame`. -/
def recvMessageIteration (c : Consts) (g : Globals) (queue : NETQUEUE) (type : Nat) :
    Option Iteration :=
  let sync :=
    if queue.queueType = c.QUEUE_GAME then
      [Event.syncDebug "Processing player %d, message %s" queue.index type]
    else []
  match shouldProcessMessage g queue type with
  | none => none
  | some (false, ev) =>
    -- continue
    some ⟨false, false, sync ++ ev⟩
  | some (true, ev) =>
    let pass1 := gameOnlyPass g queue type
    let pass2 := alwaysPass queue type
    let twice :=
      if pass1.1 = true ∧ pass2.1 = true then
        [Event.debug "LOG_ERROR" "Processed %s message twice!" queue.index type]
      else []
    let unhandled :=
      if ¬ pass1.1 = true ∧ ¬ pass2.1 = true then
        [Event.debug "LOG_ERROR" "Didn't handle %s message!" queue.index type]
      else []
    some ⟨pass1.1, pass2.1,
      sync ++ ev ++ pass1.2 ++ pass2.2 ++ twice ++ unhandled ++ [Event.NETpop queue]⟩

/-- Number of `kickPlayer` calls in a trace. -/
def countKicks (evs : List Event) : Nat :=
  (evs.filter (fun e => match e with
    | Event.kickPlayer _ _ _ _ => true
    | _ => false)).length

/-- Number of handler bodies (including the replay-end console notice) run in a trace. -/
def countHandlers (evs : List Event) : Nat :=
  (evs.filter (fun e => match e with
    | Event.handler _ _ => true
    | Event.addConsoleMessage _ => true
    | _ => false)).length

/-- Number of `NETpop` calls in a trace. -/
def countPops (evs : List Event) : Nat :=
  (evs.filter (fun e => match e with
    | Event.NETpop _ => true
    | _ => false)).length

/-! ## Sample session used to instantiate the theorems -/

/-- A slot with the given `allocated`, `isSpectator` and `isAdmin` flags and
the other fields as `PLAYER::resetAll` leaves them. -/
def samplePlayer (allocated isSpectator isAdmin : Bool) : PLAYER :=
  { name := "", position := -1, colour := 0, allocated := allocated, heartattacktime := 0,
    heartbeat := false, kick := false, team := -1, ready := false, ai := 0, difficulty := 0,
    autoGame := false, faction := 0, isSpectator := isSpectator, isAdmin := isAdmin,
    wzFiles := [], IPtextAddress := "" }

/-- Four slots: the host (0), a human player (1), an AI slot (2) and a human
spectator (3). -/
def samplePlayers : List PLAYER :=
  [ samplePlayer true false false, samplePlayer true false false,
    samplePlayer false false false, samplePlayer true true false ]

/-- Constants of the sample session. -/
def sampleConsts : Consts :=
  { MAX_PLAYERS := 3, MAX_CONNECTED_PLAYERS := 4, QUEUE_GAME := 1 }

/-- The sample session seen from the host (slot 0), match running. -/
def sampleHost : Globals :=
  { NetPlay := { players := samplePlayers, hostPlayer := 0, isHost := true },
    selectedPlayer := 0, realSelectedPlayer := 0, gameMode := GS_GAMEMODE.GS_NORMAL,
    gameInitialised := true, bDisplayMultiJoiningStatus := 0, isReplay := false,
    localJoiningInProgress := false }

/-- The sample session seen from the client on slot 1. -/
def sampleClient : Globals :=
  { sampleHost with
    NetPlay := { players := samplePlayers, hostPlayer := 0, isHost := false },
    selectedPlayer := 1, realSelectedPlayer := 1 }

/-- The sample session seen from a replay viewer. -/
def sampleReplay : Globals :=
  { sampleClient with isReplay := true }

/-- The calls `shouldProcessMessage` makes on the host for a disallowed message. -/
def kickTrace (queue : NETQUEUE) (type : Nat) : List Event :=
  [ Event.NETpop queue,
    Event.debug "LOG_INFO" "Auto kicking player %s, invalid command received: %s"
      queue.index type,
    Event.sendInGameSystemMessage "Auto kicking player %s, invalid command received: %u"
      queue.index type,
    Event.kickPlayer queue.index "Unauthorized network command"
      LOBBY_ERROR_TYPES.ERROR_INVALID false ]

/-! ## Case labels of the two switches of `recvMessage` -/

/-- The case labels of the first switch of `recvMessage` ("messages only in
game"), in source order. -/
def gameOnlyLabels : List Nat :=
  [GAME_DROIDINFO, NET_TEXTMSG, NET_DATA_CHECK, NET_DATA_CHECK2, NET_AITEXTMSG,
    NET_SPECTEXTMSG, NET_BEACONMSG, NET_TEAM_STRATEGY, NET_QUICK_CHAT_MSG,
    GAME_SYNC_REQUEST, GAME_DROIDDISEMBARK, GAME_GIFT, GAME_LASSAT, GAME_DEBUG_MODE,
    GAME_DEBUG_ADD_DROID, GAME_DEBUG_ADD_STRUCTURE, GAME_DEBUG_ADD_FEATURE,
    GAME_DEBUG_REMOVE_DROID, GAME_DEBUG_REMOVE_STRUCTURE, GAME_DEBUG_REMOVE_FEATURE,
    GAME_DEBUG_FINISH_RESEARCH, GAME_SYNC_OPT_CHANGE, REPLAY_ENDED]

/-- The case labels of the second switch of `recvMessage` ("messages usable
all the time"), in source order. -/
def alwaysLabels : List Nat :=
  [NET_PING, NET_PLAYER_DROPPED, NET_PLAYERRESPONDING, GAME_ALLIANCE, NET_VOTE,
    NET_VOTE_REQUEST, NET_KICK, NET_HOST_CONFIG, GAME_RESEARCHSTATUS, GAME_STRUCTUREINFO,
    NET_PLAYER_STATS, GAME_PLAYER_LEFT]

/-- The enumerators of `MESSAGE_TYPES` (other than the range markers) that
carry no case label in either switch of `recvMessage`. -/
def unlabelledKinds : List Nat :=
  [NET_OPTIONS, NET_FIREUP, NET_COLOURREQUEST, NET_FACTIONREQUEST, NET_TEAMREQUEST,
    NET_JOIN, NET_ACCEPTED, NET_PLAYER_INFO, NET_PLAYER_JOINED, NET_PLAYER_LEAVING,
    NET_GAME_FLAGS, NET_READY_REQUEST, NET_REJECTED, NET_POSITIONREQUEST,
    NET_HOST_DROPPED, NET_SEND_TO_PLAYER, NET_SHARE_GAME_QUEUE, NET_FILE_REQUESTED,
    NET_FILE_CANCELLED, NET_FILE_PAYLOAD, NET_DEBUG_SYNC, NET_PLAYERNAME_CHANGEREQUEST,
    NET_PLAYER_SLOTTYPE_REQUEST, NET_PLAYER_SWAP_INDEX, NET_PLAYER_SWAP_INDEX_ACK,
    NET_SECURED_NET_MESSAGE, GAME_TEMPLATE, GAME_TEMPLATEDEST, GAME_GAME_TIME]

/-! ## Session state and external inputs of the health monitors -/

/-- The fields of `MULTIPLAYERINGAME ingame` used by the monitors and the data
check.  The structure is declared outside the embedded files; its per-slot
arrays are total maps from the slot index, time points are `steady_clock`
tick counts in nanoseconds, `optional` fields are `Option`s.  The counters are
taken as `int`, `secondsNotReady` as `uint64_t`. -/
structure MULTIPLAYERINGAME where
  PingTimes : Nat → Nat
  LagCounter : Nat → Int
  DesyncCounter : Nat → Int
  JoiningInProgress : Nat → Bool
  PendingDisconnect : Nat → Bool
  DataIntegrity : Nat → Bool
  secondsNotReady : Nat → Nat
  lastNotReadyTimes : Nat → Option Int
  lastSentPlayerDataCheck2 : Nat → Option Int
  TimeEveryoneIsInGame : Option Nat
  isAllPlayersDataOK : Bool
  startTime : Int
  endTime : Option Int
  lastLagCheck : Int
  lastDesyncCheck : Int
  lastNotReadyCheck : Int
  lastPlayerDataCheck2 : Int

/-- Values the monitors and the data check obtain from other translation
units: `bMultiPlayer`, `NetPlay.bComms`, `war_getAutoLagKickSeconds()`,
`war_getAutoDesyncKickSeconds()`, the constant `PING_LIMIT`,
`gtimeShouldWaitForPlayer(i)`,
`NETcheckPlayerConnectionStatus(CONNECTIONSTATUS_DESYNC, i)`,
`multiplayPlayersCanCheckReady()`, `wz_command_interface_enabled()`,
`NETplayerHasConnection(i)`, `game.maxPlayers`, the array `DataHash` (its
length is `DATA_MAXDATA`), `debugMappingsAllowed()`, `godMode` and the overlay
screens counted per z-order by `widgForEachOverlayScreen`. -/
structure Externals where
  bMultiPlayer : Bool
  bComms : Bool
  war_getAutoLagKickSeconds : Int
  war_getAutoDesyncKickSeconds : Int
  PING_LIMIT : Nat
  gtimeShouldWaitForPlayer : Nat → Bool
  desyncStatus : Nat → Bool
  multiplayPlayersCanCheckReady : Bool
  wz_command_interface_enabled : Bool
  NETplayerHasConnection : Nat → Bool
  maxPlayers : Nat
  DataHash : List Nat
  debugMappingsAllowed : Bool
  godMode : Bool
  overlayLayers : List (Nat × Nat)

/-- `std::chrono::duration_cast<std::chrono::seconds>` of a nanosecond count
(truncation toward zero). -/
def durationSeconds (d : Int) : Int := Int.tdiv d 1000000000

/-- `std::chrono::duration_cast<std::chrono::milliseconds>` of a nanosecond
count (truncation toward zero). -/
def durationMilliseconds (d : Int) : Int := Int.tdiv d 1000000

/-- Conversion of an `int` operand to `uint64_t` in a mixed comparison or sum. -/
def toUInt64 (x : Int) : Nat := (x % 18446744073709551616).toNat

abbrev LAG_INITIAL_LOAD_GRACEPERIOD : Int := 60
abbrev LAG_CHECK_INTERVAL : Int := 1000
abbrev DESYNC_CHECK_INTERVAL : Int := 1000
abbrev NOTREADY_CHECK_INTERVAL : Int := 1000
abbrev DATACHECK2_INTERVAL_MS : Int := 10000

/-- A `for` loop over slot indices: `count` iterations of `body` starting at
index `i`, threading the loop state; `none` when an iteration is undefined. -/
def forLoop {σ : Type} (body : Nat → σ → Option σ) : Nat → Nat → σ → Option σ
  | _, 0, s => some s
  | i, count + 1, s =>
    match body i s with
    | none => none
    | some s' => forLoop body (i + 1) count s'

/-- Number of `kickPlayer` calls for slot `k` in a trace. -/
def kicksFor (k : Nat) (evs : List Event) : Nat :=
  (evs.filter (fun e => match e with
    | Event.kickPlayer i _ _ _ => decide (i = k)
    | _ => false)).length

/-- Assignment `ingame.LagCounter[i] = v`. -/
def setLagCounter (ingame : MULTIPLAYERINGAME) (i : Nat) (v : Int) : MULTIPLAYERINGAME :=
  { ingame with LagCounter := Function.update ingame.LagCounter i v }

/-- Assignment `ingame.DesyncCounter[i] = v`. -/
def setDesyncCounter (ingame : MULTIPLAYERINGAME) (i : Nat) (v : Int) : MULTIPLAYERINGAME :=
  { ingame with DesyncCounter := Function.update ingame.DesyncCounter i v }

/-! ## Lag monitor (multiplay.cpp, `autoLagKickRoutine`) -/

/-- Loop-carried state of `autoLagKickRoutine`: `ingame`, the locals
`LagAutoKickSeconds`, `numPlayersLoaded`, `totalNumPlayers`, and the calls made. -/
structure LagLoopState where
  ingame : MULTIPLAYERINGAME
  LagAutoKickSeconds : Int
  numPlayersLoaded : Nat
  totalNumPlayers : Nat
  events : List Event

/-- The calls made when the lag counter of slot `i` reaches the threshold. -/
def lagKickEvents (x : Externals) (i : Nat) (LagAutoKickSeconds : Int) : List Event :=
  [ Event.debug "LOG_INFO"
      "Auto-kicking player %u (\"%s\") because of ping issues. (Timeout: %u seconds)"
      i (toUInt32 LagAutoKickSeconds),
    Event.sendInGameSystemMessage
      "Auto-kicking player %u (\"%s\") because of ping issues. (Timeout: %u seconds)"
      i (toUInt32 LagAutoKickSeconds) ]
  ++ (if x.wz_command_interface_enabled = true then
        [Event.commandInterfaceOutput "WZEVENT: lag-kick: %u %s %s\n" i]
      else [])
  ++ [ Event.kickPlayer i "Your connection was too laggy."
        LOBBY_ERROR_TYPES.ERROR_CONNECTION false ]

/-- The warning broadcast while the lag counter of slot `i` is below the threshold. -/
def lagWarnEvents (i : Nat) (remaining : Int) : List Event :=
  [ Event.debug "LOG_INFO" "Auto-kicking player %u (\"%s\") in %u seconds. (lag)"
      i (toUInt32 remaining),
    Event.sendInGameSystemMessage "Auto-kicking player %u (\"%s\") in %u seconds. (lag)"
      i (toUInt32 remaining) ]

/-- The values of the locals after the first part of the loop body of
`autoLagKickRoutine` for an examined slot `i` (the player count and the
initial-load grace period). -/
structure LagSlotLocals where
  LagAutoKickSeconds : Int
  numPlayersLoaded : Nat
  totalNumPlayers : Nat
  isLagging : Bool
  isWaitingForInitialLoad : Bool

/-- First part of the loop body of `autoLagKickRoutine` for an examined slot
`i`: from `if (i < MAX_PLAYERS)` to the end of `if (isWaitingForInitialLoad)`. -/
def lagSlotLocals (c : Consts) (x : Externals) (g : Globals) (now : Int)
    (isInitialLoad : Bool) (i : Nat) (st : LagLoopState) : LagSlotLocals :=
  let totalNumPlayers :=
    if i < c.MAX_PLAYERS then st.totalNumPlayers + 1 else st.totalNumPlayers
  let numPlayersLoaded :=
    if i < c.MAX_PLAYERS ∧ st.ingame.JoiningInProgress i = false then
      st.numPlayersLoaded + 1
    else st.numPlayersLoaded
  let pingOverLimit : Bool := decide (x.PING_LIMIT ≤ st.ingame.PingTimes i)
  let waiting : Bool := isInitialLoad && st.ingame.JoiningInProgress i
  let waitingForLoadTime := durationSeconds (now - st.ingame.startTime)
  -- special handling for spectator slots once all actual players are loaded
  let spectatorShortcut : Bool :=
    waiting && decide (c.MAX_PLAYERS < i) && decide (0 < totalNumPlayers)
      && decide (numPlayersLoaded = totalNumPlayers) && decide (i ≠ g.NetPlay.hostPlayer)
  let loadGracePeriod : Int :=
    if spectatorShortcut = true then 0 else LAG_INITIAL_LOAD_GRACEPERIOD
  let LagAutoKickSeconds : Int :=
    if spectatorShortcut = true then min 10 st.LagAutoKickSeconds
    else st.LagAutoKickSeconds
  -- within grace period for initial load
  let withinGrace : Bool := waiting && decide (waitingForLoadTime < loadGracePeriod)
  { LagAutoKickSeconds := LagAutoKickSeconds,
    numPlayersLoaded := numPlayersLoaded,
    totalNumPlayers := totalNumPlayers,
    isLagging := if withinGrace = true then false else pingOverLimit,
    isWaitingForInitialLoad := if withinGrace = true then false else waiting }

/-- Second part of the loop body of `autoLagKickRoutine` for an examined slot
`i`: from `if (!isLagging && !isWaitingForInitialLoad)` to the end of the
body; the new `ingame` and the calls appended. -/
def lagCounterStep (x : Externals) (i : Nat) (ingame : MULTIPLAYERINGAME)
    (l : LagSlotLocals) : MULTIPLAYERINGAME × List Event :=
  if l.isLagging = false ∧ l.isWaitingForInitialLoad = false then
    if 0 < ingame.LagCounter i then
      (setLagCounter ingame i (ingame.LagCounter i - 1), [])
    else (ingame, [])
  else if ingame.PendingDisconnect i = true then
    -- player already technically left
    (ingame, [])
  else
    let counter := ingame.LagCounter i + 1
    if l.LagAutoKickSeconds ≤ counter then
      (setLagCounter ingame i 0, lagKickEvents x i l.LagAutoKickSeconds)
    else if l.LagAutoKickSeconds - 3 ≤ counter then
      (setLagCounter ingame i counter, lagWarnEvents i (l.LagAutoKickSeconds - counter))
    else if Int.tmod counter 15 = 0 then
      -- every 15 seconds
      (setLagCounter ingame i counter, lagWarnEvents i (l.LagAutoKickSeconds - counter))
    else
      (setLagCounter ingame i counter, [])

/-- Body of the `for` loop of `autoLagKickRoutine` for slot `i`. -/
def autoLagKickBody (c : Consts) (x : Externals) (g : Globals) (now : Int)
    (isInitialLoad : Bool) (i : Nat) (st : LagLoopState) : Option LagLoopState :=
  match isHumanPlayer c g.NetPlay (i : Int) with
  | none => none
  | some false => some st
  | some true =>
    if i = g.NetPlay.hostPlayer then some st
    else if c.MAX_PLAYERS < i ∧ x.gtimeShouldWaitForPlayer i = false then some st
    else
      let l := lagSlotLocals c x g now isInitialLoad i st
      let r := lagCounterStep x i st.ingame l
      some { ingame := r.1,
             LagAutoKickSeconds := l.LagAutoKickSeconds,
             numPlayersLoaded := l.numPlayersLoaded,
             totalNumPlayers := l.totalNumPlayers,
             events := st.events ++ r.2 }

/-- Source function `autoLagKickRoutine(now)`: the new `ingame` and the calls
made.  The loop index is a `uint32_t` below `MAX_CONNECTED_PLAYERS`, passed to
`isHumanPlayer` unchanged. -/
def autoLagKickRoutine (c : Consts) (x : Externals) (g : Globals)
    (ingame : MULTIPLAYERINGAME) (now : Int) : Option (MULTIPLAYERINGAME × List Event) :=
  if x.bMultiPlayer = false ∨ x.bComms = false ∨ g.NetPlay.isHost = false then
    some (ingame, [])
  else if x.war_getAutoLagKickSeconds ≤ 0 then some (ingame, [])
  else if durationMilliseconds (now - ingame.lastLagCheck) < LAG_CHECK_INTERVAL then
    some (ingame, [])
  else
    let isLobby : Bool := g.localJoiningInProgress
    let isInitialLoad : Bool := !isLobby && ingame.TimeEveryoneIsInGame.isNone
    let playerCheckLimit :=
      if isLobby = true ∨ isInitialLoad = true then c.MAX_CONNECTED_PLAYERS else c.MAX_PLAYERS
    (forLoop (autoLagKickBody c x g now isInitialLoad) 0 playerCheckLimit
        { ingame := { ingame with lastLagCheck := now },
          LagAutoKickSeconds := x.war_getAutoLagKickSeconds,
          numPlayersLoaded := 0, totalNumPlayers := 0, events := [] }).map
      (fun st => (st.ingame, st.events))


/-- What the environment supplies to one pass of the lag monitor: the globals,
the external inputs, the clock, and the `ingame` fields other than
`LagCounter` as they stand at that pass. -/
structure LagTick where
  g : Globals
  x : Externals
  now : Int
  env : MULTIPLAYERINGAME

/-- A sequence of `autoLagKickRoutine` passes: each pass starts from the lag
counters the previous pass left. -/
def runLagPasses (c : Consts) : List LagTick → (Nat → Int) → Option (Nat → Int)
  | [], counters => some counters
  | t :: ts, counters =>
    match autoLagKickRoutine c t.x t.g { t.env with LagCounter := counters } t.now with
    | none => none
    | some r => runLagPasses c ts r.1.LagCounter

/-! ## Desync monitor (multiplay.cpp, `autoDesyncKickRoutine`) -/

/-- Loop-carried state of the loops that only update `ingame` and make calls. -/
structure LoopState where
  ingame : MULTIPLAYERINGAME
  events : List Event

/-- The calls made when the desync counter of slot `i` reaches the threshold. -/
def desyncKickEvents (x : Externals) (i : Nat) (DesyncAutoKickSeconds : Int) : List Event :=
  [ Event.debug "LOG_INFO"
      "Auto-kicking player %u (\"%s\") because of desync. (Timeout: %u seconds)"
      i (toUInt32 DesyncAutoKickSeconds),
    Event.sendInGameSystemMessage
      "Auto-kicking player %u (\"%s\") because of desync. (Timeout: %u seconds)"
      i (toUInt32 DesyncAutoKickSeconds) ]
  ++ (if x.wz_command_interface_enabled = true then
        [Event.commandInterfaceOutput "WZEVENT: desync-kick: %u %s %s\n" i]
      else [])
  ++ [ Event.kickPlayer i "Your game simulation deviated too far from the host - desync."
        LOBBY_ERROR_TYPES.ERROR_CONNECTION false ]

/-- The warning broadcast while the desync counter of slot `i` is below the threshold. -/
def desyncWarnEvents (i : Nat) (remaining : Int) : List Event :=
  [ Event.debug "LOG_INFO" "Auto-kicking player %u (\"%s\") in %u seconds. (desync)"
      i (toUInt32 remaining),
    Event.sendInGameSystemMessage "Auto-kicking player %u (\"%s\") in %u seconds. (desync)"
      i (toUInt32 remaining) ]

/-- Body of the `for` loop of `autoDesyncKickRoutine` for slot `i`. -/
def autoDesyncKickBody (c : Consts) (x : Externals) (g : Globals)
    (DesyncAutoKickSeconds : Int) (i : Nat) (st : LoopState) : Option LoopState :=
  match isHumanPlayer c g.NetPlay (i : Int) with
  | none => none
  | some false => some st
  | some true =>
    if i = g.NetPlay.hostPlayer then some st
    else if c.MAX_PLAYERS < i ∧ x.gtimeShouldWaitForPlayer i = false then some st
    else if x.desyncStatus i = false then
      some { st with ingame := setDesyncCounter st.ingame i 0 }
    else if st.ingame.PendingDisconnect i = true then some st
    else
      let counter := st.ingame.DesyncCounter i + 1
      if DesyncAutoKickSeconds ≤ counter then
        some { ingame := setDesyncCounter st.ingame i 0,
               events := st.events ++ desyncKickEvents x i DesyncAutoKickSeconds }
      else if DesyncAutoKickSeconds - 3 ≤ counter then
        some { ingame := setDesyncCounter st.ingame i counter,
               events := st.events ++ desyncWarnEvents i (DesyncAutoKickSeconds - counter) }
      else if Int.tmod counter 2 = 0 then
        some { ingame := setDesyncCounter st.ingame i counter,
               events := st.events ++ desyncWarnEvents i (DesyncAutoKickSeconds - counter) }
      else
        some { st with ingame := setDesyncCounter st.ingame i counter }

/-- Source function `autoDesyncKickRoutine(now)`. -/
def autoDesyncKickRoutine (c : Consts) (x : Externals) (g : Globals)
    (ingame : MULTIPLAYERINGAME) (now : Int) : Option (MULTIPLAYERINGAME × List Event) :=
  if x.bMultiPlayer = false ∨ x.bComms = false ∨ g.NetPlay.isHost = false then
    some (ingame, [])
  else if x.war_getAutoDesyncKickSeconds ≤ 0 then some (ingame, [])
  else if durationMilliseconds (now - ingame.lastDesyncCheck) < DESYNC_CHECK_INTERVAL then
    some (ingame, [])
  else if ingame.endTime.isSome = true then
    -- game ended - skip desync check / kick
    some (ingame, [])
  else
    (forLoop (autoDesyncKickBody c x g x.war_getAutoDesyncKickSeconds) 0 c.MAX_PLAYERS
        { ingame := { ingame with lastDesyncCheck := now }, events := [] }).map
      (fun st => (st.ingame, st.events))

/-! ## Lobby not-ready monitor (multiplay.cpp, `autoLobbyNotReadyKickRoutine`) -/

/-- Source function `calculateSecondsNotReadyForPlayer(i, now)`; the sum is a
`uint64_t` sum. -/
def calculateSecondsNotReadyForPlayer (g : Globals) (ingame : MULTIPLAYERINGAME)
    (i : Nat) (now : Int) : Nat :=
  if g.NetPlay.players.length ≤ i then 0
  else
    match ingame.lastNotReadyTimes i with
    | some t =>
      -- accumulate time since last not ready
      toUInt64 ((ingame.secondsNotReady i : Int) + durationSeconds (now - t))
    | none => ingame.secondsNotReady i

/-- The calls made when slot `i` has been not ready for too long. -/
def notReadyKickEvents (x : Externals) (i : Nat) (NotReadyAutoKickSeconds : Int) :
    List Event :=
  [ Event.debug "LOG_INFO"
      "Auto-kicking player %u (\"%s\") because they aren't ready. (Timeout: %u seconds)"
      i (toUInt32 NotReadyAutoKickSeconds),
    Event.sendQuickChat "NotReadyKicked" i none ]
  ++ (if x.wz_command_interface_enabled = true then
        [Event.commandInterfaceOutput "WZEVENT: notready-kick: %u %s %s\n" i]
      else [])
  ++ [ Event.kickPlayer i
        "You have been removed from the room.\nYou have spent too much time without checking Ready.\n\nIn the future, please check Ready and leave it checked, to avoid delaying games for other players."
        LOBBY_ERROR_TYPES.ERROR_CONNECTION false ]

/-- Body of the `for` loop of `autoLobbyNotReadyKickRoutine` for slot `i`. -/
def autoLobbyNotReadyKickBody (c : Consts) (x : Externals) (g : Globals) (now : Int)
    (NotReadyAutoKickSeconds : Int) (i : Nat) (st : LoopState) : Option LoopState :=
  match isHumanPlayer c g.NetPlay (i : Int) with
  | none => none
  | some false => some st
  | some true =>
    if i = g.NetPlay.hostPlayer then some st
    else if c.MAX_PLAYERS < i ∧ x.gtimeShouldWaitForPlayer i = false then some st
    else if st.ingame.PendingDisconnect i = true then some st
    else
      let totalSecondsNotReady := calculateSecondsNotReadyForPlayer g st.ingame i now
      if toUInt64 NotReadyAutoKickSeconds ≤ totalSecondsNotReady then
        some { st with events := st.events ++ notReadyKickEvents x i NotReadyAutoKickSeconds }
      else
        match g.NetPlay.players[i]? with
        | none => none
        | some p =>
          if p.ready = false ∧ toUInt64 (NotReadyAutoKickSeconds - 6) ≤ totalSecondsNotReady then
            some { st with events :=
              st.events ++ [Event.sendQuickChat "NotReadyKickWarning" i (some i)] }
          else some st

/-- Source function `autoLobbyNotReadyKickRoutine(now)`. -/
def autoLobbyNotReadyKickRoutine (c : Consts) (x : Externals) (g : Globals)
    (ingame : MULTIPLAYERINGAME) (now : Int) : Option (MULTIPLAYERINGAME × List Event) :=
  if x.bMultiPlayer = false ∨ x.bComms = false ∨ g.NetPlay.isHost = false then
    some (ingame, [])
  else if g.localJoiningInProgress = false then some (ingame, [])
  else if x.multiplayPlayersCanCheckReady = false then
    -- If players can't check ready, skip
    some (ingame, [])
  else if x.war_getAutoLagKickSeconds ≤ 0 then some (ingame, [])
  else if durationMilliseconds (now - ingame.lastNotReadyCheck) < NOTREADY_CHECK_INTERVAL then
    some (ingame, [])
  else
    (forLoop (autoLobbyNotReadyKickBody c x g now x.war_getAutoLagKickSeconds) 0
        c.MAX_CONNECTED_PLAYERS
        { ingame := { ingame with lastNotReadyCheck := now }, events := [] }).map
      (fun st => (st.ingame, st.events))

/-! ## Data check, phase 2 (multiplay.cpp, `sendDataCheck2`, `recvDataCheck2`) -/

/-- Source function `maxDataCheck2WaitSeconds()`. -/
def maxDataCheck2WaitSeconds (x : Externals) : Int :=
  max (x.war_getAutoLagKickSeconds + 3) 60

/-- Assignment to `ingame.lastSentPlayerDataCheck2[player]`. -/
def setLastSentPlayerDataCheck2 (ingame : MULTIPLAYERINGAME) (player : Nat)
    (v : Option Int) : MULTIPLAYERINGAME :=
  { ingame with
    lastSentPlayerDataCheck2 := Function.update ingame.lastSentPlayerDataCheck2 player v }

/-- The calls made by the host when a challenge to `player` timed out. -/
def dataCheck2TimeoutEvents (ingame : MULTIPLAYERINGAME) (player : Nat)
    (maxWaitSeconds : Int) : List Event :=
  (if ingame.PendingDisconnect player = false then
      [ Event.sendInGameSystemMessage "%s (%u) has an incompatible mod, and has been kicked."
          player player,
        Event.addConsoleMessage "%s (%u) has an incompatible mod, and has been kicked." ]
    else [])
  ++ [ Event.kickPlayer player "Your data doesn't match the host's!"
         LOBBY_ERROR_TYPES.ERROR_WRONGDATA false,
       Event.log "LOG_INFO"
         "%s (%u) did not respond with a NET_DATA_CHECK2 within the required timeframe (%s seconds), and has been kicked"
         [(player : Int), maxWaitSeconds] ]

/-- Body of the `for` loop of the host branch of `sendDataCheck2` for slot `player`. -/
def sendDataCheck2Body (c : Consts) (g : Globals) (now : Int) (maxWaitSeconds : Int)
    (player : Nat) (st : LoopState) : Option LoopState :=
  if player = g.NetPlay.hostPlayer then some st
  else
    match isHumanPlayer c g.NetPlay (player : Int) with
    | none => none
    | some false => some st
    | some true =>
      match g.NetPlay.players[player]? with
      | none => none
      | some p =>
        if p.isSpectator = true then some st
        else
          -- Check when the last unanswered request was sent
          let timedOut : Bool :=
            match st.ingame.lastSentPlayerDataCheck2 player with
            | some t => decide (maxWaitSeconds ≤ durationSeconds (now - t))
            | none => false
          if timedOut = true then
            -- If it's after the allowed time, kick the player
            some { ingame := setLastSentPlayerDataCheck2 st.ingame player none,
                   events := st.events ++ dataCheck2TimeoutEvents st.ingame player maxWaitSeconds }
          else
            some { ingame :=
                     if (st.ingame.lastSentPlayerDataCheck2 player).isSome = true then st.ingame
                     else setLastSentPlayerDataCheck2 st.ingame player (some now),
                   events := st.events ++
                     [Event.NETsend player NET_DATA_CHECK2 [(g.NetPlay.hostPlayer : Int)]] }

/-- The fields a client encodes in its `NET_DATA_CHECK2` response, in wire order. -/
def dataCheck2ResponseFields (x : Externals) (g : Globals) (aiIndex : Int) : List Int :=
  [(g.selectedPlayer : Int), (g.realSelectedPlayer : Int), (x.overlayLayers.length : Int)]
  ++ (x.overlayLayers.map (fun l => [(l.1 : Int), (l.2 : Int)])).flatten
  ++ x.DataHash.map (fun h => (h : Int))
  ++ [aiIndex, if x.godMode = true then 1 else 0]

/-- Source function `sendDataCheck2()`, with the value of
`std::chrono::steady_clock::now()` passed in: the new `ingame`, the calls made
and the returned flag. -/
def sendDataCheck2 (c : Consts) (x : Externals) (g : Globals) (ingame : MULTIPLAYERINGAME)
    (now : Int) : Option (MULTIPLAYERINGAME × List Event × Bool) :=
  if g.NetPlay.isHost = true then
    if durationMilliseconds (now - ingame.lastPlayerDataCheck2) < DATACHECK2_INTERVAL_MS then
      some (ingame, [], true)
    else
      -- Send a request to all active players
      (forLoop (sendDataCheck2Body c g now (maxDataCheck2WaitSeconds x)) 0
          (min x.maxPlayers c.MAX_PLAYERS) { ingame := ingame, events := [] }).map
        (fun st => ({ st.ingame with lastPlayerDataCheck2 := now }, st.events, true))
  else
    -- For a player, respond to the host
    match g.NetPlay.players[g.realSelectedPlayer]? with
    | none => none
    | some me =>
      some (ingame,
        [Event.NETsend g.NetPlay.hostPlayer NET_DATA_CHECK2 (dataCheck2ResponseFields x g me.ai)],
        true)

/-- Source function `HandleBadParam(msg, from, actual)`: the calls made. -/
def HandleBadParam (x : Externals) (g : Globals) (msg : String) (bad : Int) (actual : Nat) :
    List Event :=
  [Event.NETlogEntry msg (actual : Int) bad]
  ++ (if g.NetPlay.isHost = true then
        (if x.NETplayerHasConnection actual = true then
            [Event.sendInGameSystemMessage "Auto kicking player %s, invalid command received."
              actual 0]
          else [])
        ++ [Event.kickPlayer actual
              (if x.NETplayerHasConnection actual = true then
                "Auto kicking player %s, invalid command received."
              else "!!>Msg: %s, Actual: %d, Bad: %d")
              LOBBY_ERROR_TYPES.ERROR_INVALID false]
      else [])

/-- The decoded fields of a `NET_DATA_CHECK2` message in wire order.  `layers`
holds the `layersSize` pairs `(zOrder, layerCount)`; `tempBuffer` the checksum
vector.  A request from the host carries `recvSelectedPlayer` only. -/
structure DataCheck2Message where
  recvSelectedPlayer : Nat
  recvRealSelectedPlayer : Nat
  layers : List (Nat × Nat)
  tempBuffer : List Nat
  aiIndex : Int
  recvGM : Bool
  deriving DecidableEq, Repr

/-- What `recvDataCheck2` returned and did: the returned flag, the final value
of the local `hasWrongData`, the index reported by the checksum search, the
new `ingame` and the calls made. -/
structure DataCheck2Result where
  returned : Bool
  hasWrongData : Bool
  mismatchIndex : Option Nat
  ingame : MULTIPLAYERINGAME
  events : List Event

/-- The search loop `for (; DataHash[i] == tempBuffer[i]; ++i) {}` of
`recvDataCheck2` over the remaining elements of the two arrays, started at
index `i`: the index at which it stops, `none` when it would read past the end
of an array. -/
def firstMismatch : List Nat → List Nat → Nat → Option Nat
  | a :: as, b :: bs, i => if a = b then firstMismatch as bs (i + 1) else some i
  | _, _, _ => none

/-- Lookup in the map built by `layers[zOrder] = layerCount` over the decoded
pairs (a later pair overwrites an earlier one with the same key). -/
def layerCount (layers : List (Nat × Nat)) (z : Nat) : Option Nat :=
  layers.reverse.lookup z

/-- The checks of `recvDataCheck2` between the reset of the outstanding
challenge and the final `if (hasWrongData)`, for sender record `p`: the value
of `hasWrongData`, the index found by the checksum search and the `debug`
calls; `none` when the checksum search would leave the arrays. -/
def dataCheck2Validate (x : Externals) (player : Nat) (p : PLAYER) (m : DataCheck2Message) :
    Option (Bool × Option Nat × List Event) :=
  let layersSize := m.layers.length
  let zOrder : Nat := match m.layers.getLast? with
    | some l => l.1
    | none => 0
  let corruptedIndex : Bool :=
    !p.isSpectator && (decide (m.recvSelectedPlayer ≠ player)
      || decide (m.recvRealSelectedPlayer ≠ player))
  let ev1 := if corruptedIndex = true then
      [Event.log "LOG_INFO"
        "%s (%u) has a corrupted player index. (selectedPlayer: %u, realSelectedPlayer: %u)"
        [(player : Int), (m.recvSelectedPlayer : Int), (m.recvRealSelectedPlayer : Int)]]
    else []
  let highLayers : Bool := decide (1024 < layersSize)
  let ev2 := if highLayers = true then
      [Event.log "LOG_INFO"
        "%s (%u) has a very high layersSize - something is probably wrong. (layersSize: %u)"
        [(player : Int), (layersSize : Int)]]
    else []
  -- the loop `for (uint16_t zCheck = 65530; zOrder < 65535 - 2; ++zOrder)`
  let ev3 := if p.isSpectator = false then
      match layerCount m.layers 65530 with
      | some n => List.replicate (65533 - zOrder)
          (Event.log "LOG_INFO" "%s (%u) has an unexpected display layer. (layer: %u, count: %u)"
            [(player : Int), 65530, (n : Int)])
      | none => []
    else []
  let scriptDebugger : Bool :=
    !p.isSpectator && (layerCount m.layers 65533).isSome && !x.debugMappingsAllowed
  let ev4 := if scriptDebugger = true then
      [Event.log "LOG_INFO" "%s (%u) has an unexpected display layer (script debugger)."
        [(player : Int)]]
    else []
  let ev5 := if p.isSpectator = false then
      match layerCount m.layers 65535 with
      | some n => if 1 < n then
          [Event.log "LOG_INFO" "%s (%u) has an unexpected number of notification layers. (count: %u)"
            [(player : Int), (n : Int)]]
        else []
      | none => []
    else []
  let afterChecksum : Option (Bool × Option Nat × List Event) :=
    -- memcmp(DataHash, tempBuffer, sizeof(DataHash))
    if x.DataHash ≠ m.tempBuffer then
      match firstMismatch x.DataHash m.tempBuffer 0 with
      | none => none
      | some i =>
        some (true, some i,
          [Event.log "LOG_INFO" "%s (%u) has an incompatible mod. ([%d] got %x, expected %x)"
            [(player : Int), (i : Int), (m.tempBuffer.getD i 0 : Int),
             (x.DataHash.getD i 0 : Int)]])
    else some (false, none, [])
  match afterChecksum with
  | none => none
  | some (wrongHash, idx, ev6) =>
    let wrongAi : Bool := decide (m.aiIndex ≠ p.ai)
    let ev7 := if wrongAi = true then
        [Event.log "LOG_INFO" "%s (%u) has a corrupted player state value. (ai: %d; should be: %d)"
          [(player : Int), m.aiIndex, p.ai]]
      else []
    let wrongGM : Bool := !p.isSpectator && m.recvGM
    let ev8 := if wrongGM = true then
        [Event.log "LOG_INFO" "%s (%u) has a corrupted global state value. (godMode: %s)"
          [(player : Int), 1]]
      else []
    some (corruptedIndex || highLayers || scriptDebugger || wrongHash || wrongAi || wrongGM,
      idx, ev1 ++ ev2 ++ ev3 ++ ev4 ++ ev5 ++ ev6 ++ ev7 ++ ev8)

/-- The calls made by `recvDataCheck2` when `hasWrongData` is set. -/
def wrongDataKickEvents (player : Nat) : List Event :=
  [ Event.sendInGameSystemMessage "%s (%u) has an incompatible mod, and has been kicked."
      player player,
    Event.addConsoleMessage "%s (%u) has an incompatible mod, and has been kicked.",
    Event.kickPlayer player "Your data doesn't match the host's!"
      LOBBY_ERROR_TYPES.ERROR_WRONGDATA false ]

/-- Source function `recvDataCheck2(NETQUEUE queue)` applied to the decoded
message `m`. -/
def recvDataCheck2 (c : Consts) (x : Externals) (g : Globals) (ingame : MULTIPLAYERINGAME)
    (now : Int) (queue : NETQUEUE) (m : DataCheck2Message) : Option DataCheck2Result :=
  let player := queue.index
  if g.NetPlay.isHost = false then
    -- the host can send NET_DATA_CHECK2 messages to clients to request a check
    if g.NetPlay.hostPlayer ≠ queue.index then
      some ⟨false, false, none, ingame,
        [Event.log "ASSERT" "Non-host player (%u) is sending NET_DATA_CHECK2 to us??"
          [(queue.index : Int)]]⟩
    else if g.NetPlay.hostPlayer ≠ m.recvSelectedPlayer then
      some ⟨false, false, none, ingame,
        [Event.log "ASSERT"
          "Non-host player (selectedPlayer: %u) is sending NET_DATA_CHECK2 to us??"
          [(m.recvSelectedPlayer : Int)]]⟩
    else
      match sendDataCheck2 c x g ingame now with
      | none => none
      | some r => some ⟨true, false, none, r.1, r.2.1⟩
  else if c.MAX_CONNECTED_PLAYERS ≤ player then
    -- invalid player number.
    some ⟨false, false, none, ingame,
      [Event.log "LOG_ERROR" "invalid player number (%u) detected." [(player : Int)]]⟩
  else
    match whosResponsible c g (player : Int) with
    | none => none
    | some responsible =>
      if responsible ≠ (queue.index : Int) then
        some ⟨false, false, none, ingame,
          HandleBadParam x g "NET_DATA_CHECK2 given incorrect params." (player : Int)
            queue.index⟩
      else if g.NetPlay.players.length ≤ m.recvRealSelectedPlayer then
        some ⟨false, false, none, ingame,
          HandleBadParam x g "NET_DATA_CHECK2 given invalid param."
            (toInt32 m.recvRealSelectedPlayer) queue.index⟩
      else
        match isHumanPlayer c g.NetPlay (player : Int) with
        | none => none
        | some false =>
          -- Ignoring
          some ⟨false, false, none, ingame, []⟩
        | some true =>
          match g.NetPlay.players[player]? with
          | none => none
          | some p =>
            if p.kick = true then
              -- Ignoring
              some ⟨false, false, none, ingame, []⟩
            else
              let ingame1 := setLastSentPlayerDataCheck2 ingame player none
              let received :=
                [Event.log "LOG_NET" "** Received NET_DATA_CHECK2 from player %u"
                  [(player : Int)]]
              match dataCheck2Validate x player p m with
              | none => none
              | some (hasWrongData, idx, logs) =>
                if hasWrongData = true then
                  some ⟨false, true, idx, ingame1,
                    received ++ logs ++ wrongDataKickEvents player⟩
                else
                  some ⟨true, false, idx, ingame1, received ++ logs⟩

/-! ## Sample session of the monitors -/

/-- Constants of the monitor samples: player slots 0 and 1, spectator slot 3. -/
def monitorConsts : Consts :=
  { MAX_PLAYERS := 2, MAX_CONNECTED_PLAYERS := 4, QUEUE_GAME := 1 }

/-- External inputs of the monitor samples: auto-kick after 1 second. -/
def sampleExternals : Externals :=
  { bMultiPlayer := true, bComms := true, war_getAutoLagKickSeconds := 1,
    war_getAutoDesyncKickSeconds := 1, PING_LIMIT := 4000,
    gtimeShouldWaitForPlayer := fun _ => true, desyncStatus := fun _ => false,
    multiplayPlayersCanCheckReady := true, wz_command_interface_enabled := false,
    NETplayerHasConnection := fun _ => true, maxPlayers := 2,
    DataHash := [10, 20, 30, 40, 50, 60], debugMappingsAllowed := false, godMode := false,
    overlayLayers := [] }

/-- Monitor state at the start of the load phase: every counter 0, slot 3
(the spectator) still joining, nothing pending. -/
def sampleIngame : MULTIPLAYERINGAME :=
  { PingTimes := fun _ => 0, LagCounter := fun _ => 0, DesyncCounter := fun _ => 0,
    JoiningInProgress := fun i => decide (i = 3), PendingDisconnect := fun _ => false,
    DataIntegrity := fun _ => false, secondsNotReady := fun _ => 0,
    lastNotReadyTimes := fun _ => none, lastSentPlayerDataCheck2 := fun _ => none,
    TimeEveryoneIsInGame := none, isAllPlayersDataOK := false, startTime := 0,
    endTime := none, lastLagCheck := 0, lastDesyncCheck := 0, lastNotReadyCheck := 0,
    lastPlayerDataCheck2 := 0 }

/-- Slot `i` passes the three skip tests that open the loop body of every
monitor: it is human, it is not the host, and it is not a slot above
`MAX_PLAYERS` that `gtimeShouldWaitForPlayer` rejects. -/
def slotExamined (c : Consts) (x : Externals) (g : Globals) (i : Nat) : Prop :=
  isHumanPlayer c g.NetPlay (i : Int) = some true ∧ i ≠ g.NetPlay.hostPlayer ∧
    ¬ (c.MAX_PLAYERS < i ∧ x.gtimeShouldWaitForPlayer i = false)

instance slotExaminedDecidable (c : Consts) (x : Externals) (g : Globals) (i : Nat) :
    Decidable (slotExamined c x g i) := by
  unfold slotExamined
  infer_instance

/-- Two passes of the lag monitor with threshold 2: slot 1 lags in the first
pass and has recovered in the second. -/
def sampleLagTicks : List LagTick :=
  [ { g := sampleHost, x := { sampleExternals with war_getAutoLagKickSeconds := 2 },
      now := 5000000000,
      env := { sampleIngame with PingTimes := fun _ => 9999, TimeEveryoneIsInGame := some 0 } },
    { g := sampleHost, x := { sampleExternals with war_getAutoLagKickSeconds := 2 },
      now := 7000000000,
      env := { sampleIngame with TimeEveryoneIsInGame := some 0 } } ]

/-- Loop invariant of `autoLagKickRoutine` before iteration `i`, relative to
the `ingame` at loop entry and a watched slot `k`: the joining flags and the
start time are unchanged, slot `k` has not been kicked nor its counter raised,
`numPlayersLoaded ≤ totalNumPlayers`, the two differ once a counted player
that is still joining has been passed, and `totalNumPlayers` is 0 when no
slot below `MAX_PLAYERS` is counted at all. -/
def lagGraceInvariant (c : Consts) (g : Globals) (ingame : MULTIPLAYERINGAME) (k i : Nat)
    (st : LagLoopState) : Prop :=
  st.ingame.JoiningInProgress = ingame.JoiningInProgress ∧
  st.ingame.startTime = ingame.startTime ∧
  st.ingame.LagCounter k ≤ ingame.LagCounter k ∧ kicksFor k st.events = 0 ∧
  st.numPlayersLoaded ≤ st.totalNumPlayers ∧
  (∀ j, j < i → j < c.MAX_PLAYERS → isHumanPlayer c g.NetPlay (j : Int) = some true →
    j ≠ g.NetPlay.hostPlayer → ingame.JoiningInProgress j = true →
    st.numPlayersLoaded < st.totalNumPlayers) ∧
  ((∀ j, j < c.MAX_PLAYERS →
    ¬ (isHumanPlayer c g.NetPlay (j : Int) = some true ∧ j ≠ g.NetPlay.hostPlayer)) →
    st.totalNumPlayers = 0)

/-- Loop invariant of `autoLagKickRoutine` before iteration `i` for a watched
slot `k`, relative to the `ingame` at loop entry: `PendingDisconnect` and
`DesyncCounter` are unchanged; until `k` is reached it has no kick and its
counter is unchanged; it has at most one kick; a slot that fails a skip test
stays untouched; a pending slot is neither kicked nor incremented. -/
def lagSlotInvariant (c : Consts) (x : Externals) (g : Globals) (ingame : MULTIPLAYERINGAME)
    (k i : Nat) (st : LagLoopState) : Prop :=
  st.ingame.PendingDisconnect = ingame.PendingDisconnect ∧
  st.ingame.DesyncCounter = ingame.DesyncCounter ∧
  (i ≤ k → kicksFor k st.events = 0 ∧ st.ingame.LagCounter k = ingame.LagCounter k) ∧
  kicksFor k st.events ≤ 1 ∧
  (¬ slotExamined c x g k →
    kicksFor k st.events = 0 ∧ st.ingame.LagCounter k = ingame.LagCounter k) ∧
  (ingame.PendingDisconnect k = true →
    kicksFor k st.events = 0 ∧ st.ingame.LagCounter k ≤ ingame.LagCounter k)

/-- Loop invariant of `autoDesyncKickRoutine` before iteration `i` for a
watched slot `k`, relative to the `ingame` at loop entry. -/
def desyncSlotInvariant (c : Consts) (x : Externals) (g : Globals)
    (ingame : MULTIPLAYERINGAME) (k i : Nat) (st : LoopState) : Prop :=
  st.ingame.PendingDisconnect = ingame.PendingDisconnect ∧
  st.ingame.LagCounter = ingame.LagCounter ∧
  (i ≤ k → kicksFor k st.events = 0 ∧ st.ingame.DesyncCounter k = ingame.DesyncCounter k) ∧
  kicksFor k st.events ≤ 1 ∧
  (¬ slotExamined c x g k →
    kicksFor k st.events = 0 ∧ st.ingame.DesyncCounter k = ingame.DesyncCounter k) ∧
  (ingame.PendingDisconnect k = true →
    kicksFor k st.events = 0 ∧
    (st.ingame.DesyncCounter k = ingame.DesyncCounter k ∨ st.ingame.DesyncCounter k = 0))

/-- Loop invariant of `autoLobbyNotReadyKickRoutine` before iteration `i` for a
watched slot `k`: `ingame` stays as at loop entry (`ingame1`); until `k` is
reached it has no kick; afterwards it has exactly one kick when it was
examined, not pending, and its not-ready total reached the threshold, and
none otherwise. -/
def notReadySlotInvariant (c : Consts) (x : Externals) (g : Globals)
    (ingame1 : MULTIPLAYERINGAME) (now : Int) (T : Int) (k i : Nat) (st : LoopState) : Prop :=
  st.ingame = ingame1 ∧
  (i ≤ k → kicksFor k st.events = 0) ∧
  (k < i → kicksFor k st.events =
    if slotExamined c x g k ∧ ingame1.PendingDisconnect k = false ∧
        toUInt64 T ≤ calculateSecondsNotReadyForPlayer g ingame1 k now then 1 else 0)

/-- The sample session seen from the host while still in the lobby. -/
def sampleLobby : Globals :=
  { sampleHost with localJoiningInProgress := true }

/-- Lobby state in which slot `i` has accumulated `i` not-ready seconds. -/
def sampleLobbyIngame : MULTIPLAYERINGAME :=
  { sampleIngame with secondsNotReady := fun i => i }

/-- Number of `NET_DATA_CHECK2` messages encoded on the net queue of slot `k`
in a trace. -/
def sendsTo (k : Nat) (evs : List Event) : Nat :=
  (evs.filter (fun e => match e with
    | Event.NETsend i t _ => decide (i = k ∧ t = NET_DATA_CHECK2)
    | _ => false)).length

/-- Slot `k` is visited by the host loop of `sendDataCheck2` and passes its
skip test: it is below `min(game.maxPlayers, MAX_PLAYERS)`, is not the host,
is human and is not a spectator. -/
def dataCheck2Eligible (c : Consts) (x : Externals) (g : Globals) (k : Nat) : Prop :=
  k < min x.maxPlayers c.MAX_PLAYERS ∧ k ≠ g.NetPlay.hostPlayer ∧
    isHumanPlayer c g.NetPlay (k : Int) = some true ∧
    (g.NetPlay.players[k]?).map (fun p => p.isSpectator) = some false

instance dataCheck2EligibleDecidable (c : Consts) (x : Externals) (g : Globals) (k : Nat) :
    Decidable (dataCheck2Eligible c x g k) := by
  unfold dataCheck2Eligible
  infer_instance

/-- The timeout test of `sendDataCheck2` on the timestamp of an outstanding
challenge: it has a value and at least `maxWaitSeconds` whole seconds have
passed since. -/
def challengeTimedOut (sent : Option Int) (now : Int) (maxWaitSeconds : Int) : Bool :=
  match sent with
  | some t => decide (maxWaitSeconds ≤ durationSeconds (now - t))
  | none => false

/-- The `kickPlayer` call of the timeout path of `sendDataCheck2`. -/
def dataCheck2TimeoutKick (k : Nat) : Event :=
  Event.kickPlayer k "Your data doesn't match the host's!" LOBBY_ERROR_TYPES.ERROR_WRONGDATA false

/-- What the host loop of `sendDataCheck2` has done about slot `k` when it has
reached index `i`, starting from `ingame0`. -/
def dataCheck2SlotInvariant (c : Consts) (x : Externals) (g : Globals)
    (ingame0 : MULTIPLAYERINGAME) (now : Int) (k : Nat) (i : Nat) (st : LoopState) : Prop :=
  st.ingame.PendingDisconnect = ingame0.PendingDisconnect ∧
  if k < i ∧ dataCheck2Eligible c x g k then
    if challengeTimedOut (ingame0.lastSentPlayerDataCheck2 k) now (maxDataCheck2WaitSeconds x)
        = true then
      kicksFor k st.events = 1 ∧ dataCheck2TimeoutKick k ∈ st.events ∧
        sendsTo k st.events = 0 ∧ st.ingame.lastSentPlayerDataCheck2 k = none
    else
      kicksFor k st.events = 0 ∧ sendsTo k st.events = 1 ∧
        st.ingame.lastSentPlayerDataCheck2 k =
          (if (ingame0.lastSentPlayerDataCheck2 k).isSome = true
            then ingame0.lastSentPlayerDataCheck2 k else some now)
  else
    kicksFor k st.events = 0 ∧ sendsTo k st.events = 0 ∧
      st.ingame.lastSentPlayerDataCheck2 k = ingame0.lastSentPlayerDataCheck2 k

/-- Host state in which slot 1 has an unanswered challenge sent at time 0. -/
def sampleChallenged : MULTIPLAYERINGAME :=
  { sampleIngame with lastSentPlayerDataCheck2 := fun i => if i = 1 then some 0 else none }

/-- The event is a `debug(...)` log line. -/
def isLogEvent : Event → Bool
  | Event.log _ _ _ => true
  | _ => false

/-- A response from slot 1 that matches the host in every field. -/
def sampleResponse : DataCheck2Message :=
  { recvSelectedPlayer := 1, recvRealSelectedPlayer := 1, layers := [],
    tempBuffer := [10, 20, 30, 40, 50, 60], aiIndex := 0, recvGM := false }

/-- Overlay layers with z-orders `0 .. n - 1`, one screen each. -/
def sampleLayers (n : Nat) : List (Nat × Nat) :=
  (List.range n).map (fun z => (z, 1))

/-- The matching response with 1025 overlay layers (z-orders 0 .. 1024). -/
def sampleManyLayers : DataCheck2Message :=
  { sampleResponse with layers := sampleLayers 1025 }

/-- The matching response with the checksum at index 4 changed. -/
def sampleBadChecksum : DataCheck2Message :=
  { sampleResponse with tempBuffer := [10, 20, 30, 40, 55, 60] }

/-- The slot a call is about, for the calls that name one. -/
def eventPlayer : Event → Option Nat
  | Event.debug _ _ player _ => some player
  | Event.sendInGameSystemMessage _ player _ => some player
  | Event.kickPlayer index _ _ _ => some index
  | Event.commandInterfaceOutput _ player => some player
  | Event.sendQuickChat _ player _ => some player
  | Event.NETsend player _ _ => some player
  | _ => none

/-- The calls of a trace that are about slot `k`, in order. -/
def eventsAbout (k : Nat) (evs : List Event) : List Event :=
  evs.filter (fun e => decide (eventPlayer e = some k))

/-- The local `isInitialLoad` of `autoLagKickRoutine`. -/
def lagIsInitialLoad (g : Globals) (ingame : MULTIPLAYERINGAME) : Bool :=
  !g.localJoiningInProgress && ingame.TimeEveryoneIsInGame.isNone

/-- The local `playerCheckLimit` of `autoLagKickRoutine`. -/
def lagPlayerCheckLimit (c : Consts) (g : Globals) (ingame : MULTIPLAYERINGAME) : Nat :=
  if g.localJoiningInProgress = true ∨ lagIsInitialLoad g ingame = true
    then c.MAX_CONNECTED_PLAYERS else c.MAX_PLAYERS

/-- The loop-carried state of `autoLagKickRoutine` at loop entry. -/
def lagLoopInit (x : Externals) (ingame : MULTIPLAYERINGAME) (now : Int) : LagLoopState :=
  { ingame := { ingame with lastLagCheck := now },
    LagAutoKickSeconds := x.war_getAutoLagKickSeconds,
    numPlayersLoaded := 0, totalNumPlayers := 0, events := [] }

/-- The loop-carried state of `autoLagKickRoutine` when the loop index reaches
`k` (after the iterations `0 .. k - 1`). -/
def lagStateAt (c : Consts) (x : Externals) (g : Globals) (ingame : MULTIPLAYERINGAME)
    (now : Int) (k : Nat) : Option LagLoopState :=
  forLoop (autoLagKickBody c x g now (lagIsInitialLoad g ingame)) 0 k (lagLoopInit x ingame now)

/-- The conditions under which a call of `autoLagKickRoutine` reaches its loop. -/
def lagPassRuns (x : Externals) (g : Globals) (ingame : MULTIPLAYERINGAME) (now : Int) : Prop :=
  x.bMultiPlayer = true ∧ x.bComms = true ∧ g.NetPlay.isHost = true ∧
    0 < x.war_getAutoLagKickSeconds ∧
    LAG_CHECK_INTERVAL ≤ durationMilliseconds (now - ingame.lastLagCheck)

instance lagPassRunsDecidable (x : Externals) (g : Globals) (ingame : MULTIPLAYERINGAME)
    (now : Int) : Decidable (lagPassRuns x g ingame now) := by
  unfold lagPassRuns
  infer_instance

/-- Slot `j` is counted in `totalNumPlayers` by the lag loop: below
`MAX_PLAYERS`, human, not the host. -/
def countedSlot (c : Consts) (g : Globals) (j : Nat) : Prop :=
  j < c.MAX_PLAYERS ∧ isHumanPlayer c g.NetPlay (j : Int) = some true ∧ j ≠ g.NetPlay.hostPlayer

instance countedSlotDecidable (c : Consts) (g : Globals) (j : Nat) :
    Decidable (countedSlot c g j) := by
  unfold countedSlot
  infer_instance

/-- Loop invariant of `autoLagKickRoutine` before iteration `i`, for a watched
slot `k` not yet reached: the fields the loop only reads are unchanged, slot
`k` is untouched, and the threshold is the configured one or its cap at 10. -/
def lagPrefixInvariant (x : Externals) (ingame : MULTIPLAYERINGAME) (k i : Nat)
    (st : LagLoopState) : Prop :=
  st.ingame.JoiningInProgress = ingame.JoiningInProgress ∧
  st.ingame.PendingDisconnect = ingame.PendingDisconnect ∧
  st.ingame.PingTimes = ingame.PingTimes ∧
  st.ingame.startTime = ingame.startTime ∧
  (st.LagAutoKickSeconds = x.war_getAutoLagKickSeconds ∨
    st.LagAutoKickSeconds = min 10 x.war_getAutoLagKickSeconds) ∧
  (i ≤ k → st.ingame.LagCounter k = ingame.LagCounter k ∧ eventsAbout k st.events = [])

/-- Loop invariant of `autoLagKickRoutine` after the watched slot `k` has been
passed: its counter and the calls about it no longer change. -/
def lagSuffixInvariant (k : Nat) (v : Int) (E : List Event) (i : Nat)
    (st : LagLoopState) : Prop :=
  k < i ∧ st.ingame.LagCounter k = v ∧ eventsAbout k st.events = E

/-- Loop invariant of `autoLagKickRoutine` before iteration `i` on the player
counts: `numPlayersLoaded` and `totalNumPlayers` against the counted slots
passed so far, and the threshold while the spectator shortcut cannot have
applied. -/
def lagCountInvariant (c : Consts) (x : Externals) (g : Globals) (ingame : MULTIPLAYERINGAME)
    (i : Nat) (st : LagLoopState) : Prop :=
  st.ingame.JoiningInProgress = ingame.JoiningInProgress ∧
  st.numPlayersLoaded ≤ st.totalNumPlayers ∧
  ((∀ j, j < i → countedSlot c g j → ingame.JoiningInProgress j = false) →
    st.numPlayersLoaded = st.totalNumPlayers) ∧
  ((∃ j, j < i ∧ countedSlot c g j ∧ ingame.JoiningInProgress j = true) →
    st.numPlayersLoaded < st.totalNumPlayers) ∧
  (0 < st.totalNumPlayers ↔ ∃ j, j < i ∧ countedSlot c g j) ∧
  ((i ≤ c.MAX_PLAYERS + 1 ∨ (∀ j, ¬ countedSlot c g j) ∨
      (∃ j, countedSlot c g j ∧ ingame.JoiningInProgress j = true)) →
    st.LagAutoKickSeconds = x.war_getAutoLagKickSeconds)

/-- The spectator shortcut test of the lag loop body at slot `i`
(`totalNumPlayers > 0 && numPlayersLoaded == totalNumPlayers && i != hostPlayer`
inside `if (isWaitingForInitialLoad)` and `if (i > MAX_PLAYERS)`), on the
counts as updated by this iteration. -/
def lagShortcutTest (c : Consts) (x : Externals) (g : Globals) (now : Int)
    (isInitialLoad : Bool) (i : Nat) (st : LagLoopState) : Bool :=
  (isInitialLoad && st.ingame.JoiningInProgress i) && decide (c.MAX_PLAYERS < i)
    && decide (0 < (lagSlotLocals c x g now isInitialLoad i st).totalNumPlayers)
    && decide ((lagSlotLocals c x g now isInitialLoad i st).numPlayersLoaded
        = (lagSlotLocals c x g now isInitialLoad i st).totalNumPlayers)
    && decide (i ≠ g.NetPlay.hostPlayer)

/-- The sample session with slot 1 empty: the host is the only real player,
slot 3 is a human spectator. -/
def sampleHostOnly : Globals :=
  { sampleHost with
    NetPlay := { players := [ samplePlayer true false false, samplePlayer false false false,
                              samplePlayer false false false, samplePlayer true true false ],
                 hostPlayer := 0, isHost := true } }

/-! ## Main loop (multiplay.cpp, `multiPlayerLoop`) -/

/-- What one call of `multiPlayerLoop` reads from outside the modelled state:
`gameTime` (a `uint32_t`), the constant `GAME_TICKS_PER_SEC`, whether the
build defines `DEBUG`, the three readings of `std::chrono::steady_clock::now()`
(on entering the game, inside `sendDataCheck2`, before the monitors), whether
`game.blindMode` is a blind lobby mode, and the value of `testPlayerHasWon()`. -/
structure LoopInputs where
  gameTime : Nat
  GAME_TICKS_PER_SEC : Nat
  debugBuild : Bool
  nowEntered : Int
  nowDataCheck : Int
  nowMonitors : Int
  blindLobby : Bool
  testPlayerHasWon : Bool

/-- Body of the first loop of `multiPlayerLoop`; `joinCount` is a `UBYTE`. -/
def joinCountBody (c : Consts) (g : Globals) (ingame : MULTIPLAYERINGAME) (i : Nat)
    (joinCount : Nat) : Option Nat :=
  match isHumanPlayer c g.NetPlay (i : Int) with
  | none => none
  | some h =>
    some (if h = true ∧ ingame.JoiningInProgress i = true then (joinCount + 1) % 256
      else joinCount)

/-- The value of `joinCount` after the first loop of `multiPlayerLoop`. -/
def joinCount (c : Consts) (g : Globals) (ingame : MULTIPLAYERINGAME) : Option Nat :=
  forLoop (joinCountBody c g ingame) 0 c.MAX_CONNECTED_PLAYERS 0

/-- The calls made by `multiPlayerLoop` for a slot that failed the data
integrity check; `kickPlayer` is compiled out when `DEBUG` is defined. -/
def dataIntegrityKickEvents (debugBuild : Bool) (pending : Bool) (index : Nat) : List Event :=
  (if pending = false then
      [ Event.sendInGameSystemMessage
          "Kicking player %s, because they tried to bypass data integrity check!" index 0,
        Event.addConsoleMessage
          "Kicking player %s, because they tried to bypass data integrity check!",
        Event.call "NETlogEntry(msg, SYNC_FLAG, index)" [(index : Int)] ]
    else [])
  ++ (if debugBuild = false then
        [Event.kickPlayer index "Invalid data!" LOBBY_ERROR_TYPES.ERROR_INVALID false]
      else [])
  ++ [ Event.log "LOG_WARNING"
        "Kicking Player %s (%u), they tried to bypass data integrity check!" [(index : Int)] ]

/-- Body of the data integrity loop of `multiPlayerLoop` for slot `index` (an
`int` from 0 below `MAX_CONNECTED_PLAYERS`, so its conversion for the
comparison with `NetPlay.hostPlayer` keeps its value). -/
def dataIntegrityBody (c : Consts) (g : Globals) (debugBuild : Bool) (index : Nat)
    (st : LoopState) : Option LoopState :=
  if st.ingame.DataIntegrity index = false then
    match isHumanPlayer c g.NetPlay (index : Int) with
    | none => none
    | some false => some st
    | some true =>
      if index ≠ g.NetPlay.hostPlayer then
        some { st with events := st.events ++
          dataIntegrityKickEvents debugBuild (st.ingame.PendingDisconnect index) index }
      else some st
  else some st

/-- The statement `if (NetPlay.isHost && !ingame.isAllPlayersDataOK &&
NetPlay.bComms) { ... }` of `multiPlayerLoop`; `none` when
`ingame.TimeEveryoneIsInGame.value()` would throw. -/
def dataIntegrityCheck (c : Consts) (x : Externals) (g : Globals) (ingame : MULTIPLAYERINGAME)
    (inp : LoopInputs) : Option (MULTIPLAYERINGAME × List Event) :=
  if g.NetPlay.isHost = true ∧ ingame.isAllPlayersDataOK = false ∧ x.bComms = true then
    match ingame.TimeEveryoneIsInGame with
    | none => none
    | some t =>
      if toUInt32 ((inp.GAME_TICKS_PER_SEC : Int) * 60)
          < toUInt32 ((inp.gameTime : Int) - (t : Int)) then
        -- we waited 60 secs to make sure people didn't bypass the data integrity checks
        (forLoop (dataIntegrityBody c g inp.debugBuild) 0 c.MAX_CONNECTED_PLAYERS
            { ingame := ingame, events := [] }).map
          (fun st => ({ st.ingame with isAllPlayersDataOK := true }, st.events))
      else some (ingame, [])
  else some (ingame, [])

/-- The block `if (!ingame.TimeEveryoneIsInGame.has_value()) { ... }` of
`multiPlayerLoop`. -/
def enterGame (c : Consts) (g : Globals) (ingame : MULTIPLAYERINGAME) (inp : LoopInputs) :
    MULTIPLAYERINGAME × List Event :=
  if ingame.TimeEveryoneIsInGame.isNone = true then
    ({ ingame with TimeEveryoneIsInGame := some inp.gameTime,
                   lastPlayerDataCheck2 := inp.nowEntered },
      [Event.log "LOG_NET" "I have entered the game @ %u" [(inp.gameTime : Int)]]
      ++ (if g.NetPlay.isHost = false then
            [ Event.log "LOG_NET" "=== Sending hash to host ===" [],
              Event.call "sendDataCheck" [] ]
          else [])
      ++ [ Event.call "wz_command_interface_output(\"WZEVENT: allPlayersJoined\\n\")" [],
           Event.call "wz_command_interface_output_room_status_json" [] ]
      -- If in blind *lobby* mode, send data on who the players are
      ++ (if inp.blindLobby = true ∧ g.NetPlay.isHost = true then
            [ Event.log "LOG_INFO"
                "Revealing actual player names and identities to all players" [],
              Event.call "NETSendAllPlayerInfoTo(NET_ALL_PLAYERS)" [] ]
            ++ (List.range c.MAX_CONNECTED_PLAYERS).map
                (fun idx => Event.call "sendMultiStatsHostVerifiedIdentities" [(idx : Int)])
          else []))
  else (ingame, [])

/-- The `else` branch of `if (joinCount)` in `multiPlayerLoop` (everyone is in
the game now). -/
def everyoneInGame (c : Consts) (x : Externals) (g : Globals) (ingame : MULTIPLAYERINGAME)
    (inp : LoopInputs) : Option (MULTIPLAYERINGAME × List Event) :=
  let entered := enterGame c g ingame inp
  let ping : List Event := if x.bComms = true then [Event.call "sendPing" []] else []
  let checked : Option (MULTIPLAYERINGAME × List Event) :=
    if g.NetPlay.isHost = true ∧ x.bComms = true then
      (sendDataCheck2 c x g entered.1 inp.nowDataCheck).map (fun r => (r.1, r.2.1))
    else some (entered.1, [])
  match checked with
  | none => none
  | some dc =>
    -- Only have to do this on a true MP game
    (dataIntegrityCheck c x g dc.1 inp).map
      (fun ic => (ic.1, entered.2 ++ ping ++ dc.2 ++ ic.2))

/-- The block `if (NetPlay.isHost) { ... }` that ends `multiPlayerLoop`. -/
def hostMonitors (c : Consts) (x : Externals) (g : Globals) (ingame : MULTIPLAYERINGAME)
    (inp : LoopInputs) : Option (MULTIPLAYERINGAME × List Event) :=
  if g.NetPlay.isHost = true then
    match autoLagKickRoutine c x g ingame inp.nowMonitors with
    | none => none
    | some lag =>
      (autoDesyncKickRoutine c x g lag.1 inp.nowMonitors).map
        (fun ds => (ds.1, lag.2 ++ ds.2 ++ [Event.call "processPendingKickVotes" []]))
  else some (ingame, [])

/-- Source function `multiPlayerLoop()`: the new `ingame`, the calls made and
the returned flag. -/
def multiPlayerLoop (c : Consts) (x : Externals) (g : Globals) (ingame : MULTIPLAYERINGAME)
    (inp : LoopInputs) : Option (MULTIPLAYERINGAME × List Event × Bool) :=
  match joinCount c g ingame with
  | none => none
  | some n =>
    let first : Option (MULTIPLAYERINGAME × List Event) :=
      if n ≠ 0 then
        -- deselect anything selected.
        some (ingame, [Event.call "selDroidDeselect" [(g.selectedPlayer : Int)]])
      else everyoneInGame c x g ingame inp
    match first with
    | none => none
    | some a =>
      match hostMonitors c x g a.1 inp with
      | none => none
      | some b =>
        -- if player has won then process the win effects...
        some (b.1,
          a.2 ++ b.2 ++ (if inp.testPlayerHasWon = true then
              [Event.call "multiplayerWinSequence" [0]] else []),
          true)

/-- The event is a `kickPlayer` call with reason `ERROR_INVALID`. -/
def isInvalidKick : Event → Bool
  | Event.kickPlayer _ _ LOBBY_ERROR_TYPES.ERROR_INVALID _ => true
  | _ => false

/-- Number of `kickPlayer` calls with reason `ERROR_INVALID` for slot `k`. -/
def invalidKicksFor (k : Nat) (evs : List Event) : Nat :=
  (evs.filter (fun e => isInvalidKick e && decide (eventPlayer e = some k))).length

/-- No call of the trace is an `ERROR_INVALID` kick. -/
def noInvalidKick (evs : List Event) : Bool :=
  evs.all (fun e => !isInvalidKick e)

/-- The fields of `ingame` that the data integrity check reads are the same
in both states. -/
def integrityFrame (a b : MULTIPLAYERINGAME) : Prop :=
  b.isAllPlayersDataOK = a.isAllPlayersDataOK ∧ b.DataIntegrity = a.DataIntegrity ∧
    b.PendingDisconnect = a.PendingDisconnect ∧
    b.TimeEveryoneIsInGame = a.TimeEveryoneIsInGame

/-- Slot `k` is one the data integrity check kicks: below
`MAX_CONNECTED_PLAYERS`, human, not the host, integrity flag false. -/
def failsIntegrity (c : Consts) (g : Globals) (ingame : MULTIPLAYERINGAME) (k : Nat) : Prop :=
  k < c.MAX_CONNECTED_PLAYERS ∧ isHumanPlayer c g.NetPlay (k : Int) = some true ∧
    k ≠ g.NetPlay.hostPlayer ∧ ingame.DataIntegrity k = false

instance failsIntegrityDecidable (c : Consts) (g : Globals) (ingame : MULTIPLAYERINGAME)
    (k : Nat) : Decidable (failsIntegrity c g ingame k) := by
  unfold failsIntegrity
  infer_instance

/-- Loop invariant of the data integrity loop before iteration `i` for a
watched slot `k`: `ingame` is untouched and slot `k` has its one
`ERROR_INVALID` kick exactly if it has been passed and fails the check. -/
def integrityLoopInvariant (c : Consts) (g : Globals) (ingame : MULTIPLAYERINGAME)
    (debugBuild : Bool) (k i : Nat) (st : LoopState) : Prop :=
  st.ingame = ingame ∧
  invalidKicksFor k st.events =
    (if k < i ∧ failsIntegrity c g ingame k ∧ debugBuild = false then 1 else 0)

/-- Inputs of the main-loop samples: 61 s of game time, release build. -/
def sampleLoopInputs : LoopInputs :=
  { gameTime := 61001, GAME_TICKS_PER_SEC := 1000, debugBuild := false,
    nowEntered := 0, nowDataCheck := 500000000, nowMonitors := 500000000,
    blindLobby := false, testPlayerHasWon := false }

/-- Host state after everyone joined at game time 0: nobody is joining, slot 1
has not passed the integrity check, slot 3 has. -/
def sampleJoined : MULTIPLAYERINGAME :=
  { sampleIngame with JoiningInProgress := fun _ => false, TimeEveryoneIsInGame := some 0,
                      DataIntegrity := fun i => decide (i = 3) }

/-- Loop invariant of the `joinCount` loop: the count is 0 while no human slot
passed so far is still joining. -/
def joinCountInvariant (c : Consts) (g : Globals) (ingame : MULTIPLAYERINGAME) (i : Nat)
    (n : Nat) : Prop :=
  (∀ j, j < i → isHumanPlayer c g.NetPlay (j : Int) = some true →
    ingame.JoiningInProgress j = false) → n = 0

/-- Loop invariant of the lag loop for the data integrity check: its fields
are untouched and no `ERROR_INVALID` kick has been made. -/
def lagQuietInvariant (ingame : MULTIPLAYERINGAME) (st : LagLoopState) : Prop :=
  integrityFrame ingame st.ingame ∧ noInvalidKick st.events = true

/-- The same invariant for the loops over a `LoopState`. -/
def loopQuietInvariant (ingame : MULTIPLAYERINGAME) (st : LoopState) : Prop :=
  integrityFrame ingame st.ingame ∧ noInvalidKick st.events = true

/-! ## Text messages (multiplay.cpp, `NetworkTextMessage::receive`) -/

/-- The fields of `struct NetworkTextMessage`: `sender` is an `int32_t`. -/
structure NetworkTextMessage where
  sender : Int
  teamSpecific : Bool
  text : String
  deriving DecidableEq, Repr

/-- What `NetworkTextMessage::receive` leaves behind: the message object, the
returned flag, and `NetPlay` (which the function only reads). -/
structure TextReceiveResult where
  message : NetworkTextMessage
  returned : Bool
  NetPlay : NETPLAY
  deriving DecidableEq, Repr

/-- Source function `NetworkTextMessage::receive(NETQUEUE queue)` applied to
the decoded fields; `AI_OPEN` is a constant declared outside the embedded
files. -/
def NetworkTextMessage.receive (c : Consts) (AI_OPEN : Int) (g : Globals) (queue : NETQUEUE)
    (decoded : NetworkTextMessage) : Option TextReceiveResult :=
  match whosResponsible c g decoded.sender with
  | none => none
  | some responsible =>
    -- Fix corrupted sender.
    let sender : Int :=
      if responsible ≠ (queue.index : Int) then (queue.index : Int) else decoded.sender
    let message : NetworkTextMessage := { decoded with sender := sender }
    if (c.MAX_CONNECTED_PLAYERS : Int) ≤ sender then some ⟨message, false, g.NetPlay⟩
    else if 0 ≤ sender then
      match g.NetPlay.players[sender.toNat]? with
      | none => none
      | some p =>
        if p.allocated = false ∧ p.ai = AI_OPEN then some ⟨message, false, g.NetPlay⟩
        else some ⟨message, true, g.NetPlay⟩
    else some ⟨message, true, g.NetPlay⟩

/-! ## Player references (netplay.h, `struct PlayerReference`) -/

/-- The data members of `struct PlayerReference`: `detached` is the owned
copy (`nullptr` as `none`), `index` the slot. -/
structure PlayerReference where
  detached : Option PLAYER
  index : Nat
  deriving DecidableEq, Repr

/-- Constructor `PlayerReference(uint32_t index)`. -/
def PlayerReference.ofIndex (index : Nat) : PlayerReference :=
  { detached := none, index := index }

/-- Member function `disconnect()`: the copy of `NetPlay.players[index]` with
`wzFiles` replaced by a new empty vector; `none` when the slot does not exist. -/
def PlayerReference.disconnect (np : NETPLAY) (r : PlayerReference) : Option PlayerReference :=
  (np.players[r.index]?).map
    (fun p => { r with detached := some { p with wzFiles := [] } })

/-- Member `operator->()`: the player record a read goes to. -/
def PlayerReference.arrow (np : NETPLAY) (r : PlayerReference) : Option PLAYER :=
  match r.detached with
  | some p => some p
  | none => np.players[r.index]?

/-- Member function `isHost()`. -/
def PlayerReference.isHost (np : NETPLAY) (r : PlayerReference) : Bool :=
  decide (r.index = np.hostPlayer)

/-- Member function `isDetached()`. -/
def PlayerReference.isDetached (r : PlayerReference) : Bool :=
  r.detached.isSome

/-- Member function `originalIndex()`. -/
def PlayerReference.originalIndex (r : PlayerReference) : Nat :=
  r.index

/-! ## Spectator info (netplay.h, `struct SpectatorInfo`) -/

/-- The two `uint16_t` members of `struct SpectatorInfo`. -/
structure SpectatorInfo where
  spectatorsJoined : Nat
  totalSpectatorSlots : Nat
  deriving DecidableEq, Repr

/-- Member function `availableSpectatorSlots()`. -/
def SpectatorInfo.availableSpectatorSlots (s : SpectatorInfo) : Nat :=
  if s.totalSpectatorSlots < s.spectatorsJoined then 0
  else (s.totalSpectatorSlots - s.spectatorsJoined) % 65536

/-- Static member function `fromUint32(uint32_t data)`. -/
def SpectatorInfo.fromUint32 (data : Nat) : SpectatorInfo :=
  { spectatorsJoined := (data >>> 16) % 65536,
    totalSpectatorSlots := (data &&& 0xFFFF) % 65536 }

/-- Member function `toUint32()`: `spectatorsJoined` is promoted to `int`
before the shift, the shifted value wraps to 32 bits, and both operands of
`|` are converted to `uint32_t`. -/
def SpectatorInfo.toUint32 (s : SpectatorInfo) : Nat :=
  toUInt32 (toInt32 (s.spectatorsJoined <<< 16)) ||| (s.totalSpectatorSlots % 4294967296)

/-- A player record with a pending download. -/
def sampleDownloading : PLAYER :=
  { samplePlayer true false false with wzFiles := [7] }

/-! ## Theorems: responsibility model -/

theorem isHumanPlayer_total (c : Consts) (np : NETPLAY) (i : Int)
    (hwf : c.MAX_CONNECTED_PLAYERS ≤ np.players.length) :
    ∃ b, isHumanPlayer c np i = some b := by
  unfold isHumanPlayer
  split
  · exact ⟨false, rfl⟩
  · rename_i h
    have hlt : i.toNat < np.players.length := by omega
    exact ⟨(np.players[i.toNat]).allocated, by simp [List.getElem?_eq_getElem hlt]⟩

theorem isHumanPlayer_true_iff (c : Consts) (np : NETPLAY) (i : Int) :
    isHumanPlayer c np i = some true ↔
      (0 ≤ i ∧ i < (c.MAX_CONNECTED_PLAYERS : Int) ∧
        ∃ p, np.players[i.toNat]? = some p ∧ p.allocated = true) := by
  unfold isHumanPlayer
  split
  · rename_i h
    constructor
    · intro h1
      simp at h1
    · rintro ⟨h0, h1, _⟩
      omega
  · rename_i h
    constructor
    · intro h1
      refine ⟨by omega, by omega, ?_⟩
      simpa [Option.map_eq_some'] using h1
    · rintro ⟨_, _, p, hp, ha⟩
      simp [hp, ha]

/-- C1: for every slot index `i` (with the player vector holding
`MAX_CONNECTED_PLAYERS` slots), `isHumanPlayer(i)` holds exactly when `i` is in
`[0, MAX_CONNECTED_PLAYERS)` and `players[i].allocated`; `whosResponsible(i)`
is `i` when `i` is human, otherwise `i` when `i == selectedPlayer`, otherwise
`NetPlay.hostPlayer` (converted to `int`, which is the host index itself for
every index below 2^31). -/
theorem whosResponsible_cases (c : Consts) (g : Globals) (i : Int)
    (hwf : c.MAX_CONNECTED_PLAYERS ≤ g.NetPlay.players.length) :
    ∃ human, isHumanPlayer c g.NetPlay i = some human ∧
      (human = true ↔ (0 ≤ i ∧ i < (c.MAX_CONNECTED_PLAYERS : Int) ∧
        ∃ p, g.NetPlay.players[i.toNat]? = some p ∧ p.allocated = true)) ∧
      (human = true → whosResponsible c g i = some i) ∧
      (human = false → toUInt32 i = g.selectedPlayer → whosResponsible c g i = some i) ∧
      (human = false → toUInt32 i ≠ g.selectedPlayer →
        whosResponsible c g i = some (toInt32 g.NetPlay.hostPlayer)) ∧
      (g.NetPlay.hostPlayer < 2147483648 →
        toInt32 g.NetPlay.hostPlayer = (g.NetPlay.hostPlayer : Int)) := by
  obtain ⟨b, hb⟩ := isHumanPlayer_total c g.NetPlay i hwf
  refine ⟨b, hb, ?_, ?_, ?_, ?_, ?_⟩
  · rw [← isHumanPlayer_true_iff, hb]
    simp
  · intro h
    subst h
    simp [whosResponsible, hb]
  · intro h hs
    subst h
    simp [whosResponsible, hb, hs]
  · intro h hs
    subst h
    simp [whosResponsible, hb, hs]
  · intro h
    unfold toInt32
    have : g.NetPlay.hostPlayer % 4294967296 = g.NetPlay.hostPlayer := by omega
    rw [this, if_pos h]

theorem whosResponsible_cases_witness :
    sampleConsts.MAX_CONNECTED_PLAYERS ≤ sampleClient.NetPlay.players.length ∧
    ∃ human, isHumanPlayer sampleConsts sampleClient.NetPlay 2 = some human ∧
      (human = true ↔ (0 ≤ (2 : Int) ∧ (2 : Int) < (sampleConsts.MAX_CONNECTED_PLAYERS : Int) ∧
        ∃ p, sampleClient.NetPlay.players[(2 : Int).toNat]? = some p ∧ p.allocated = true)) ∧
      (human = true → whosResponsible sampleConsts sampleClient 2 = some 2) ∧
      (human = false → toUInt32 2 = sampleClient.selectedPlayer →
        whosResponsible sampleConsts sampleClient 2 = some 2) ∧
      (human = false → toUInt32 2 ≠ sampleClient.selectedPlayer →
        whosResponsible sampleConsts sampleClient 2
          = some (toInt32 sampleClient.NetPlay.hostPlayer)) ∧
      (sampleClient.NetPlay.hostPlayer < 2147483648 →
        toInt32 sampleClient.NetPlay.hostPlayer = (sampleClient.NetPlay.hostPlayer : Int)) :=
  ⟨by decide, whosResponsible_cases sampleConsts sampleClient 2 (by decide)⟩

/-- C2: for every slot index `i` and every registry state (with the player
vector holding `MAX_CONNECTED_PLAYERS` slots), `whosResponsible(i)` returns a
value `r` with `whosResponsible(r) == r`, and `r == i` for every human slot. -/
theorem whosResponsible_idempotent (c : Consts) (g : Globals) (i : Int)
    (hwf : c.MAX_CONNECTED_PLAYERS ≤ g.NetPlay.players.length) :
    ∃ r, whosResponsible c g i = some r ∧ whosResponsible c g r = some r ∧
      (isHumanPlayer c g.NetPlay i = some true → r = i) := by
  obtain ⟨b, hb⟩ := isHumanPlayer_total c g.NetPlay i hwf
  cases b with
  | true =>
    exact ⟨i, by simp [whosResponsible, hb], by simp [whosResponsible, hb], fun _ => rfl⟩
  | false =>
    by_cases hs : toUInt32 i = g.selectedPlayer
    · exact ⟨i, by simp [whosResponsible, hb, hs], by simp [whosResponsible, hb, hs],
        fun _ => rfl⟩
    · obtain ⟨b2, hb2⟩ := isHumanPlayer_total c g.NetPlay (toInt32 g.NetPlay.hostPlayer) hwf
      refine ⟨toInt32 g.NetPlay.hostPlayer, by simp [whosResponsible, hb, hs], ?_, ?_⟩
      · cases b2 with
        | true => simp [whosResponsible, hb2]
        | false =>
          by_cases hs2 : toUInt32 (toInt32 g.NetPlay.hostPlayer) = g.selectedPlayer
          · simp [whosResponsible, hb2, hs2]
          · simp [whosResponsible, hb2, hs2]
      · intro h
        rw [hb] at h
        simp at h

theorem whosResponsible_idempotent_witness :
    sampleConsts.MAX_CONNECTED_PLAYERS ≤ sampleClient.NetPlay.players.length ∧
    ∃ r, whosResponsible sampleConsts sampleClient 2 = some r ∧
      whosResponsible sampleConsts sampleClient r = some r ∧
      (isHumanPlayer sampleConsts sampleClient.NetPlay 2 = some true → r = 2) :=
  ⟨by decide, whosResponsible_idempotent sampleConsts sampleClient 2 (by decide)⟩

/-! ## Theorems: message authorization policy -/

/-- C3: for every message kind and every registry state, a message whose origin
queue index equals `NetPlay.hostPlayer` gets `Process_Message`, whatever the
host slot's `isSpectator` / `isAdmin` flags and the game mode are. -/
theorem host_origin_processed (g : Globals) (queue : NETQUEUE) (type : Nat)
    (hhost : queue.index = g.NetPlay.hostPlayer) :
    getMessageHandlingAction g queue type = some HandleMessageAction.Process_Message := by
  simp [getMessageHandlingAction, hhost]

theorem host_origin_processed_witness :
    (⟨0, 0⟩ : NETQUEUE).index = sampleHost.NetPlay.hostPlayer ∧
    getMessageHandlingAction sampleHost ⟨0, 0⟩ NET_OPTIONS
      = some HandleMessageAction.Process_Message :=
  ⟨by decide, host_origin_processed sampleHost ⟨0, 0⟩ NET_OPTIONS (by decide)⟩

/-- C4: for every origin queue whose index is not `NetPlay.hostPlayer` (and
whose slot exists in the player vector) and each host-only kind (`NET_OPTIONS`,
`NET_PLAYER_INFO`, `NET_PLAYER_JOINED`, `NET_FILE_PAYLOAD`, `NET_VOTE_REQUEST`,
`NET_HOST_CONFIG`), the policy returns `Disallow_And_Kick_Sender`, whatever the
sender's spectator and admin flags are. -/
theorem host_only_kind_disallowed (g : Globals) (queue : NETQUEUE) (type : Nat)
    (sender : PLAYER)
    (hnon : queue.index ≠ g.NetPlay.hostPlayer)
    (hsender : g.NetPlay.players[queue.index]? = some sender)
    (hkind : type = NET_OPTIONS ∨ type = NET_PLAYER_INFO ∨ type = NET_PLAYER_JOINED
      ∨ type = NET_FILE_PAYLOAD ∨ type = NET_VOTE_REQUEST ∨ type = NET_HOST_CONFIG) :
    getMessageHandlingAction g queue type
      = some HandleMessageAction.Disallow_And_Kick_Sender := by
  rcases hkind with h | h | h | h | h | h <;> subst h <;>
    simp [getMessageHandlingAction, netTypeSwitch, hnon, hsender]

theorem host_only_kind_disallowed_witness :
    (⟨1, 0⟩ : NETQUEUE).index ≠ sampleHost.NetPlay.hostPlayer ∧
    sampleHost.NetPlay.players[(⟨1, 0⟩ : NETQUEUE).index]? = some (samplePlayer true false false) ∧
    getMessageHandlingAction sampleHost ⟨1, 0⟩ NET_HOST_CONFIG
      = some HandleMessageAction.Disallow_And_Kick_Sender :=
  ⟨by decide, rfl,
    host_only_kind_disallowed sampleHost ⟨1, 0⟩ NET_HOST_CONFIG (samplePlayer true false false)
      (by decide) rfl (by decide)⟩

/-- C5, as stated, fails on a client: on the peer of slot 1 (not the host) a
`NET_OPTIONS` message from slot 3 is disallowed, and `shouldProcessMessage`
pops it and returns false, but the trace holds no system message and no kick. -/
theorem disallowed_on_client_no_kick :
    sampleClient.NetPlay.isHost = false ∧
    getMessageHandlingAction sampleClient ⟨3, 0⟩ NET_OPTIONS
      = some HandleMessageAction.Disallow_And_Kick_Sender ∧
    shouldProcessMessage sampleClient ⟨3, 0⟩ NET_OPTIONS
      = some (false, [Event.NETpop ⟨3, 0⟩]) ∧
    countKicks [Event.NETpop ⟨3, 0⟩] = 0 := by
  refine ⟨rfl, ?_, ?_, rfl⟩
  · decide
  · rfl

/-- C5 (amended): whenever the policy yields `Disallow_And_Kick_Sender`,
`shouldProcessMessage` pops the message and returns false, and the iteration of
`recvMessage` runs neither handler pass (no handler event, one pop).  On the
host (`NetPlay.isHost`) it also broadcasts the system message naming the kind
and kicks `queue.index` with `ERROR_INVALID`, exactly one kick; on a peer that
is not the host it makes no further call. -/
theorem disallow_and_kick_effects (c : Consts) (g : Globals) (queue : NETQUEUE) (type : Nat)
    (hact : getMessageHandlingAction g queue type
      = some HandleMessageAction.Disallow_And_Kick_Sender) :
    shouldProcessMessage g queue type
      = some (false, if g.NetPlay.isHost = true then kickTrace queue type
                     else [Event.NETpop queue]) ∧
    Event.sendInGameSystemMessage "Auto kicking player %s, invalid command received: %u"
      queue.index type ∈ kickTrace queue type ∧
    Event.kickPlayer queue.index "Unauthorized network command"
      LOBBY_ERROR_TYPES.ERROR_INVALID false ∈ kickTrace queue type ∧
    ∃ it, recvMessageIteration c g queue type = some it ∧
      it.processedMessage1 = false ∧ it.processedMessage2 = false ∧
      countHandlers it.events = 0 ∧ countPops it.events = 1 ∧
      countKicks it.events = (if g.NetPlay.isHost = true then 1 else 0) := by
  have hsp : shouldProcessMessage g queue type
      = some (false, if g.NetPlay.isHost = true then kickTrace queue type
                     else [Event.NETpop queue]) := by
    unfold shouldProcessMessage
    rw [hact]
    by_cases hh : g.NetPlay.isHost = true
    · simp [hh, kickTrace]
    · simp [hh]
  refine ⟨hsp, by simp [kickTrace], by simp [kickTrace], ?_⟩
  unfold recvMessageIteration
  rw [hsp]
  by_cases hh : g.NetPlay.isHost = true <;> by_cases hq : queue.queueType = c.QUEUE_GAME <;>
    simp [hh, hq, kickTrace, countHandlers, countPops, countKicks]

theorem disallow_and_kick_effects_witness :
    getMessageHandlingAction sampleHost ⟨3, 0⟩ NET_OPTIONS
      = some HandleMessageAction.Disallow_And_Kick_Sender ∧
    (shouldProcessMessage sampleHost ⟨3, 0⟩ NET_OPTIONS
      = some (false, if sampleHost.NetPlay.isHost = true then kickTrace ⟨3, 0⟩ NET_OPTIONS
                     else [Event.NETpop ⟨3, 0⟩]) ∧
    Event.sendInGameSystemMessage "Auto kicking player %s, invalid command received: %u"
      (⟨3, 0⟩ : NETQUEUE).index NET_OPTIONS ∈ kickTrace ⟨3, 0⟩ NET_OPTIONS ∧
    Event.kickPlayer (⟨3, 0⟩ : NETQUEUE).index "Unauthorized network command"
      LOBBY_ERROR_TYPES.ERROR_INVALID false ∈ kickTrace ⟨3, 0⟩ NET_OPTIONS ∧
    ∃ it, recvMessageIteration sampleConsts sampleHost ⟨3, 0⟩ NET_OPTIONS = some it ∧
      it.processedMessage1 = false ∧ it.processedMessage2 = false ∧
      countHandlers it.events = 0 ∧ countPops it.events = 1 ∧
      countKicks it.events = (if sampleHost.NetPlay.isHost = true then 1 else 0)) :=
  ⟨by decide, disallow_and_kick_effects sampleConsts sampleHost ⟨3, 0⟩ NET_OPTIONS (by decide)⟩

/-- C6: for a non-host sender that is a spectator, AI chat (`NET_AITEXTMSG`),
beacons (`NET_BEACONMSG`) and every `GAME_DEBUG_*` kind yield
`Disallow_And_Kick_Sender` whether or not the spectator is an admin; team,
faction and position change requests yield `Disallow_And_Kick_Sender` for a
spectator without admin privilege and are processed for a spectator that
holds it. -/
theorem spectator_restricted_kinds (g : Globals) (queue : NETQUEUE) (type : Nat)
    (sender : PLAYER)
    (hnon : queue.index ≠ g.NetPlay.hostPlayer)
    (hsender : g.NetPlay.players[queue.index]? = some sender)
    (hspec : sender.isSpectator = true) :
    ((type = NET_AITEXTMSG ∨ type = NET_BEACONMSG ∨ type = GAME_DEBUG_MODE
        ∨ type = GAME_DEBUG_ADD_DROID ∨ type = GAME_DEBUG_ADD_STRUCTURE
        ∨ type = GAME_DEBUG_ADD_FEATURE ∨ type = GAME_DEBUG_REMOVE_DROID
        ∨ type = GAME_DEBUG_REMOVE_STRUCTURE ∨ type = GAME_DEBUG_REMOVE_FEATURE
        ∨ type = GAME_DEBUG_FINISH_RESEARCH) →
      getMessageHandlingAction g queue type
        = some HandleMessageAction.Disallow_And_Kick_Sender) ∧
    ((type = NET_TEAMREQUEST ∨ type = NET_FACTIONREQUEST ∨ type = NET_POSITIONREQUEST) →
      (sender.isAdmin = false →
        getMessageHandlingAction g queue type
          = some HandleMessageAction.Disallow_And_Kick_Sender) ∧
      (sender.isAdmin = true →
        getMessageHandlingAction g queue type
          = some HandleMessageAction.Process_Message)) := by
  constructor
  · intro hkind
    rcases hkind with h | h | h | h | h | h | h | h | h | h <;> subst h <;>
      simp [getMessageHandlingAction, netTypeSwitch, gameTypeSwitch, hnon, hsender, hspec]
  · intro hkind
    constructor
    · intro hadm
      rcases hkind with h | h | h <;> subst h <;>
        simp [getMessageHandlingAction, netTypeSwitch, gameTypeSwitch, hnon, hsender, hspec,
          hadm]
    · intro hadm
      rcases hkind with h | h | h <;> subst h <;>
        simp [getMessageHandlingAction, netTypeSwitch, gameTypeSwitch, hnon, hsender, hspec,
          hadm]

theorem spectator_restricted_kinds_witness :
    (⟨3, 0⟩ : NETQUEUE).index ≠ sampleHost.NetPlay.hostPlayer ∧
    sampleHost.NetPlay.players[(⟨3, 0⟩ : NETQUEUE).index]? = some (samplePlayer true true false) ∧
    (samplePlayer true true false).isSpectator = true ∧
    getMessageHandlingAction sampleHost ⟨3, 0⟩ GAME_DEBUG_ADD_DROID
      = some HandleMessageAction.Disallow_And_Kick_Sender ∧
    getMessageHandlingAction sampleHost ⟨3, 0⟩ NET_TEAMREQUEST
      = some HandleMessageAction.Disallow_And_Kick_Sender :=
  ⟨by decide, rfl, rfl,
    (spectator_restricted_kinds sampleHost ⟨3, 0⟩ GAME_DEBUG_ADD_DROID
      (samplePlayer true true false) (by decide) rfl rfl).1 (by decide),
    ((spectator_restricted_kinds sampleHost ⟨3, 0⟩ NET_TEAMREQUEST
      (samplePlayer true true false) (by decide) rfl rfl).2 (by decide)).1 rfl⟩

/-- C7: for a non-host spectator sender (admin or not) and kind `NET_TEXTMSG`:
with `GetGameMode() == GS_NORMAL`, the outcome is `Disallow_And_Kick_Sender`
when `gameInitialised && !bDisplayMultiJoiningStatus`, and `Silently_Ignore`
otherwise (match still loading); outside `GS_NORMAL` the chat is processed. -/
theorem spectator_text_message (g : Globals) (queue : NETQUEUE) (sender : PLAYER)
    (hnon : queue.index ≠ g.NetPlay.hostPlayer)
    (hsender : g.NetPlay.players[queue.index]? = some sender)
    (hspec : sender.isSpectator = true) :
    (g.gameMode = GS_GAMEMODE.GS_NORMAL →
      (g.gameInitialised = true ∧ g.bDisplayMultiJoiningStatus = 0) →
      getMessageHandlingAction g queue NET_TEXTMSG
        = some HandleMessageAction.Disallow_And_Kick_Sender) ∧
    (g.gameMode = GS_GAMEMODE.GS_NORMAL →
      ¬ (g.gameInitialised = true ∧ g.bDisplayMultiJoiningStatus = 0) →
      getMessageHandlingAction g queue NET_TEXTMSG
        = some HandleMessageAction.Silently_Ignore) ∧
    (g.gameMode ≠ GS_GAMEMODE.GS_NORMAL →
      getMessageHandlingAction g queue NET_TEXTMSG
        = some HandleMessageAction.Process_Message) := by
  refine ⟨?_, ?_, ?_⟩
  · intro hmode hrun
    simp [getMessageHandlingAction, netTypeSwitch, hnon, hsender, hspec, hmode, hrun.1, hrun.2]
  · intro hmode hload
    have hload2 : ¬ (g.gameInitialised = true ∧ g.bDisplayMultiJoiningStatus = 0) := hload
    simp only [getMessageHandlingAction, netTypeSwitch, hnon, hsender, hspec, hmode]
    simp [hload2]
  · intro hmode
    simp [getMessageHandlingAction, netTypeSwitch, gameTypeSwitch, hnon, hsender, hspec, hmode]

theorem spectator_text_message_witness :
    (⟨3, 0⟩ : NETQUEUE).index ≠ sampleHost.NetPlay.hostPlayer ∧
    sampleHost.NetPlay.players[(⟨3, 0⟩ : NETQUEUE).index]? = some (samplePlayer true true false) ∧
    (samplePlayer true true false).isSpectator = true ∧
    getMessageHandlingAction sampleHost ⟨3, 0⟩ NET_TEXTMSG
      = some HandleMessageAction.Disallow_And_Kick_Sender :=
  ⟨by decide, rfl, rfl,
    (spectator_text_message sampleHost ⟨3, 0⟩ (samplePlayer true true false)
      (by decide) rfl rfl).1 rfl ⟨rfl, rfl⟩⟩

/-- C8, as stated, fails for a replay viewer: with `NETisReplay()` true, a
`REPLAY_ENDED` message from the non-host queue 1 is still `Silently_Ignore`. -/
theorem replay_ended_ignored_in_replay :
    sampleReplay.isReplay = true ∧
    (⟨1, 0⟩ : NETQUEUE).index ≠ sampleReplay.NetPlay.hostPlayer ∧
    getMessageHandlingAction sampleReplay ⟨1, 0⟩ REPLAY_ENDED
      = some HandleMessageAction.Silently_Ignore := by
  refine ⟨rfl, by decide, by decide⟩

/-- C8 (amended): a `REPLAY_ENDED` message from a non-host origin is
`Silently_Ignore` whether or not the local session is a replay viewer.  The
replay-viewer test is made by the handler only: a `REPLAY_ENDED` message from
the host queue is processed, and the game-only pass recognizes it and shows
the end-of-replay notices exactly when `NETisReplay()` holds. -/
theorem replay_ended_policy (g : Globals) (queue : NETQUEUE) (sender : PLAYER)
    (hnon : queue.index ≠ g.NetPlay.hostPlayer)
    (hsender : g.NetPlay.players[queue.index]? = some sender) :
    getMessageHandlingAction g queue REPLAY_ENDED
      = some HandleMessageAction.Silently_Ignore ∧
    ∀ hostQueue : NETQUEUE, hostQueue.index = g.NetPlay.hostPlayer →
      getMessageHandlingAction g hostQueue REPLAY_ENDED
        = some HandleMessageAction.Process_Message ∧
      (g.localJoiningInProgress = false →
        gameOnlyPass g hostQueue REPLAY_ENDED
          = (true, if g.isReplay = true then
                     [ Event.addConsoleMessage "REPLAY HAS ENDED",
                       Event.addConsoleMessage "(Press ESC to quit.)" ]
                   else [])) := by
  constructor
  · simp [getMessageHandlingAction, hnon, hsender]
  · intro hostQueue hhost
    constructor
    · simp [getMessageHandlingAction, hhost]
    · intro hjoin
      by_cases hr : g.isReplay = true <;> simp [gameOnlyPass, hjoin, hr]

theorem replay_ended_policy_witness :
    (⟨1, 0⟩ : NETQUEUE).index ≠ sampleReplay.NetPlay.hostPlayer ∧
    sampleReplay.NetPlay.players[(⟨1, 0⟩ : NETQUEUE).index]?
      = some (samplePlayer true false false) ∧
    (getMessageHandlingAction sampleReplay ⟨1, 0⟩ REPLAY_ENDED
      = some HandleMessageAction.Silently_Ignore ∧
    ∀ hostQueue : NETQUEUE, hostQueue.index = sampleReplay.NetPlay.hostPlayer →
      getMessageHandlingAction sampleReplay hostQueue REPLAY_ENDED
        = some HandleMessageAction.Process_Message ∧
      (sampleReplay.localJoiningInProgress = false →
        gameOnlyPass sampleReplay hostQueue REPLAY_ENDED
          = (true, if sampleReplay.isReplay = true then
                     [ Event.addConsoleMessage "REPLAY HAS ENDED",
                       Event.addConsoleMessage "(Press ESC to quit.)" ]
                   else []))) :=
  ⟨by decide, rfl,
    replay_ended_policy sampleReplay ⟨1, 0⟩ (samplePlayer true false false) (by decide) rfl⟩

/-- C9, as stated, fails for spectators: from the spectator on slot 3 (not the
host) `GAME_DROIDINFO` is answered with `Disallow_And_Kick_Sender`, and
`GAME_SYNC_REQUEST` and `NET_DATA_CHECK2` with `Silently_Ignore`. -/
theorem spectator_unlisted_kinds_not_processed :
    (⟨3, 0⟩ : NETQUEUE).index ≠ sampleHost.NetPlay.hostPlayer ∧
    getMessageHandlingAction sampleHost ⟨3, 0⟩ GAME_DROIDINFO
      = some HandleMessageAction.Disallow_And_Kick_Sender ∧
    getMessageHandlingAction sampleHost ⟨3, 0⟩ GAME_SYNC_REQUEST
      = some HandleMessageAction.Silently_Ignore ∧
    getMessageHandlingAction sampleHost ⟨3, 0⟩ NET_DATA_CHECK2
      = some HandleMessageAction.Silently_Ignore := by
  refine ⟨by decide, by decide, by decide, by decide⟩

/-- C9 (amended): for every non-host origin and every kind that is not named in
policy rules 2 to 6, the policy returns `Process_Message` when the sender is
not a spectator.  When the sender is a spectator it returns `Process_Message`
for those kinds except: `NET_KICK` (kicked unless the spectator is an admin),
`NET_DATA_CHECK2` and `GAME_SYNC_REQUEST` (silently ignored), and every other
kind strictly between `GAME_MIN_TYPE` and `GAME_MAX_TYPE` apart from
`GAME_GAME_TIME` and `GAME_PLAYER_LEFT` (kicked). -/
theorem unlisted_kinds_policy (g : Globals) (queue : NETQUEUE) (type : Nat)
    (sender : PLAYER)
    (hnon : queue.index ≠ g.NetPlay.hostPlayer)
    (hsender : g.NetPlay.players[queue.index]? = some sender)
    (hkind : type ∉ [NET_OPTIONS, NET_PLAYER_INFO, NET_PLAYER_JOINED, NET_FILE_PAYLOAD,
      NET_VOTE_REQUEST, NET_HOST_CONFIG, NET_TEAMREQUEST, NET_FACTIONREQUEST,
      NET_POSITIONREQUEST, NET_AITEXTMSG, NET_BEACONMSG, GAME_DEBUG_MODE,
      GAME_DEBUG_ADD_DROID, GAME_DEBUG_ADD_STRUCTURE, GAME_DEBUG_ADD_FEATURE,
      GAME_DEBUG_REMOVE_DROID, GAME_DEBUG_REMOVE_STRUCTURE, GAME_DEBUG_REMOVE_FEATURE,
      GAME_DEBUG_FINISH_RESEARCH, NET_TEXTMSG, NET_SPECTEXTMSG, REPLAY_ENDED]) :
    (sender.isSpectator = false →
      getMessageHandlingAction g queue type = some HandleMessageAction.Process_Message) ∧
    (sender.isSpectator = true →
      getMessageHandlingAction g queue type =
        some (if type = NET_KICK then
                (if sender.isAdmin = true then HandleMessageAction.Process_Message
                 else HandleMessageAction.Disallow_And_Kick_Sender)
              else if type = NET_DATA_CHECK2 ∨ type = GAME_SYNC_REQUEST then
                HandleMessageAction.Silently_Ignore
              else if GAME_MIN_TYPE < type ∧ type < GAME_MAX_TYPE
                  ∧ type ≠ GAME_GAME_TIME ∧ type ≠ GAME_PLAYER_LEFT then
                HandleMessageAction.Disallow_And_Kick_Sender
              else HandleMessageAction.Process_Message)) := by
  simp only [List.mem_cons, List.mem_singleton, List.not_mem_nil, not_or, or_false] at hkind
  obtain ⟨h1, h2, h3, h4, h5, h6, h7, h8, h9, h10, h11, h12, h13, h14, h15, h16, h17, h18,
    h19, h20, h21, h22⟩ := hkind
  simp only [NET_OPTIONS, NET_PLAYER_INFO, NET_PLAYER_JOINED, NET_FILE_PAYLOAD,
    NET_VOTE_REQUEST, NET_HOST_CONFIG, NET_TEAMREQUEST, NET_FACTIONREQUEST,
    NET_POSITIONREQUEST, NET_AITEXTMSG, NET_BEACONMSG, GAME_DEBUG_MODE,
    GAME_DEBUG_ADD_DROID, GAME_DEBUG_ADD_STRUCTURE, GAME_DEBUG_ADD_FEATURE,
    GAME_DEBUG_REMOVE_DROID, GAME_DEBUG_REMOVE_STRUCTURE, GAME_DEBUG_REMOVE_FEATURE,
    GAME_DEBUG_FINISH_RESEARCH, NET_TEXTMSG, NET_SPECTEXTMSG, REPLAY_ENDED] at *
  have hget : getMessageHandlingAction g queue type =
      match (if NET_MIN_TYPE < type ∧ type < NET_MAX_TYPE then
          netTypeSwitch g queue sender.isSpectator sender.isAdmin type else none) with
      | some a => some a
      | none =>
        match (if GAME_MIN_TYPE < type ∧ type < GAME_MAX_TYPE then
            gameTypeSwitch sender.isSpectator type else none) with
        | some a => some a
        | none => some HandleMessageAction.Process_Message := by
    simp [getMessageHandlingAction, hnon, hsender, h22]
  rw [hget]
  by_cases hn : NET_MIN_TYPE < type ∧ type < NET_MAX_TYPE
  · have hg : ¬ (GAME_MIN_TYPE < type ∧ type < GAME_MAX_TYPE) := by
      simp only [NET_MIN_TYPE, NET_MAX_TYPE, GAME_MIN_TYPE, GAME_MAX_TYPE] at *
      omega
    rw [if_pos hn, if_neg hg]
    have hg2 : ¬ (111 < type ∧ type < 133 ∧ ¬ type = 120 ∧ ¬ type = 121) := by
      simp only [GAME_MIN_TYPE, GAME_MAX_TYPE] at hg
      omega
    have h123 : ¬ type = 123 := by
      simp only [NET_MIN_TYPE, NET_MAX_TYPE] at hn
      omega
    constructor
    · intro hspec
      simp only [netTypeSwitch, hspec]
      simp only [NET_OPTIONS, NET_PLAYER_INFO, NET_PLAYER_JOINED, NET_FILE_PAYLOAD,
        NET_VOTE_REQUEST, NET_HOST_CONFIG, NET_TEAMREQUEST, NET_FACTIONREQUEST,
        NET_POSITIONREQUEST, NET_AITEXTMSG, NET_BEACONMSG, NET_TEXTMSG, NET_SPECTEXTMSG,
        NET_KICK, NET_COLOURREQUEST, NET_DATA_CHECK2]
      simp [*]
      split_ifs <;> rfl
    · intro hspec
      simp only [netTypeSwitch, hspec]
      simp only [NET_OPTIONS, NET_PLAYER_INFO, NET_PLAYER_JOINED, NET_FILE_PAYLOAD,
        NET_VOTE_REQUEST, NET_HOST_CONFIG, NET_TEAMREQUEST, NET_FACTIONREQUEST,
        NET_POSITIONREQUEST, NET_AITEXTMSG, NET_BEACONMSG, NET_TEXTMSG, NET_SPECTEXTMSG,
        NET_KICK, NET_COLOURREQUEST, NET_DATA_CHECK2, GAME_SYNC_REQUEST, GAME_MIN_TYPE,
        GAME_MAX_TYPE, GAME_GAME_TIME, GAME_PLAYER_LEFT]
      simp only [h1, h2, h3, h4, h5, h6, h7, h8, h9, h10, h11, h20, h21, h123, hg2, or_self,
        or_false, false_or, if_false, ne_eq]
      by_cases hk : type = 39
      · cases hadm : sender.isAdmin <;> simp [hk, hadm]
      · by_cases hc : type = 41
        · simp [hc]
        · by_cases hd : type = 71 <;> simp [hk, hc, hd]
  · rw [if_neg hn]
    have hk : ¬ type = NET_KICK := by
      simp only [NET_MIN_TYPE, NET_MAX_TYPE, NET_KICK] at *
      omega
    have hd : ¬ type = NET_DATA_CHECK2 := by
      simp only [NET_MIN_TYPE, NET_MAX_TYPE, NET_DATA_CHECK2] at *
      omega
    by_cases hg : GAME_MIN_TYPE < type ∧ type < GAME_MAX_TYPE
    · rw [if_pos hg]
      constructor
      · intro hspec
        simp only [gameTypeSwitch, hspec]
        split_ifs <;> first | rfl | contradiction
      · intro hspec
        simp only [gameTypeSwitch, hspec, if_neg hk]
        simp only [GAME_DEBUG_MODE, GAME_DEBUG_ADD_DROID, GAME_DEBUG_ADD_STRUCTURE,
          GAME_DEBUG_ADD_FEATURE, GAME_DEBUG_REMOVE_DROID, GAME_DEBUG_REMOVE_STRUCTURE,
          GAME_DEBUG_REMOVE_FEATURE, GAME_DEBUG_FINISH_RESEARCH, GAME_SYNC_REQUEST,
          GAME_MIN_TYPE, GAME_MAX_TYPE, GAME_GAME_TIME, GAME_PLAYER_LEFT, NET_DATA_CHECK2] at *
        simp only [h12, h13, h14, h15, h16, h17, h18, h19, hd, or_self, or_false, false_or,
          if_false, if_true, ne_eq]
        by_cases ht : type = 120
        · simp [ht]
        · by_cases hl : type = 121
          · simp [hl]
          · by_cases hs : type = 123
            · simp [hs]
            · simp [ht, hl, hs, hg.1, hg.2]
    · rw [if_neg hg]
      have hs : ¬ type = GAME_SYNC_REQUEST := by
        simp only [GAME_MIN_TYPE, GAME_MAX_TYPE, GAME_SYNC_REQUEST] at *
        omega
      constructor
      · intro _
        rfl
      · intro _
        simp only [if_neg hk, hd, hs, or_self, if_false]
        have hg3 : ¬ (GAME_MIN_TYPE < type ∧ type < GAME_MAX_TYPE
            ∧ type ≠ GAME_GAME_TIME ∧ type ≠ GAME_PLAYER_LEFT) := fun h => hg ⟨h.1, h.2.1⟩
        rw [if_neg hg3]

theorem unlisted_kinds_policy_witness :
    (⟨1, 0⟩ : NETQUEUE).index ≠ sampleHost.NetPlay.hostPlayer ∧
    sampleHost.NetPlay.players[(⟨1, 0⟩ : NETQUEUE).index]?
      = some (samplePlayer true false false) ∧
    (samplePlayer true false false).isSpectator = false ∧
    getMessageHandlingAction sampleHost ⟨1, 0⟩ GAME_DROIDINFO
      = some HandleMessageAction.Process_Message :=
  ⟨by decide, rfl, rfl,
    (unlisted_kinds_policy sampleHost ⟨1, 0⟩ GAME_DROIDINFO (samplePlayer true false false)
      (by decide) rfl (by decide)).1 rfl⟩

/-! ## Theorems: dispatch passes -/

theorem gameOnlyPass_labels (g : Globals) (queue : NETQUEUE) (type : Nat)
    (h : (gameOnlyPass g queue type).1 = true) :
    type ∈ [GAME_DROIDINFO, NET_TEXTMSG, NET_DATA_CHECK, NET_DATA_CHECK2, NET_AITEXTMSG,
      NET_SPECTEXTMSG, NET_BEACONMSG, NET_TEAM_STRATEGY, NET_QUICK_CHAT_MSG,
      GAME_SYNC_REQUEST, GAME_DROIDDISEMBARK, GAME_GIFT, GAME_LASSAT, GAME_DEBUG_MODE,
      GAME_DEBUG_ADD_DROID, GAME_DEBUG_ADD_STRUCTURE, GAME_DEBUG_ADD_FEATURE,
      GAME_DEBUG_REMOVE_DROID, GAME_DEBUG_REMOVE_STRUCTURE, GAME_DEBUG_REMOVE_FEATURE,
      GAME_DEBUG_FINISH_RESEARCH, GAME_SYNC_OPT_CHANGE, REPLAY_ENDED] := by
  by_contra hne
  simp only [List.mem_cons, List.mem_singleton, List.not_mem_nil, not_or, or_false] at hne
  unfold gameOnlyPass at h
  simp only [hne, if_false] at h
  split_ifs at h

theorem alwaysPass_labels (queue : NETQUEUE) (type : Nat)
    (h : (alwaysPass queue type).1 = true) :
    type ∈ [NET_PING, NET_PLAYER_DROPPED, NET_PLAYERRESPONDING, GAME_ALLIANCE, NET_VOTE,
      NET_VOTE_REQUEST, NET_KICK, NET_HOST_CONFIG, GAME_RESEARCHSTATUS, GAME_STRUCTUREINFO,
      NET_PLAYER_STATS, GAME_PLAYER_LEFT] := by
  by_contra hne
  simp only [List.mem_cons, List.mem_singleton, List.not_mem_nil, not_or, or_false] at hne
  unfold alwaysPass at h
  simp only [hne, if_false] at h
  exact Bool.noConfusion h

/-- C10: for every message kind and both values of
`ingame.localJoiningInProgress`, the game-only pass and the always-on pass of
`recvMessage` never both recognize the kind: `processedMessage1 &&
processedMessage2` is false, for the two switches taken alone and for every
loop iteration that reaches them. -/
theorem passes_never_both (c : Consts) (g : Globals) (queue : NETQUEUE) (type : Nat) :
    ((gameOnlyPass g queue type).1 && (alwaysPass queue type).1) = false ∧
    (recvMessageIteration c g queue type).map
      (fun it => it.processedMessage1 && it.processedMessage2) ≠ some true := by
  have hboth : ((gameOnlyPass g queue type).1 && (alwaysPass queue type).1) = false := by
    cases h1 : (gameOnlyPass g queue type).1 with
    | false => rfl
    | true =>
      cases h2 : (alwaysPass queue type).1 with
      | false => rfl
      | true =>
        have m1 := gameOnlyPass_labels g queue type h1
        have m2 := alwaysPass_labels queue type h2
        simp only [List.mem_cons, List.mem_singleton, List.not_mem_nil, or_false, NET_PING,
          NET_PLAYER_STATS, NET_TEXTMSG, NET_PLAYERRESPONDING, NET_KICK, NET_AITEXTMSG,
          NET_BEACONMSG, NET_PLAYER_DROPPED, NET_DATA_CHECK, NET_VOTE, NET_VOTE_REQUEST,
          NET_SPECTEXTMSG, NET_DATA_CHECK2, NET_TEAM_STRATEGY, NET_QUICK_CHAT_MSG,
          NET_HOST_CONFIG, GAME_DROIDINFO, GAME_STRUCTUREINFO, GAME_RESEARCHSTATUS,
          GAME_ALLIANCE, GAME_GIFT, GAME_LASSAT, GAME_PLAYER_LEFT, GAME_DROIDDISEMBARK,
          GAME_SYNC_REQUEST, GAME_DEBUG_MODE, GAME_DEBUG_ADD_DROID, GAME_DEBUG_ADD_STRUCTURE,
          GAME_DEBUG_ADD_FEATURE, GAME_DEBUG_REMOVE_DROID, GAME_DEBUG_REMOVE_STRUCTURE,
          GAME_DEBUG_REMOVE_FEATURE, GAME_DEBUG_FINISH_RESEARCH, GAME_SYNC_OPT_CHANGE,
          REPLAY_ENDED] at m1 m2
        omega
  refine ⟨hboth, ?_⟩
  unfold recvMessageIteration
  cases hsp : shouldProcessMessage g queue type with
  | none => simp
  | some r =>
    obtain ⟨b, ev⟩ := r
    cases b with
    | false => simp
    | true => simp [hboth]

/-! ## Theorems: coverage of the dispatch passes and popping -/

theorem gameOnlyPass_labelled (g : Globals) (queue : NETQUEUE)
    (hjoin : g.localJoiningInProgress = false) :
    ∀ t ∈ gameOnlyLabels, (gameOnlyPass g queue t).1 = true := by
  simp only [gameOnlyLabels, List.forall_mem_cons, List.not_mem_nil, false_implies,
    implies_true, and_true]
  refine ⟨?_, ?_, ?_, ?_, ?_, ?_, ?_, ?_, ?_, ?_, ?_, ?_, ?_, ?_, ?_, ?_, ?_, ?_, ?_, ?_, ?_,
    ?_, ?_⟩ <;>
  (simp [gameOnlyPass, hjoin]; try (split_ifs <;> rfl))

theorem alwaysPass_labelled (queue : NETQUEUE) :
    ∀ t ∈ alwaysLabels, (alwaysPass queue t).1 = true := by
  simp only [alwaysLabels, List.forall_mem_cons, List.not_mem_nil, false_implies,
    implies_true, and_true]
  refine ⟨?_, ?_, ?_, ?_, ?_, ?_, ?_, ?_, ?_, ?_, ?_, ?_⟩ <;> simp [alwaysPass]

theorem recognized_iff (g : Globals) (queue : NETQUEUE) (type : Nat)
    (hjoin : g.localJoiningInProgress = false) :
    ((gameOnlyPass g queue type).1 || (alwaysPass queue type).1) = true ↔
      type ∈ gameOnlyLabels ++ alwaysLabels := by
  rw [Bool.or_eq_true, List.mem_append]
  constructor
  · rintro (h | h)
    · exact Or.inl (gameOnlyPass_labels g queue type h)
    · exact Or.inr (alwaysPass_labels queue type h)
  · rintro (h | h)
    · exact Or.inl (gameOnlyPass_labelled g queue hjoin type h)
    · exact Or.inr (alwaysPass_labelled queue type h)

theorem getMessageHandlingAction_total (g : Globals) (queue : NETQUEUE) (type : Nat)
    (hsender : queue.index = g.NetPlay.hostPlayer
      ∨ ∃ sender, g.NetPlay.players[queue.index]? = some sender) :
    ∃ a, getMessageHandlingAction g queue type = some a := by
  by_cases hh : queue.index = g.NetPlay.hostPlayer
  · exact ⟨HandleMessageAction.Process_Message, by simp [getMessageHandlingAction, hh]⟩
  · rcases hsender with h | ⟨sender, hs⟩
    · exact absurd h hh
    · simp only [getMessageHandlingAction, hh, hs, if_false]
      split
      · exact ⟨_, rfl⟩
      · split
        · exact ⟨_, rfl⟩
        · split_ifs <;> exact ⟨_, rfl⟩

theorem gameOnlyPass_unlabelled (g : Globals) (queue : NETQUEUE) (type : Nat)
    (hmem : type ∉ gameOnlyLabels) : gameOnlyPass g queue type = (false, []) := by
  simp only [gameOnlyLabels, List.mem_cons, List.mem_singleton, List.not_mem_nil, not_or,
    or_false] at hmem
  unfold gameOnlyPass
  simp only [hmem, if_false]
  split_ifs <;> rfl

theorem alwaysPass_unlabelled (queue : NETQUEUE) (type : Nat)
    (hmem : type ∉ alwaysLabels) : alwaysPass queue type = (false, []) := by
  simp only [alwaysLabels, List.mem_cons, List.mem_singleton, List.not_mem_nil, not_or,
    or_false] at hmem
  unfold alwaysPass
  simp only [hmem, if_false]

/-- C11, as stated, fails: a `NET_COLOURREQUEST` message (a defined net kind,
processed by the policy) received from slot 1 after joining is recognized by
neither pass; the iteration logs `Didn't handle %s message!` and pops it. -/
theorem colour_request_unrecognized :
    sampleHost.localJoiningInProgress = false ∧
    (NET_MIN_TYPE < NET_COLOURREQUEST ∧ NET_COLOURREQUEST < NET_MAX_TYPE) ∧
    (gameOnlyPass sampleHost ⟨1, 0⟩ NET_COLOURREQUEST).1 = false ∧
    (alwaysPass ⟨1, 0⟩ NET_COLOURREQUEST).1 = false ∧
    recvMessageIteration sampleConsts sampleHost ⟨1, 0⟩ NET_COLOURREQUEST
      = some ⟨false, false,
          [ Event.debug "LOG_ERROR" "Didn't handle %s message!" 1 NET_COLOURREQUEST,
            Event.NETpop ⟨1, 0⟩ ]⟩ := by
  refine ⟨rfl, by decide, by decide, by decide, by decide⟩

/-- C11 (amended): once the local peer has finished joining
(`localJoiningInProgress == false`), a kind is recognized by at least one of
the two passes exactly when it carries a case label in one of the two
switches (the 35 kinds of `gameOnlyLabels` and `alwaysLabels`); the other 29
defined kinds (`unlabelledKinds`) are recognized by neither pass, and every
defined kind is in one of the three lists.  In the loop iteration of
`recvMessage` for a message the policy lets through (`Process_Message`),
`processedMessage1 || processedMessage2` is true exactly for the labelled
kinds, and for an unlabelled kind both flags are false and the iteration only
logs `Didn't handle %s message!` and pops.  For a message the policy stops
(`Silently_Ignore` or `Disallow_And_Kick_Sender`) the iteration reaches
neither switch: both flags are false, no handler runs and nothing is logged
as unhandled. -/
theorem recognized_iff_labelled (c : Consts) (g : Globals) (queue : NETQUEUE) (type : Nat)
    (hjoin : g.localJoiningInProgress = false)
    (hsender : queue.index = g.NetPlay.hostPlayer
      ∨ ∃ sender, g.NetPlay.players[queue.index]? = some sender) :
    (((gameOnlyPass g queue type).1 || (alwaysPass queue type).1) = true ↔
      type ∈ gameOnlyLabels ++ alwaysLabels) ∧
    (type ∈ unlabelledKinds →
      (gameOnlyPass g queue type).1 = false ∧ (alwaysPass queue type).1 = false) ∧
    (((NET_MIN_TYPE < type ∧ type < NET_MAX_TYPE) ∨ (GAME_MIN_TYPE < type ∧ type < GAME_MAX_TYPE)
        ∨ type = REPLAY_ENDED) →
      type ∈ gameOnlyLabels ++ alwaysLabels ∨ type ∈ unlabelledKinds) ∧
    ∃ it, recvMessageIteration c g queue type = some it ∧
      (getMessageHandlingAction g queue type = some HandleMessageAction.Process_Message →
        ((it.processedMessage1 || it.processedMessage2) = true ↔
          type ∈ gameOnlyLabels ++ alwaysLabels) ∧
        (type ∈ unlabelledKinds →
          it.processedMessage1 = false ∧ it.processedMessage2 = false ∧
          it.events =
            (if queue.queueType = c.QUEUE_GAME then
              [Event.syncDebug "Processing player %d, message %s" queue.index type]
            else [])
            ++ [ Event.debug "LOG_ERROR" "Didn't handle %s message!" queue.index type,
                 Event.NETpop queue ])) ∧
      (getMessageHandlingAction g queue type ≠ some HandleMessageAction.Process_Message →
        it.processedMessage1 = false ∧ it.processedMessage2 = false ∧
        countHandlers it.events = 0 ∧
        Event.debug "LOG_ERROR" "Didn't handle %s message!" queue.index type ∉ it.events) := by
  have hiff := recognized_iff g queue type hjoin
  have hdis : ∀ t ∈ unlabelledKinds, t ∉ gameOnlyLabels ++ alwaysLabels := by decide
  refine ⟨hiff, ?_, ?_, ?_⟩
  · intro h
    have hn : ¬ (((gameOnlyPass g queue type).1 || (alwaysPass queue type).1) = true) :=
      fun hr => hdis type h (hiff.1 hr)
    rw [Bool.or_eq_true, not_or] at hn
    exact ⟨by simpa using hn.1, by simpa using hn.2⟩
  · intro h
    simp only [NET_MIN_TYPE, NET_MAX_TYPE, GAME_MIN_TYPE, GAME_MAX_TYPE, REPLAY_ENDED] at h
    rcases h with ⟨h1, h2⟩ | ⟨h1, h2⟩ | h
    · interval_cases type <;> decide
    · interval_cases type <;> decide
    · subst h
      decide
  · obtain ⟨a, ha⟩ := getMessageHandlingAction_total g queue type hsender
    unfold recvMessageIteration shouldProcessMessage
    rw [ha]
    cases a with
    | Process_Message =>
      refine ⟨_, rfl, fun _ => ⟨hiff, ?_⟩, fun hne => absurd rfl hne⟩
      intro hun
      have hnot := hdis type hun
      rw [List.mem_append, not_or] at hnot
      have h1 := gameOnlyPass_unlabelled g queue type hnot.1
      have h2 := alwaysPass_unlabelled queue type hnot.2
      simp only [h1, h2]
      refine ⟨trivial, trivial, ?_⟩
      simp
    | Silently_Ignore =>
      refine ⟨_, rfl, (fun h => by cases h), fun _ => ?_⟩
      by_cases hq : queue.queueType = c.QUEUE_GAME <;> simp [hq, countHandlers]
    | Disallow_And_Kick_Sender =>
      by_cases hh : g.NetPlay.isHost = true
      · simp only [hh, if_true]
        refine ⟨_, rfl, (fun h => by cases h), fun _ => ?_⟩
        by_cases hq : queue.queueType = c.QUEUE_GAME <;> simp [hq, countHandlers]
      · simp only [hh, if_false]
        refine ⟨_, rfl, (fun h => by cases h), fun _ => ?_⟩
        by_cases hq : queue.queueType = c.QUEUE_GAME <;> simp [hq, countHandlers]

theorem recognized_iff_labelled_witness :
    sampleHost.localJoiningInProgress = false ∧
    ((⟨1, 0⟩ : NETQUEUE).index = sampleHost.NetPlay.hostPlayer
      ∨ ∃ sender, sampleHost.NetPlay.players[(⟨1, 0⟩ : NETQUEUE).index]? = some sender) ∧
    getMessageHandlingAction sampleHost ⟨1, 0⟩ GAME_GIFT
      = some HandleMessageAction.Process_Message ∧
    (((gameOnlyPass sampleHost ⟨1, 0⟩ GAME_GIFT).1 || (alwaysPass ⟨1, 0⟩ GAME_GIFT).1) = true) ∧
    ∃ it, recvMessageIteration sampleConsts sampleHost ⟨1, 0⟩ GAME_GIFT = some it ∧
      (getMessageHandlingAction sampleHost ⟨1, 0⟩ GAME_GIFT
          = some HandleMessageAction.Process_Message →
        ((it.processedMessage1 || it.processedMessage2) = true ↔
          GAME_GIFT ∈ gameOnlyLabels ++ alwaysLabels)) :=
  ⟨rfl, Or.inr ⟨_, rfl⟩, by decide,
    (recognized_iff_labelled sampleConsts sampleHost ⟨1, 0⟩ GAME_GIFT rfl
      (Or.inr ⟨_, rfl⟩)).1.2 (by decide),
    (recognized_iff_labelled sampleConsts sampleHost ⟨1, 0⟩ GAME_GIFT rfl
      (Or.inr ⟨_, rfl⟩)).2.2.2.imp (fun _ h => ⟨h.1, fun hp => (h.2.1 hp).1⟩)⟩

theorem gameOnlyPass_events (g : Globals) (queue : NETQUEUE) (type : Nat) :
    ∀ e ∈ (gameOnlyPass g queue type).2,
      (∃ n, e = Event.handler n queue) ∨ (∃ s, e = Event.addConsoleMessage s) := by
  by_cases hmem : type ∈ gameOnlyLabels
  · revert type
    simp only [gameOnlyLabels, List.forall_mem_cons, List.not_mem_nil, false_implies,
      implies_true, and_true]
    refine ⟨?_, ?_, ?_, ?_, ?_, ?_, ?_, ?_, ?_, ?_, ?_, ?_, ?_, ?_, ?_, ?_, ?_, ?_, ?_, ?_, ?_,
      ?_, ?_⟩ <;>
    (by_cases hj : g.localJoiningInProgress = true <;> by_cases hr : g.isReplay = true <;>
      simp [gameOnlyPass, hj, hr])
  · simp only [gameOnlyLabels, List.mem_cons, List.mem_singleton, List.not_mem_nil, not_or,
      or_false] at hmem
    unfold gameOnlyPass
    simp only [hmem, if_false]
    split_ifs <;> simp

theorem alwaysPass_events (queue : NETQUEUE) (type : Nat) :
    ∀ e ∈ (alwaysPass queue type).2, ∃ n, e = Event.handler n queue := by
  by_cases hmem : type ∈ alwaysLabels
  · revert type
    simp only [alwaysLabels, List.forall_mem_cons, List.not_mem_nil, false_implies,
      implies_true, and_true]
    refine ⟨?_, ?_, ?_, ?_, ?_, ?_, ?_, ?_, ?_, ?_, ?_, ?_⟩ <;> simp [alwaysPass]
  · simp only [alwaysLabels, List.mem_cons, List.mem_singleton, List.not_mem_nil, not_or,
      or_false] at hmem
    unfold alwaysPass
    simp only [hmem, if_false]
    simp

theorem countPops_append (xs ys : List Event) :
    countPops (xs ++ ys) = countPops xs + countPops ys := by
  simp [countPops, List.filter_append]

theorem countPops_eq_zero (xs : List Event) (h : ∀ e ∈ xs, ∀ q, e ≠ Event.NETpop q) :
    countPops xs = 0 := by
  induction xs with
  | nil => rfl
  | cons x xs ih =>
    have hx := h x (List.mem_cons_self x xs)
    have ih2 := ih (fun e he => h e (List.mem_cons_of_mem x he))
    cases x with
    | NETpop q => exact absurd rfl (hx q)
    | _ => simpa [countPops] using ih2

theorem countPops_gameOnlyPass (g : Globals) (queue : NETQUEUE) (type : Nat) :
    countPops (gameOnlyPass g queue type).2 = 0 := by
  apply countPops_eq_zero
  intro e he q
  rcases gameOnlyPass_events g queue type e he with ⟨n, rfl⟩ | ⟨s, rfl⟩ <;> simp

theorem countPops_alwaysPass (queue : NETQUEUE) (type : Nat) :
    countPops (alwaysPass queue type).2 = 0 := by
  apply countPops_eq_zero
  intro e he q
  obtain ⟨n, rfl⟩ := alwaysPass_events queue type e he
  simp

/-- C12: for every message `(queue, type)` returned by `NETrecvNet` /
`NETrecvGame` (from the host queue or from a queue whose slot exists), the loop
iteration of `recvMessage` completes and calls `NETpop` exactly once, on that
queue, whatever the policy outcome is and however many passes recognized the
kind; handler results are not consulted. -/
theorem iteration_pops_once (c : Consts) (g : Globals) (queue : NETQUEUE) (type : Nat)
    (hsender : queue.index = g.NetPlay.hostPlayer
      ∨ ∃ sender, g.NetPlay.players[queue.index]? = some sender) :
    ∃ it, recvMessageIteration c g queue type = some it ∧
      countPops it.events = 1 ∧ Event.NETpop queue ∈ it.events := by
  obtain ⟨a, ha⟩ := getMessageHandlingAction_total g queue type hsender
  have hsync : ∀ (p : Prop) [Decidable p],
      countPops (if p then
        [Event.syncDebug "Processing player %d, message %s" queue.index type] else []) = 0 := by
    intro p _
    split_ifs <;> rfl
  have hlog : ∀ (p : Prop) [Decidable p] (f : String),
      countPops (if p then [Event.debug "LOG_ERROR" f queue.index type] else []) = 0 := by
    intro p _ f
    split_ifs <;> rfl
  unfold recvMessageIteration shouldProcessMessage
  rw [ha]
  cases a with
  | Process_Message =>
    refine ⟨_, rfl, ?_, ?_⟩
    · simp only [countPops_append, hsync, hlog, countPops_gameOnlyPass, countPops_alwaysPass]
      rfl
    · simp
  | Silently_Ignore =>
    refine ⟨_, rfl, ?_, ?_⟩
    · simp only [countPops_append, hsync]
      rfl
    · simp
  | Disallow_And_Kick_Sender =>
    by_cases hh : g.NetPlay.isHost = true
    · simp only [hh, if_true]
      refine ⟨_, rfl, ?_, ?_⟩
      · simp only [countPops_append, hsync]
        rfl
      · simp
    · simp only [hh, if_false]
      refine ⟨_, rfl, ?_, ?_⟩
      · simp only [countPops_append, hsync]
        rfl
      · simp

theorem iteration_pops_once_witness :
    ((⟨3, 1⟩ : NETQUEUE).index = sampleHost.NetPlay.hostPlayer
      ∨ ∃ sender, sampleHost.NetPlay.players[(⟨3, 1⟩ : NETQUEUE).index]? = some sender) ∧
    ∃ it, recvMessageIteration sampleConsts sampleHost ⟨3, 1⟩ NET_TEXTMSG = some it ∧
      countPops it.events = 1 ∧ Event.NETpop ⟨3, 1⟩ ∈ it.events :=
  ⟨Or.inr ⟨_, rfl⟩,
    iteration_pops_once sampleConsts sampleHost ⟨3, 1⟩ NET_TEXTMSG (Or.inr ⟨_, rfl⟩)⟩

/-! ## Theorems: loops and traces -/

theorem forLoop_indexed {σ : Type} (body : Nat → σ → Option σ) (P : Nat → σ → Prop) :
    ∀ (count start : Nat) (s : σ),
      (∀ i t, start ≤ i → i < start + count → P i t →
        ∃ t', body i t = some t' ∧ P (i + 1) t') →
      P start s → ∃ s', forLoop body start count s = some s' ∧ P (start + count) s'
  | 0, start, s, _, hP => ⟨s, rfl, by simpa using hP⟩
  | count + 1, start, s, hstep, hP => by
    obtain ⟨t', ht', hP'⟩ := hstep start s (le_refl _) (by omega) hP
    obtain ⟨s', hs', hP''⟩ := forLoop_indexed body P count (start + 1) t'
      (fun i t h1 h2 => hstep i t (by omega) (by omega)) hP'
    refine ⟨s', ?_, ?_⟩
    · simp [forLoop, ht', hs']
    · have : start + (count + 1) = start + 1 + count := by omega
      rw [this]
      exact hP''

theorem forLoop_invariant {σ : Type} (body : Nat → σ → Option σ) (P : σ → Prop)
    (count start : Nat) (s : σ)
    (hstep : ∀ i t, start ≤ i → i < start + count → P t → ∃ t', body i t = some t' ∧ P t')
    (hP : P s) : ∃ s', forLoop body start count s = some s' ∧ P s' :=
  forLoop_indexed body (fun _ t => P t) count start s hstep hP

theorem option_map_some {α β : Type} (o : Option α) (f : α → β) (P : β → Prop)
    (h : ∃ a, o = some a ∧ P (f a)) : ∃ r, o.map f = some r ∧ P r := by
  obtain ⟨a, ha, hp⟩ := h
  exact ⟨f a, by rw [ha]; rfl, hp⟩

theorem kicksFor_append (k : Nat) (xs ys : List Event) :
    kicksFor k (xs ++ ys) = kicksFor k xs + kicksFor k ys := by
  simp [kicksFor, List.filter_append]

theorem kicksFor_nil (k : Nat) : kicksFor k [] = 0 := rfl

theorem kicksFor_lagKickEvents (x : Externals) (i k : Nat) (L : Int) :
    kicksFor k (lagKickEvents x i L) = if i = k then 1 else 0 := by
  unfold lagKickEvents
  by_cases h : x.wz_command_interface_enabled = true <;> by_cases hk : i = k <;>
    simp [kicksFor, h, hk, List.filter_cons]

theorem kicksFor_lagWarnEvents (i k : Nat) (r : Int) :
    kicksFor k (lagWarnEvents i r) = 0 := by
  simp [kicksFor, lagWarnEvents, List.filter_cons]

theorem isHumanPlayer_slot (c : Consts) (np : NETPLAY) (i : Nat)
    (hwf : c.MAX_CONNECTED_PLAYERS ≤ np.players.length) :
    ∃ b, isHumanPlayer c np (i : Int) = some b :=
  isHumanPlayer_total c np (i : Int) hwf

/-! ## Theorems: lag monitor -/

/-- The five ways the second part of the lag loop body can end. -/
theorem lagCounterStep_cases (x : Externals) (i : Nat) (ingame : MULTIPLAYERINGAME)
    (l : LagSlotLocals) :
    ((l.isLagging = false ∧ l.isWaitingForInitialLoad = false) ∧ ingame.LagCounter i ≤ 0 ∧
        lagCounterStep x i ingame l = (ingame, [])) ∨
    ((l.isLagging = false ∧ l.isWaitingForInitialLoad = false) ∧ 0 < ingame.LagCounter i ∧
        lagCounterStep x i ingame l
          = (setLagCounter ingame i (ingame.LagCounter i - 1), [])) ∨
    (¬ (l.isLagging = false ∧ l.isWaitingForInitialLoad = false) ∧
        ingame.PendingDisconnect i = true ∧ lagCounterStep x i ingame l = (ingame, [])) ∨
    (¬ (l.isLagging = false ∧ l.isWaitingForInitialLoad = false) ∧
        ingame.PendingDisconnect i = false ∧ l.LagAutoKickSeconds ≤ ingame.LagCounter i + 1 ∧
        lagCounterStep x i ingame l
          = (setLagCounter ingame i 0, lagKickEvents x i l.LagAutoKickSeconds)) ∨
    (¬ (l.isLagging = false ∧ l.isWaitingForInitialLoad = false) ∧
        ingame.PendingDisconnect i = false ∧ ingame.LagCounter i + 1 < l.LagAutoKickSeconds ∧
        ∃ E, (E = [] ∨ E = lagWarnEvents i (l.LagAutoKickSeconds - (ingame.LagCounter i + 1))) ∧
          (E = [] ↔ ¬ (l.LagAutoKickSeconds - 3 ≤ ingame.LagCounter i + 1
            ∨ Int.tmod (ingame.LagCounter i + 1) 15 = 0)) ∧
          lagCounterStep x i ingame l = (setLagCounter ingame i (ingame.LagCounter i + 1), E)) := by
  unfold lagCounterStep
  by_cases hidle : l.isLagging = false ∧ l.isWaitingForInitialLoad = false
  · by_cases hc : 0 < ingame.LagCounter i
    · right; left
      exact ⟨hidle, hc, by simp [hidle, hc]⟩
    · left
      exact ⟨hidle, by omega, by simp [hidle, hc]⟩
  · by_cases hp : ingame.PendingDisconnect i = true
    · right; right; left
      exact ⟨hidle, hp, by simp only [if_neg hidle, if_pos hp]⟩
    · have hp' : ingame.PendingDisconnect i = false := by simpa using hp
      by_cases hk : l.LagAutoKickSeconds ≤ ingame.LagCounter i + 1
      · right; right; right; left
        exact ⟨hidle, hp', hk, by simp only [if_neg hidle, if_neg hp, if_pos hk]⟩
      · right; right; right; right
        refine ⟨hidle, hp', by omega, ?_⟩
        have hwarn : ∀ r : Int, lagWarnEvents i r ≠ [] := by
          intro r
          simp [lagWarnEvents]
        by_cases hw : l.LagAutoKickSeconds - 3 ≤ ingame.LagCounter i + 1
        · refine ⟨_, Or.inr rfl, ?_, by simp only [if_neg hidle, if_neg hp, if_neg hk, if_pos hw]⟩
          constructor
          · intro h
            exact absurd h (hwarn _)
          · intro h
            exact absurd (Or.inl hw) h
        · by_cases hm : Int.tmod (ingame.LagCounter i + 1) 15 = 0
          · refine ⟨_, Or.inr rfl, ?_,
              by simp only [if_neg hidle, if_neg hp, if_neg hk, if_neg hw, if_pos hm]⟩
            constructor
            · intro h
              exact absurd h (hwarn _)
            · intro h
              exact absurd (Or.inr hm) h
          · refine ⟨[], Or.inl rfl, ?_,
              by simp only [if_neg hidle, if_neg hp, if_neg hk, if_neg hw, if_neg hm]⟩
            constructor
            · intro _ h
              rcases h with h | h
              · exact hw h
              · exact hm h
            · intro _
              rfl

theorem lagSlotLocals_seconds (c : Consts) (x : Externals) (g : Globals) (now : Int)
    (isInitialLoad : Bool) (i : Nat) (st : LagLoopState) :
    (lagSlotLocals c x g now isInitialLoad i st).LagAutoKickSeconds = st.LagAutoKickSeconds ∨
    (lagSlotLocals c x g now isInitialLoad i st).LagAutoKickSeconds
      = min 10 st.LagAutoKickSeconds := by
  unfold lagSlotLocals
  simp only
  split_ifs <;> first | (left; rfl) | (right; rfl)

/-- Every iteration of the lag loop is defined, and it either leaves the loop
state alone (skipped slot) or applies the two parts of the body (examined slot). -/
theorem autoLagKickBody_cases (c : Consts) (x : Externals) (g : Globals) (now : Int)
    (isInitialLoad : Bool) (i : Nat) (st : LagLoopState)
    (hwf : c.MAX_CONNECTED_PLAYERS ≤ g.NetPlay.players.length) :
    (¬ slotExamined c x g i ∧ autoLagKickBody c x g now isInitialLoad i st = some st) ∨
    (slotExamined c x g i ∧ autoLagKickBody c x g now isInitialLoad i st =
      some { ingame := (lagCounterStep x i st.ingame
                (lagSlotLocals c x g now isInitialLoad i st)).1,
             LagAutoKickSeconds :=
               (lagSlotLocals c x g now isInitialLoad i st).LagAutoKickSeconds,
             numPlayersLoaded := (lagSlotLocals c x g now isInitialLoad i st).numPlayersLoaded,
             totalNumPlayers := (lagSlotLocals c x g now isInitialLoad i st).totalNumPlayers,
             events := st.events ++ (lagCounterStep x i st.ingame
                (lagSlotLocals c x g now isInitialLoad i st)).2 }) := by
  obtain ⟨b, hb⟩ := isHumanPlayer_slot c g.NetPlay i hwf
  unfold slotExamined autoLagKickBody
  rw [hb]
  cases b with
  | false => left; simp
  | true =>
    by_cases h1 : i = g.NetPlay.hostPlayer
    · left; simp [h1]
    · by_cases h2 : c.MAX_PLAYERS < i ∧ x.gtimeShouldWaitForPlayer i = false
      · left
        rw [if_neg h1, if_pos h2]
        exact ⟨fun h => h.2.2 h2, rfl⟩
      · right
        rw [if_neg h1, if_neg h2]
        exact ⟨⟨rfl, h1, h2⟩, rfl⟩

theorem setLagCounter_apply (ingame : MULTIPLAYERINGAME) (i j : Nat) (v : Int) :
    (setLagCounter ingame i v).LagCounter j = if j = i then v else ingame.LagCounter j := by
  simp [setLagCounter, Function.update_apply]

/-- What the second part of the lag loop body does to the counter of any slot
`j` and to the kick count of any slot `k`. -/
theorem lagCounterStep_effect (x : Externals) (i : Nat) (ingame : MULTIPLAYERINGAME)
    (l : LagSlotLocals) (T : Int) (hL : 0 < l.LagAutoKickSeconds ∧ l.LagAutoKickSeconds ≤ T)
    (hinv : ∀ j, 0 ≤ ingame.LagCounter j ∧ ingame.LagCounter j < T) :
    ∀ j, 0 ≤ (lagCounterStep x i ingame l).1.LagCounter j ∧
      (lagCounterStep x i ingame l).1.LagCounter j < T := by
  intro j
  have hj := hinv j
  have hi := hinv i
  rcases lagCounterStep_cases x i ingame l with
    ⟨_, _, h⟩ | ⟨_, hc, h⟩ | ⟨_, _, h⟩ | ⟨_, _, hk, h⟩ | ⟨_, _, hk, E, _, _, h⟩ <;>
    rw [h] <;> simp only [setLagCounter_apply]
  · exact hj
  · split_ifs <;> omega
  · exact hj
  · split_ifs <;> omega
  · split_ifs <;> omega

theorem autoLagKickBody_bounds (c : Consts) (x : Externals) (g : Globals) (now : Int)
    (isInitialLoad : Bool) (i : Nat) (st : LagLoopState) (T : Int)
    (hwf : c.MAX_CONNECTED_PLAYERS ≤ g.NetPlay.players.length)
    (hP : (0 < st.LagAutoKickSeconds ∧ st.LagAutoKickSeconds ≤ T) ∧
      ∀ j, 0 ≤ st.ingame.LagCounter j ∧ st.ingame.LagCounter j < T) :
    ∃ st', autoLagKickBody c x g now isInitialLoad i st = some st' ∧
      ((0 < st'.LagAutoKickSeconds ∧ st'.LagAutoKickSeconds ≤ T) ∧
        ∀ j, 0 ≤ st'.ingame.LagCounter j ∧ st'.ingame.LagCounter j < T) := by
  rcases autoLagKickBody_cases c x g now isInitialLoad i st hwf with ⟨_, h⟩ | ⟨_, h⟩
  · exact ⟨st, h, hP⟩
  · refine ⟨_, h, ?_⟩
    have hL : 0 < (lagSlotLocals c x g now isInitialLoad i st).LagAutoKickSeconds ∧
        (lagSlotLocals c x g now isInitialLoad i st).LagAutoKickSeconds ≤ T := by
      rcases lagSlotLocals_seconds c x g now isInitialLoad i st with h1 | h1 <;> rw [h1]
      · exact hP.1
      · have := hP.1
        constructor
        · exact lt_min (by norm_num) this.1
        · exact le_trans (min_le_right _ _) this.2
    exact ⟨hL, lagCounterStep_effect x i st.ingame _ T hL hP.2⟩

/-- One pass of the lag monitor keeps every lag counter in `[0, T)`. -/
theorem autoLagKickRoutine_bounds (c : Consts) (x : Externals) (g : Globals)
    (ingame : MULTIPLAYERINGAME) (now : Int) (T : Int)
    (hwf : c.MAX_CONNECTED_PLAYERS ≤ g.NetPlay.players.length)
    (hT : x.war_getAutoLagKickSeconds = T)
    (hinv : ∀ j, 0 ≤ ingame.LagCounter j ∧ ingame.LagCounter j < T) :
    ∃ r, autoLagKickRoutine c x g ingame now = some r ∧
      ∀ j, 0 ≤ r.1.LagCounter j ∧ r.1.LagCounter j < T := by
  unfold autoLagKickRoutine
  split_ifs with h1 h2 h3
  · exact ⟨_, rfl, hinv⟩
  · exact ⟨_, rfl, hinv⟩
  · exact ⟨_, rfl, hinv⟩
  · obtain ⟨s', hs', hP⟩ := forLoop_invariant
      (autoLagKickBody c x g now (!g.localJoiningInProgress && ingame.TimeEveryoneIsInGame.isNone))
      (fun st => (0 < st.LagAutoKickSeconds ∧ st.LagAutoKickSeconds ≤ T) ∧
        ∀ j, 0 ≤ st.ingame.LagCounter j ∧ st.ingame.LagCounter j < T)
      (if g.localJoiningInProgress = true ∨
          (!g.localJoiningInProgress && ingame.TimeEveryoneIsInGame.isNone) = true
        then c.MAX_CONNECTED_PLAYERS else c.MAX_PLAYERS) 0
      { ingame := { ingame with lastLagCheck := now },
        LagAutoKickSeconds := x.war_getAutoLagKickSeconds,
        numPlayersLoaded := 0, totalNumPlayers := 0, events := [] }
      (fun i t _ _ hP => autoLagKickBody_bounds c x g now _ i t T hwf hP)
      ⟨⟨by rw [hT] at h2; show 0 < x.war_getAutoLagKickSeconds; rw [hT]; omega,
        le_of_eq hT⟩, hinv⟩
    refine ⟨(s'.ingame, s'.events), ?_, hP.2⟩
    simp only [hs', Option.map_some']

/-- C13: with a fixed auto-kick threshold `T > 0` and every lag counter
initially 0, after every sequence of `autoLagKickRoutine` passes, whatever the
pings, joining flags, clock and other inputs of each pass are, every pass
completes and the lag counter of every slot is at least 0 and strictly below
`T` (an incremented counter that reaches the threshold is reset to 0 with the
kick). -/
theorem lag_counter_bounded (c : Consts) (T : Int) (hT : 0 < T) (ticks : List LagTick)
    (hwf : ∀ t ∈ ticks, c.MAX_CONNECTED_PLAYERS ≤ t.g.NetPlay.players.length)
    (hfix : ∀ t ∈ ticks, t.x.war_getAutoLagKickSeconds = T) :
    ∃ counters, runLagPasses c ticks (fun _ => 0) = some counters ∧
      ∀ i, 0 ≤ counters i ∧ counters i < T := by
  have key : ∀ (ts : List LagTick) (cs : Nat → Int),
      (∀ t ∈ ts, c.MAX_CONNECTED_PLAYERS ≤ t.g.NetPlay.players.length) →
      (∀ t ∈ ts, t.x.war_getAutoLagKickSeconds = T) →
      (∀ i, 0 ≤ cs i ∧ cs i < T) →
      ∃ counters, runLagPasses c ts cs = some counters ∧
        ∀ i, 0 ≤ counters i ∧ counters i < T := by
    intro ts
    induction ts with
    | nil =>
      intro cs _ _ hcs
      exact ⟨cs, rfl, hcs⟩
    | cons t ts ih =>
      intro cs hw hf hcs
      obtain ⟨r, hr, hb⟩ := autoLagKickRoutine_bounds c t.x t.g
        { t.env with LagCounter := cs } t.now T (hw t (List.mem_cons_self t ts))
        (hf t (List.mem_cons_self t ts)) hcs
      obtain ⟨counters, hc, hb2⟩ := ih r.1.LagCounter
        (fun u hu => hw u (List.mem_cons_of_mem t hu))
        (fun u hu => hf u (List.mem_cons_of_mem t hu)) hb
      refine ⟨counters, ?_, hb2⟩
      simp only [runLagPasses, hr, hc]
  exact key ticks (fun _ => 0) hwf hfix (fun _ => ⟨le_refl 0, hT⟩)

theorem lag_counter_bounded_witness :
    (0 : Int) < 2 ∧
    (∀ t ∈ sampleLagTicks,
      monitorConsts.MAX_CONNECTED_PLAYERS ≤ t.g.NetPlay.players.length) ∧
    (∀ t ∈ sampleLagTicks, t.x.war_getAutoLagKickSeconds = 2) ∧
    ∃ counters, runLagPasses monitorConsts sampleLagTicks (fun _ => 0) = some counters ∧
      ∀ i, 0 ≤ counters i ∧ counters i < 2 :=
  ⟨by decide, by decide, by decide,
    lag_counter_bounded monitorConsts 2 (by decide) sampleLagTicks (by decide) (by decide)⟩

theorem lagCounterStep_frame (x : Externals) (i : Nat) (ingame : MULTIPLAYERINGAME)
    (l : LagSlotLocals) :
    (lagCounterStep x i ingame l).1.JoiningInProgress = ingame.JoiningInProgress ∧
    (lagCounterStep x i ingame l).1.PendingDisconnect = ingame.PendingDisconnect ∧
    (lagCounterStep x i ingame l).1.PingTimes = ingame.PingTimes ∧
    (lagCounterStep x i ingame l).1.startTime = ingame.startTime ∧
    (lagCounterStep x i ingame l).1.DesyncCounter = ingame.DesyncCounter ∧
    ∀ j, j ≠ i → (lagCounterStep x i ingame l).1.LagCounter j = ingame.LagCounter j := by
  rcases lagCounterStep_cases x i ingame l with
    ⟨_, _, h⟩ | ⟨_, _, h⟩ | ⟨_, _, h⟩ | ⟨_, _, _, h⟩ | ⟨_, _, _, E, _, _, h⟩ <;>
    rw [h] <;> refine ⟨rfl, rfl, rfl, rfl, rfl, ?_⟩ <;> intro j hj <;>
    simp [setLagCounter_apply, hj]

/-- Kick count of the second part of the lag loop body: nothing for another
slot, at most one for the slot itself. -/
theorem lagCounterStep_kicks (x : Externals) (i k : Nat) (ingame : MULTIPLAYERINGAME)
    (l : LagSlotLocals) :
    (k ≠ i → kicksFor k (lagCounterStep x i ingame l).2 = 0) ∧
    kicksFor k (lagCounterStep x i ingame l).2 ≤ 1 := by
  rcases lagCounterStep_cases x i ingame l with
    ⟨_, _, h⟩ | ⟨_, _, h⟩ | ⟨_, _, h⟩ | ⟨_, _, _, h⟩ | ⟨_, _, _, E, hE, _, h⟩ <;> rw [h]
  · exact ⟨fun _ => rfl, Nat.zero_le _⟩
  · exact ⟨fun _ => rfl, Nat.zero_le _⟩
  · exact ⟨fun _ => rfl, Nat.zero_le _⟩
  · simp only [kicksFor_lagKickEvents]
    constructor
    · intro hk
      rw [if_neg (fun h => hk h.symm)]
    · split_ifs <;> omega
  · rcases hE with rfl | rfl
    · exact ⟨fun _ => rfl, Nat.zero_le _⟩
    · simp [kicksFor_lagWarnEvents]

/-- A slot that is not lagging in this pass, or that is pending disconnect, is
not kicked and its counter is not incremented by the second part of the body. -/
theorem lagCounterStep_quiet (x : Externals) (i : Nat) (ingame : MULTIPLAYERINGAME)
    (l : LagSlotLocals)
    (h : (l.isLagging = false ∧ l.isWaitingForInitialLoad = false)
      ∨ ingame.PendingDisconnect i = true) :
    (lagCounterStep x i ingame l).2 = [] ∧
    ((lagCounterStep x i ingame l).1.LagCounter i = ingame.LagCounter i ∨
      (0 < ingame.LagCounter i ∧
        (lagCounterStep x i ingame l).1.LagCounter i = ingame.LagCounter i - 1)) := by
  rcases lagCounterStep_cases x i ingame l with
    ⟨_, _, h1⟩ | ⟨_, hc, h1⟩ | ⟨_, _, h1⟩ | ⟨hn, hp, _, h1⟩ | ⟨hn, hp, _, E, _, _, h1⟩
  · rw [h1]
    exact ⟨rfl, Or.inl rfl⟩
  · rw [h1]
    exact ⟨rfl, Or.inr ⟨hc, by simp [setLagCounter_apply]⟩⟩
  · rw [h1]
    exact ⟨rfl, Or.inl rfl⟩
  · rcases h with h | h
    · exact absurd h hn
    · rw [hp] at h
      exact absurd h (by decide)
  · rcases h with h | h
    · exact absurd h hn
    · rw [hp] at h
      exact absurd h (by decide)

/-- Inside the load grace period the first part of the lag loop body declares
a joining slot neither lagging nor waiting, unless the spectator shortcut
applies (slot above `MAX_PLAYERS`, all counted players loaded). -/
theorem lagSlotLocals_grace (c : Consts) (x : Externals) (g : Globals) (now : Int)
    (i : Nat) (st : LagLoopState)
    (hjoin : st.ingame.JoiningInProgress i = true)
    (hgrace : durationSeconds (now - st.ingame.startTime) < 60)
    (hno : i ≤ c.MAX_PLAYERS ∨
      (lagSlotLocals c x g now true i st).totalNumPlayers = 0 ∨
      (lagSlotLocals c x g now true i st).numPlayersLoaded
        ≠ (lagSlotLocals c x g now true i st).totalNumPlayers) :
    (lagSlotLocals c x g now true i st).isLagging = false ∧
    (lagSlotLocals c x g now true i st).isWaitingForInitialLoad = false := by
  have hshort : (true && st.ingame.JoiningInProgress i && decide (c.MAX_PLAYERS < i)
      && decide (0 < (lagSlotLocals c x g now true i st).totalNumPlayers)
      && decide ((lagSlotLocals c x g now true i st).numPlayersLoaded
          = (lagSlotLocals c x g now true i st).totalNumPlayers)
      && decide (i ≠ g.NetPlay.hostPlayer)) = false := by
    rcases hno with h | h | h
    · have : ¬ c.MAX_PLAYERS < i := by omega
      simp [this]
    · simp [h]
    · simp [h]
  unfold lagSlotLocals at hshort ⊢
  simp only [hjoin, Bool.true_and] at hshort ⊢
  simp only [hshort]
  simp [hgrace]

theorem lagSlotLocals_counts (c : Consts) (x : Externals) (g : Globals) (now : Int)
    (isInitialLoad : Bool) (i : Nat) (st : LagLoopState) :
    (lagSlotLocals c x g now isInitialLoad i st).totalNumPlayers
      = (if i < c.MAX_PLAYERS then st.totalNumPlayers + 1 else st.totalNumPlayers) ∧
    (lagSlotLocals c x g now isInitialLoad i st).numPlayersLoaded
      = (if i < c.MAX_PLAYERS ∧ st.ingame.JoiningInProgress i = false then
          st.numPlayersLoaded + 1 else st.numPlayersLoaded) :=
  ⟨rfl, rfl⟩

/-- C14, as stated, fails for spectator slots: in the initial load phase, 5
seconds after `ingame.startTime`, with the only real player (slot 1) loaded,
the still-joining spectator slot 3 (ping 0) is kicked by a pass with threshold
1, and with threshold 30 its lag counter is incremented from 0 to 1. -/
theorem spectator_lag_kicked_within_grace :
    sampleHost.localJoiningInProgress = false ∧
    sampleIngame.TimeEveryoneIsInGame = none ∧
    sampleIngame.JoiningInProgress 3 = true ∧
    durationSeconds (5000000000 - sampleIngame.startTime) < 60 ∧
    (autoLagKickRoutine monitorConsts sampleExternals sampleHost sampleIngame
        5000000000).map (fun r => kicksFor 3 r.2) = some 1 ∧
    sampleIngame.LagCounter 3 = 0 ∧
    (autoLagKickRoutine monitorConsts
        { sampleExternals with war_getAutoLagKickSeconds := 30 } sampleHost sampleIngame
        5000000000).map (fun r => r.1.LagCounter 3) = some 1 := by
  refine ⟨rfl, rfl, rfl, by decide, by decide, rfl, by decide⟩

theorem lag_grace_step (c : Consts) (x : Externals) (g : Globals)
    (ingame : MULTIPLAYERINGAME) (now : Int) (k : Nat)
    (hwf : c.MAX_CONNECTED_PLAYERS ≤ g.NetPlay.players.length)
    (hjoin : ingame.JoiningInProgress k = true)
    (hgrace : durationSeconds (now - ingame.startTime) < 60)
    (hslot : k ≤ c.MAX_PLAYERS ∨
      (∃ j, j < c.MAX_PLAYERS ∧ isHumanPlayer c g.NetPlay (j : Int) = some true ∧
        j ≠ g.NetPlay.hostPlayer ∧ ingame.JoiningInProgress j = true) ∨
      (∀ j, j < c.MAX_PLAYERS →
        ¬ (isHumanPlayer c g.NetPlay (j : Int) = some true ∧ j ≠ g.NetPlay.hostPlayer)))
    (i : Nat) (st : LagLoopState) (hP : lagGraceInvariant c g ingame k i st) :
    ∃ st', autoLagKickBody c x g now true i st = some st' ∧
      lagGraceInvariant c g ingame k (i + 1) st' := by
  obtain ⟨hJ, hS, hC, hK, hle, hL, hZ⟩ := hP
  rcases autoLagKickBody_cases c x g now true i st hwf with ⟨hskip, h⟩ | ⟨hex, h⟩
  · refine ⟨st, h, hJ, hS, hC, hK, hle, ?_, hZ⟩
    intro j hj hjm hh hho hjo
    by_cases hji : j = i
    · subst hji
      exact absurd ⟨hh, hho, fun hc => by omega⟩ hskip
    · exact hL j (by omega) hjm hh hho hjo
  · refine ⟨_, h, ?_⟩
    obtain ⟨hcT, hcL⟩ := lagSlotLocals_counts c x g now true i st
    obtain ⟨fJ, _, _, fS, _, fC⟩ := lagCounterStep_frame x i st.ingame
      (lagSlotLocals c x g now true i st)
    have hle2 : (lagSlotLocals c x g now true i st).numPlayersLoaded
        ≤ (lagSlotLocals c x g now true i st).totalNumPlayers := by
      rw [hcT, hcL]
      split_ifs <;> omega
    have hloc : ∀ j, j < i + 1 → j < c.MAX_PLAYERS →
        isHumanPlayer c g.NetPlay (j : Int) = some true →
        j ≠ g.NetPlay.hostPlayer → ingame.JoiningInProgress j = true →
        (lagSlotLocals c x g now true i st).numPlayersLoaded
          < (lagSlotLocals c x g now true i st).totalNumPlayers := by
      intro j hj hjm hh hho hjo
      rw [hcT, hcL]
      by_cases hji : j = i
      · subst hji
        have hjs : st.ingame.JoiningInProgress j = true := by rw [hJ]; exact hjo
        rw [if_pos hjm, if_neg (by rw [hjs]; simp)]
        omega
      · have := hL j (by omega) hjm hh hho hjo
        split_ifs <;> omega
    have hzero : (∀ j, j < c.MAX_PLAYERS →
        ¬ (isHumanPlayer c g.NetPlay (j : Int) = some true ∧ j ≠ g.NetPlay.hostPlayer)) →
        (lagSlotLocals c x g now true i st).totalNumPlayers = 0 := by
      intro hnone
      rw [hcT]
      have hi : ¬ i < c.MAX_PLAYERS := fun hi => hnone i hi ⟨hex.1, hex.2.1⟩
      rw [if_neg hi]
      exact hZ hnone
    have hslotk : i = k → (lagCounterStep x i st.ingame (lagSlotLocals c x g now true i st)).2 = []
        ∧ (lagCounterStep x i st.ingame (lagSlotLocals c x g now true i st)).1.LagCounter k
          ≤ st.ingame.LagCounter k := by
      intro hik
      subst hik
      have hidle := lagSlotLocals_grace c x g now i st (by rw [hJ]; exact hjoin)
        (by rw [hS]; exact hgrace)
        (by
          by_cases hkm : i ≤ c.MAX_PLAYERS
          · exact Or.inl hkm
          · right
            have hnlt : ¬ i < c.MAX_PLAYERS := by omega
            rcases hslot with h1 | ⟨j, hjm, hh, hho, hjo⟩ | hnone
            · exact absurd h1 hkm
            · right
              have := hL j (by omega) hjm hh hho hjo
              rw [hcT, hcL, if_neg hnlt, if_neg (fun hc => hnlt hc.1)]
              omega
            · left
              exact hzero hnone)
      obtain ⟨hev, hcnt⟩ := lagCounterStep_quiet x i st.ingame _ (Or.inl hidle)
      refine ⟨hev, ?_⟩
      rcases hcnt with h1 | ⟨_, h1⟩ <;> rw [h1]; omega
    refine ⟨?_, ?_, ?_, ?_, hle2, hloc, hzero⟩
    · show (lagCounterStep x i st.ingame _).1.JoiningInProgress = ingame.JoiningInProgress
      rw [fJ, hJ]
    · show (lagCounterStep x i st.ingame _).1.startTime = ingame.startTime
      rw [fS, hS]
    · show (lagCounterStep x i st.ingame _).1.LagCounter k ≤ ingame.LagCounter k
      by_cases hik : i = k
      · exact le_trans (hslotk hik).2 hC
      · rw [fC k (fun h => hik h.symm)]
        exact hC
    · show kicksFor k (st.events ++ (lagCounterStep x i st.ingame _).2) = 0
      rw [kicksFor_append, hK]
      by_cases hik : i = k
      · rw [(hslotk hik).1]
        rfl
      · rw [(lagCounterStep_kicks x i k st.ingame _).1 (fun h => hik h.symm)]

/-- C14 (amended): in the initial load phase (not in lobby,
`TimeEveryoneIsInGame` unset), for a slot `k` that is still joining while
fewer than 60 seconds have elapsed since `ingame.startTime`, a pass of
`autoLagKickRoutine` never kicks the slot and never increments its lag
counter, however large its ping is, provided the slot index is at most
`MAX_PLAYERS`, or some counted player slot (human, not the host, below
`MAX_PLAYERS`) is still joining, or no player slot is counted at all.  (For a
slot above `MAX_PLAYERS` once every counted player has loaded, the grace
period is 0 instead.) -/
theorem load_grace_no_kick (c : Consts) (x : Externals) (g : Globals)
    (ingame : MULTIPLAYERINGAME) (now : Int) (k : Nat)
    (hwf : c.MAX_CONNECTED_PLAYERS ≤ g.NetPlay.players.length)
    (hlobby : g.localJoiningInProgress = false)
    (hload : ingame.TimeEveryoneIsInGame = none)
    (hjoin : ingame.JoiningInProgress k = true)
    (hgrace : durationSeconds (now - ingame.startTime) < 60)
    (hslot : k ≤ c.MAX_PLAYERS ∨
      (∃ j, j < c.MAX_PLAYERS ∧ isHumanPlayer c g.NetPlay (j : Int) = some true ∧
        j ≠ g.NetPlay.hostPlayer ∧ ingame.JoiningInProgress j = true) ∨
      (∀ j, j < c.MAX_PLAYERS →
        ¬ (isHumanPlayer c g.NetPlay (j : Int) = some true ∧ j ≠ g.NetPlay.hostPlayer))) :
    ∃ r, autoLagKickRoutine c x g ingame now = some r ∧
      kicksFor k r.2 = 0 ∧ r.1.LagCounter k ≤ ingame.LagCounter k := by
  unfold autoLagKickRoutine
  split_ifs with h1 h2 h3
  · exact ⟨_, rfl, rfl, le_refl _⟩
  · exact ⟨_, rfl, rfl, le_refl _⟩
  · exact ⟨_, rfl, rfl, le_refl _⟩
  · have hinit : (!g.localJoiningInProgress && ingame.TimeEveryoneIsInGame.isNone) = true := by
      simp [hlobby, hload]
    have key : ∀ n, ∃ s', forLoop (autoLagKickBody c x g now true) 0 n
        { ingame := { ingame with lastLagCheck := now },
          LagAutoKickSeconds := x.war_getAutoLagKickSeconds,
          numPlayersLoaded := 0, totalNumPlayers := 0, events := [] } = some s' ∧
        lagGraceInvariant c g ingame k (0 + n) s' := fun n =>
      forLoop_indexed (autoLagKickBody c x g now true) (lagGraceInvariant c g ingame k) n 0 _
        (fun i t _ _ hP => lag_grace_step c x g ingame now k hwf hjoin hgrace hslot i t hP)
        ⟨rfl, rfl, le_refl _, rfl, le_refl _, fun j hj => absurd hj (Nat.not_lt_zero j),
          fun _ => rfl⟩
    simp only [hinit]
    apply option_map_some
    obtain ⟨s', hs', hP⟩ := key _
    exact ⟨s', hs', hP.2.2.2.1, hP.2.2.1⟩

theorem load_grace_no_kick_witness :
    monitorConsts.MAX_CONNECTED_PLAYERS ≤ sampleHost.NetPlay.players.length ∧
    sampleHost.localJoiningInProgress = false ∧
    sampleIngame.TimeEveryoneIsInGame = none ∧
    { sampleIngame with JoiningInProgress := fun _ => true }.JoiningInProgress 1 = true ∧
    durationSeconds (5000000000 - sampleIngame.startTime) < 60 ∧
    ∃ r, autoLagKickRoutine monitorConsts sampleExternals sampleHost
        { sampleIngame with JoiningInProgress := fun _ => true } 5000000000 = some r ∧
      kicksFor 1 r.2 = 0 ∧ r.1.LagCounter 1 ≤ sampleIngame.LagCounter 1 :=
  ⟨by decide, rfl, rfl, rfl, by decide,
    load_grace_no_kick monitorConsts sampleExternals sampleHost
      { sampleIngame with JoiningInProgress := fun _ => true } 5000000000 1
      (by decide) rfl rfl rfl (by decide) (Or.inl (by decide))⟩

/-! ## Theorems: what a monitor pass does to one watched slot -/

/-- Effect of one iteration of the lag loop on a watched slot `k`. -/
theorem lag_body_slot (c : Consts) (x : Externals) (g : Globals) (now : Int)
    (isInitialLoad : Bool) (i k : Nat) (st : LagLoopState)
    (hwf : c.MAX_CONNECTED_PLAYERS ≤ g.NetPlay.players.length) :
    ∃ st', autoLagKickBody c x g now isInitialLoad i st = some st' ∧
      st'.ingame.PendingDisconnect = st.ingame.PendingDisconnect ∧
      st'.ingame.DesyncCounter = st.ingame.DesyncCounter ∧
      (i ≠ k → kicksFor k st'.events = kicksFor k st.events ∧
        st'.ingame.LagCounter k = st.ingame.LagCounter k) ∧
      kicksFor k st'.events ≤ kicksFor k st.events + 1 ∧
      (¬ slotExamined c x g i → kicksFor k st'.events = kicksFor k st.events ∧
        st'.ingame.LagCounter k = st.ingame.LagCounter k) ∧
      (st.ingame.PendingDisconnect i = true →
        kicksFor i st'.events = kicksFor i st.events ∧
        st'.ingame.LagCounter i ≤ st.ingame.LagCounter i) := by
  rcases autoLagKickBody_cases c x g now isInitialLoad i st hwf with ⟨hskip, h⟩ | ⟨hex, h⟩
  · exact ⟨st, h, rfl, rfl, fun _ => ⟨rfl, rfl⟩, Nat.le_succ _, fun _ => ⟨rfl, rfl⟩,
      fun _ => ⟨rfl, le_refl _⟩⟩
  · refine ⟨_, h, ?_⟩
    obtain ⟨_, fP, _, _, fD, fC⟩ := lagCounterStep_frame x i st.ingame
      (lagSlotLocals c x g now isInitialLoad i st)
    obtain ⟨hk0, hk1⟩ := lagCounterStep_kicks x i k st.ingame
      (lagSlotLocals c x g now isInitialLoad i st)
    refine ⟨fP, fD, ?_, ?_, fun hn => absurd hex hn, ?_⟩
    · intro hik
      refine ⟨?_, fC k (fun h => hik h.symm)⟩
      show kicksFor k (st.events ++ _) = _
      rw [kicksFor_append, hk0 (fun h => hik h.symm)]
      rfl
    · show kicksFor k (st.events ++ _) ≤ _
      rw [kicksFor_append]
      omega
    · intro hp
      obtain ⟨hev, hcnt⟩ := lagCounterStep_quiet x i st.ingame
        (lagSlotLocals c x g now isInitialLoad i st) (Or.inr hp)
      constructor
      · show kicksFor i (st.events ++ _) = _
        rw [hev, List.append_nil]
      · show (lagCounterStep x i st.ingame _).1.LagCounter i ≤ _
        rcases hcnt with h1 | ⟨_, h1⟩ <;> rw [h1]
        omega

/-- A pass of the lag monitor, seen from one slot `k`: the pass completes,
kicks `k` at most once, leaves `DesyncCounter` alone, leaves a slot that fails
a skip test untouched, and neither kicks nor increments a slot that is pending
disconnect. -/
theorem autoLagKickRoutine_slot (c : Consts) (x : Externals) (g : Globals)
    (ingame : MULTIPLAYERINGAME) (now : Int) (k : Nat)
    (hwf : c.MAX_CONNECTED_PLAYERS ≤ g.NetPlay.players.length) :
    ∃ r, autoLagKickRoutine c x g ingame now = some r ∧
      kicksFor k r.2 ≤ 1 ∧ r.1.DesyncCounter = ingame.DesyncCounter ∧
      (¬ slotExamined c x g k →
        kicksFor k r.2 = 0 ∧ r.1.LagCounter k = ingame.LagCounter k) ∧
      (ingame.PendingDisconnect k = true →
        kicksFor k r.2 = 0 ∧ r.1.LagCounter k ≤ ingame.LagCounter k) := by
  unfold autoLagKickRoutine
  split_ifs with h1 h2 h3
  · exact ⟨_, rfl, Nat.zero_le _, rfl, fun _ => ⟨rfl, rfl⟩, fun _ => ⟨rfl, le_refl _⟩⟩
  · exact ⟨_, rfl, Nat.zero_le _, rfl, fun _ => ⟨rfl, rfl⟩, fun _ => ⟨rfl, le_refl _⟩⟩
  · exact ⟨_, rfl, Nat.zero_le _, rfl, fun _ => ⟨rfl, rfl⟩, fun _ => ⟨rfl, le_refl _⟩⟩
  · have key : ∀ (b : Bool) (n : Nat), ∃ s', forLoop (autoLagKickBody c x g now b) 0 n
        { ingame := { ingame with lastLagCheck := now },
          LagAutoKickSeconds := x.war_getAutoLagKickSeconds,
          numPlayersLoaded := 0, totalNumPlayers := 0, events := [] } = some s' ∧
        lagSlotInvariant c x g ingame k (0 + n) s' := by
      intro b n
      refine forLoop_indexed (autoLagKickBody c x g now b) (lagSlotInvariant c x g ingame k)
        n 0 _ ?_ ?_
      · intro i t _ _ hP
        obtain ⟨hPend, hDes, hpre, hle, hskip, hpd⟩ := hP
        obtain ⟨t', ht', bP, bD, bother, bone, bskip, bpend⟩ :=
          lag_body_slot c x g now b i k t hwf
        refine ⟨t', ht', bP.trans hPend, bD.trans hDes, ?_, ?_, ?_, ?_⟩
        · intro hik
          have hne : i ≠ k := by omega
          obtain ⟨hk, hc⟩ := hpre (by omega)
          obtain ⟨e1, e2⟩ := bother hne
          exact ⟨e1.trans hk, e2.trans hc⟩
        · by_cases hik : i = k
          · have := (hpre (by omega)).1
            omega
          · rw [(bother hik).1]
            exact hle
        · intro hn
          by_cases hik : i = k
          · obtain ⟨hk, hc⟩ := hpre (by omega)
            subst hik
            obtain ⟨e1, e2⟩ := bskip hn
            exact ⟨e1.trans hk, e2.trans hc⟩
          · obtain ⟨e1, e2⟩ := bother hik
            obtain ⟨hk, hc⟩ := hskip hn
            exact ⟨e1.trans hk, e2.trans hc⟩
        · intro hp
          by_cases hik : i = k
          · obtain ⟨hk, hc⟩ := hpre (by omega)
            subst hik
            obtain ⟨e1, e2⟩ := bpend (by rw [hPend]; exact hp)
            exact ⟨e1.trans hk, by rw [← hc]; exact e2⟩
          · obtain ⟨e1, e2⟩ := bother hik
            obtain ⟨hk, hc⟩ := hpd hp
            exact ⟨e1.trans hk, by rw [e2]; exact hc⟩
      · exact ⟨rfl, rfl, fun _ => ⟨rfl, rfl⟩, Nat.zero_le _, fun _ => ⟨rfl, rfl⟩,
          fun _ => ⟨rfl, le_refl _⟩⟩
    simp only
    apply option_map_some
    obtain ⟨s', hs', hP⟩ := key _ _
    exact ⟨s', hs', hP.2.2.2.1, hP.2.1, hP.2.2.2.2.1, hP.2.2.2.2.2⟩

/-! ## Theorems: desync monitor -/

theorem setDesyncCounter_apply (ingame : MULTIPLAYERINGAME) (i j : Nat) (v : Int) :
    (setDesyncCounter ingame i v).DesyncCounter j
      = if j = i then v else ingame.DesyncCounter j := by
  simp [setDesyncCounter, Function.update_apply]

theorem kicksFor_desyncKickEvents (x : Externals) (i k : Nat) (D : Int) :
    kicksFor k (desyncKickEvents x i D) = if i = k then 1 else 0 := by
  unfold desyncKickEvents
  by_cases h : x.wz_command_interface_enabled = true <;> by_cases hk : i = k <;>
    simp [kicksFor, h, hk, List.filter_cons]

theorem kicksFor_desyncWarnEvents (i k : Nat) (r : Int) :
    kicksFor k (desyncWarnEvents i r) = 0 := by
  simp [kicksFor, desyncWarnEvents, List.filter_cons]

/-- The ways one iteration of the desync loop can end. -/
theorem autoDesyncKickBody_cases (c : Consts) (x : Externals) (g : Globals) (D : Int)
    (i : Nat) (st : LoopState)
    (hwf : c.MAX_CONNECTED_PLAYERS ≤ g.NetPlay.players.length) :
    (¬ slotExamined c x g i ∧ autoDesyncKickBody c x g D i st = some st) ∨
    (slotExamined c x g i ∧ x.desyncStatus i = false ∧
      autoDesyncKickBody c x g D i st
        = some { ingame := setDesyncCounter st.ingame i 0, events := st.events ++ [] }) ∨
    (slotExamined c x g i ∧ x.desyncStatus i = true ∧ st.ingame.PendingDisconnect i = true ∧
      autoDesyncKickBody c x g D i st = some st) ∨
    (slotExamined c x g i ∧ x.desyncStatus i = true ∧ st.ingame.PendingDisconnect i = false ∧
      D ≤ st.ingame.DesyncCounter i + 1 ∧
      autoDesyncKickBody c x g D i st
        = some { ingame := setDesyncCounter st.ingame i 0,
                 events := st.events ++ desyncKickEvents x i D }) ∨
    (slotExamined c x g i ∧ x.desyncStatus i = true ∧ st.ingame.PendingDisconnect i = false ∧
      st.ingame.DesyncCounter i + 1 < D ∧
      ∃ E, (E = [] ∨ E = desyncWarnEvents i (D - (st.ingame.DesyncCounter i + 1))) ∧
        autoDesyncKickBody c x g D i st
          = some { ingame := setDesyncCounter st.ingame i (st.ingame.DesyncCounter i + 1),
                   events := st.events ++ E }) := by
  obtain ⟨b, hb⟩ := isHumanPlayer_slot c g.NetPlay i hwf
  unfold slotExamined autoDesyncKickBody
  rw [hb]
  cases b with
  | false => left; simp
  | true =>
    by_cases h1 : i = g.NetPlay.hostPlayer
    · left; simp [h1]
    · by_cases h2 : c.MAX_PLAYERS < i ∧ x.gtimeShouldWaitForPlayer i = false
      · left
        rw [if_neg h1, if_pos h2]
        exact ⟨fun h => h.2.2 h2, rfl⟩
      · right
        have hex : True ∧ i ≠ g.NetPlay.hostPlayer ∧
            ¬ (c.MAX_PLAYERS < i ∧ x.gtimeShouldWaitForPlayer i = false) := ⟨trivial, h1, h2⟩
        simp only [if_neg h1, if_neg h2]
        by_cases h3 : x.desyncStatus i = false
        · left
          exact ⟨hex, h3, by simp [h3]⟩
        · have h3' : x.desyncStatus i = true := by simpa using h3
          right
          by_cases h4 : st.ingame.PendingDisconnect i = true
          · left
            exact ⟨hex, h3', h4, by simp [h3', h4]⟩
          · have h4' : st.ingame.PendingDisconnect i = false := by simpa using h4
            right
            by_cases h5 : D ≤ st.ingame.DesyncCounter i + 1
            · left
              exact ⟨hex, h3', h4', h5, by simp [h3', h4', h5]⟩
            · right
              refine ⟨hex, h3', h4', by omega, ?_⟩
              by_cases h6 : D - 3 ≤ st.ingame.DesyncCounter i + 1
              · exact ⟨_, Or.inr rfl, by simp [h3', h4', h5, h6]⟩
              · by_cases h7 : Int.tmod (st.ingame.DesyncCounter i + 1) 2 = 0
                · exact ⟨_, Or.inr rfl, by simp [h3', h4', h5, h6, h7]⟩
                · exact ⟨[], Or.inl rfl, by simp [h3', h4', h5, h6, h7]⟩

/-- Effect of one iteration of the desync loop on a watched slot `k`. -/
theorem desync_body_slot (c : Consts) (x : Externals) (g : Globals) (D : Int)
    (i k : Nat) (st : LoopState)
    (hwf : c.MAX_CONNECTED_PLAYERS ≤ g.NetPlay.players.length) :
    ∃ st', autoDesyncKickBody c x g D i st = some st' ∧
      st'.ingame.PendingDisconnect = st.ingame.PendingDisconnect ∧
      st'.ingame.LagCounter = st.ingame.LagCounter ∧
      (i ≠ k → kicksFor k st'.events = kicksFor k st.events ∧
        st'.ingame.DesyncCounter k = st.ingame.DesyncCounter k) ∧
      kicksFor k st'.events ≤ kicksFor k st.events + 1 ∧
      (¬ slotExamined c x g i → kicksFor k st'.events = kicksFor k st.events ∧
        st'.ingame.DesyncCounter k = st.ingame.DesyncCounter k) ∧
      (st.ingame.PendingDisconnect i = true →
        kicksFor i st'.events = kicksFor i st.events ∧
        (st'.ingame.DesyncCounter i = st.ingame.DesyncCounter i ∨
          st'.ingame.DesyncCounter i = 0)) := by
  have shape : ∀ (v : Int) (E : List Event),
      (k ≠ i → kicksFor k E = 0) → kicksFor k E ≤ 1 →
      ((setDesyncCounter st.ingame i v).PendingDisconnect = st.ingame.PendingDisconnect ∧
        (setDesyncCounter st.ingame i v).LagCounter = st.ingame.LagCounter ∧
        (i ≠ k → kicksFor k (st.events ++ E) = kicksFor k st.events ∧
          (setDesyncCounter st.ingame i v).DesyncCounter k = st.ingame.DesyncCounter k) ∧
        kicksFor k (st.events ++ E) ≤ kicksFor k st.events + 1) := by
    intro v E h0 h1
    refine ⟨rfl, rfl, ?_, ?_⟩
    · intro hik
      rw [kicksFor_append, h0 (fun h => hik h.symm), setDesyncCounter_apply,
        if_neg (fun h => hik h.symm)]
      exact ⟨rfl, rfl⟩
    · rw [kicksFor_append]
      omega
  rcases autoDesyncKickBody_cases c x g D i st hwf with
    ⟨hskip, h⟩ | ⟨hex, _, h⟩ | ⟨hex, _, _, h⟩ | ⟨hex, _, hp, _, h⟩ | ⟨hex, _, hp, _, E, hE, h⟩
  · exact ⟨st, h, rfl, rfl, fun _ => ⟨rfl, rfl⟩, Nat.le_succ _, fun _ => ⟨rfl, rfl⟩,
      fun _ => ⟨rfl, Or.inl rfl⟩⟩
  · obtain ⟨s1, s2, s3, s4⟩ := shape 0 [] (fun _ => rfl) (Nat.zero_le _)
    refine ⟨_, h, s1, s2, s3, s4, fun hn => absurd hex hn, fun _ => ⟨?_, Or.inr ?_⟩⟩
    · show kicksFor i (st.events ++ []) = _
      rw [List.append_nil]
    · show (setDesyncCounter st.ingame i 0).DesyncCounter i = 0
      simp [setDesyncCounter_apply]
  · exact ⟨st, h, rfl, rfl, fun _ => ⟨rfl, rfl⟩, Nat.le_succ _, fun _ => ⟨rfl, rfl⟩,
      fun _ => ⟨rfl, Or.inl rfl⟩⟩
  · obtain ⟨s1, s2, s3, s4⟩ := shape 0 (desyncKickEvents x i D)
      (by intro hk; rw [kicksFor_desyncKickEvents, if_neg (fun h => hk h.symm)])
      (by rw [kicksFor_desyncKickEvents]; split_ifs <;> omega)
    refine ⟨_, h, s1, s2, s3, s4, fun hn => absurd hex hn, fun hpt => ?_⟩
    rw [hp] at hpt
    exact absurd hpt (by decide)
  · have hE0 : ∀ k', kicksFor k' E = 0 := by
      intro k'
      rcases hE with rfl | rfl
      · rfl
      · exact kicksFor_desyncWarnEvents _ _ _
    obtain ⟨s1, s2, s3, s4⟩ := shape (st.ingame.DesyncCounter i + 1) E
      (fun _ => hE0 k) (by rw [hE0 k]; omega)
    refine ⟨_, h, s1, s2, s3, s4, fun hn => absurd hex hn, fun hpt => ?_⟩
    rw [hp] at hpt
    exact absurd hpt (by decide)

/-- A pass of the desync monitor, seen from one slot `k`. -/
theorem autoDesyncKickRoutine_slot (c : Consts) (x : Externals) (g : Globals)
    (ingame : MULTIPLAYERINGAME) (now : Int) (k : Nat)
    (hwf : c.MAX_CONNECTED_PLAYERS ≤ g.NetPlay.players.length) :
    ∃ r, autoDesyncKickRoutine c x g ingame now = some r ∧
      kicksFor k r.2 ≤ 1 ∧ r.1.LagCounter = ingame.LagCounter ∧
      (¬ slotExamined c x g k →
        kicksFor k r.2 = 0 ∧ r.1.DesyncCounter k = ingame.DesyncCounter k) ∧
      (ingame.PendingDisconnect k = true →
        kicksFor k r.2 = 0 ∧
        (r.1.DesyncCounter k = ingame.DesyncCounter k ∨ r.1.DesyncCounter k = 0)) := by
  unfold autoDesyncKickRoutine
  split_ifs with h1 h2 h3 h4
  · exact ⟨_, rfl, Nat.zero_le _, rfl, fun _ => ⟨rfl, rfl⟩, fun _ => ⟨rfl, Or.inl rfl⟩⟩
  · exact ⟨_, rfl, Nat.zero_le _, rfl, fun _ => ⟨rfl, rfl⟩, fun _ => ⟨rfl, Or.inl rfl⟩⟩
  · exact ⟨_, rfl, Nat.zero_le _, rfl, fun _ => ⟨rfl, rfl⟩, fun _ => ⟨rfl, Or.inl rfl⟩⟩
  · exact ⟨_, rfl, Nat.zero_le _, rfl, fun _ => ⟨rfl, rfl⟩, fun _ => ⟨rfl, Or.inl rfl⟩⟩
  · have key : ∀ (n : Nat), ∃ s',
        forLoop (autoDesyncKickBody c x g x.war_getAutoDesyncKickSeconds) 0 n
          { ingame := { ingame with lastDesyncCheck := now }, events := [] } = some s' ∧
        desyncSlotInvariant c x g ingame k (0 + n) s' := by
      intro n
      refine forLoop_indexed (autoDesyncKickBody c x g x.war_getAutoDesyncKickSeconds)
        (desyncSlotInvariant c x g ingame k) n 0 _ ?_ ?_
      · intro i t _ _ hP
        obtain ⟨hPend, hLag, hpre, hle, hskip, hpd⟩ := hP
        obtain ⟨t', ht', bP, bL, bother, bone, bskip, bpend⟩ :=
          desync_body_slot c x g x.war_getAutoDesyncKickSeconds i k t hwf
        refine ⟨t', ht', bP.trans hPend, bL.trans hLag, ?_, ?_, ?_, ?_⟩
        · intro hik
          have hne : i ≠ k := by omega
          obtain ⟨hk, hc⟩ := hpre (by omega)
          obtain ⟨e1, e2⟩ := bother hne
          exact ⟨e1.trans hk, e2.trans hc⟩
        · by_cases hik : i = k
          · have := (hpre (by omega)).1
            omega
          · rw [(bother hik).1]
            exact hle
        · intro hn
          by_cases hik : i = k
          · obtain ⟨hk, hc⟩ := hpre (by omega)
            subst hik
            obtain ⟨e1, e2⟩ := bskip hn
            exact ⟨e1.trans hk, e2.trans hc⟩
          · obtain ⟨e1, e2⟩ := bother hik
            obtain ⟨hk, hc⟩ := hskip hn
            exact ⟨e1.trans hk, e2.trans hc⟩
        · intro hp
          by_cases hik : i = k
          · obtain ⟨hk, hc⟩ := hpre (by omega)
            subst hik
            obtain ⟨e1, e2⟩ := bpend (by rw [hPend]; exact hp)
            refine ⟨e1.trans hk, ?_⟩
            rcases e2 with e2 | e2
            · exact Or.inl (e2.trans hc)
            · exact Or.inr e2
          · obtain ⟨e1, e2⟩ := bother hik
            obtain ⟨hk, hc⟩ := hpd hp
            refine ⟨e1.trans hk, ?_⟩
            rw [e2]
            exact hc
      · exact ⟨rfl, rfl, fun _ => ⟨rfl, rfl⟩, Nat.zero_le _, fun _ => ⟨rfl, rfl⟩,
          fun _ => ⟨rfl, Or.inl rfl⟩⟩
    apply option_map_some
    obtain ⟨s', hs', hP⟩ := key _
    exact ⟨s', hs', hP.2.2.2.1, hP.2.1, hP.2.2.2.2.1, hP.2.2.2.2.2⟩

/-- C17: once the match has a recorded end time (`ingame.endTime` has a
value), a call of `autoDesyncKickRoutine` changes nothing: it returns the same
`ingame` (every `DesyncCounter` entry included) and makes no call at all (no
kick, no warning), whatever the desync flags of the slots are. -/
theorem desync_suspended_after_end (c : Consts) (x : Externals) (g : Globals)
    (ingame : MULTIPLAYERINGAME) (now : Int)
    (hend : ingame.endTime.isSome = true) :
    autoDesyncKickRoutine c x g ingame now = some (ingame, []) := by
  unfold autoDesyncKickRoutine
  split_ifs <;> rfl

theorem desync_suspended_after_end_witness :
    ({ sampleIngame with endTime := some 1 } : MULTIPLAYERINGAME).endTime.isSome = true ∧
    (autoDesyncKickRoutine monitorConsts
        { sampleExternals with desyncStatus := fun _ => true } sampleHost
        { sampleIngame with endTime := some 1 } 5000000000).map (fun r => r.2) = some [] :=
  ⟨rfl, by
    rw [desync_suspended_after_end monitorConsts
      { sampleExternals with desyncStatus := fun _ => true } sampleHost
      { sampleIngame with endTime := some 1 } 5000000000 rfl]
    rfl⟩

/-! ## Theorems: lobby not-ready monitor -/

theorem kicksFor_notReadyKickEvents (x : Externals) (i k : Nat) (T : Int) :
    kicksFor k (notReadyKickEvents x i T) = if i = k then 1 else 0 := by
  unfold notReadyKickEvents
  by_cases h : x.wz_command_interface_enabled = true <;> by_cases hk : i = k <;>
    simp [kicksFor, h, hk, List.filter_cons]

theorem human_slot_exists (c : Consts) (np : NETPLAY) (i : Nat)
    (h : isHumanPlayer c np (i : Int) = some true) :
    ∃ p, np.players[i]? = some p ∧ p.allocated = true := by
  obtain ⟨_, _, p, hp, ha⟩ := (isHumanPlayer_true_iff c np (i : Int)).1 h
  exact ⟨p, by simpa using hp, ha⟩

/-- The ways one iteration of the not-ready loop can end. -/
theorem autoLobbyNotReadyKickBody_cases (c : Consts) (x : Externals) (g : Globals)
    (now : Int) (T : Int) (i : Nat) (st : LoopState)
    (hwf : c.MAX_CONNECTED_PLAYERS ≤ g.NetPlay.players.length) :
    (¬ (slotExamined c x g i ∧ st.ingame.PendingDisconnect i = false) ∧
      autoLobbyNotReadyKickBody c x g now T i st = some st) ∨
    (slotExamined c x g i ∧ st.ingame.PendingDisconnect i = false ∧
      toUInt64 T ≤ calculateSecondsNotReadyForPlayer g st.ingame i now ∧
      autoLobbyNotReadyKickBody c x g now T i st
        = some { st with events := st.events ++ notReadyKickEvents x i T }) ∨
    (slotExamined c x g i ∧ st.ingame.PendingDisconnect i = false ∧
      calculateSecondsNotReadyForPlayer g st.ingame i now < toUInt64 T ∧
      ∃ E, (E = [] ∨ E = [Event.sendQuickChat "NotReadyKickWarning" i (some i)]) ∧
        autoLobbyNotReadyKickBody c x g now T i st
          = some { st with events := st.events ++ E }) := by
  obtain ⟨b, hb⟩ := isHumanPlayer_slot c g.NetPlay i hwf
  unfold slotExamined autoLobbyNotReadyKickBody
  cases b with
  | false =>
    left
    rw [hb]
    exact ⟨fun h => by simp at h, rfl⟩
  | true =>
    obtain ⟨p, hp, _⟩ := human_slot_exists c g.NetPlay i hb
    rw [hb]
    by_cases h1 : i = g.NetPlay.hostPlayer
    · left
      rw [if_pos h1]
      exact ⟨fun h => h.1.2.1 h1, rfl⟩
    · by_cases h2 : c.MAX_PLAYERS < i ∧ x.gtimeShouldWaitForPlayer i = false
      · left
        rw [if_neg h1, if_pos h2]
        exact ⟨fun h => h.1.2.2 h2, rfl⟩
      · by_cases h3 : st.ingame.PendingDisconnect i = true
        · left
          rw [if_neg h1, if_neg h2, if_pos h3]
          exact ⟨fun h => by rw [h3] at h; exact absurd h.2 (by decide), rfl⟩
        · have h3' : st.ingame.PendingDisconnect i = false := by simpa using h3
          right
          simp only [if_neg h1, if_neg h2, if_neg h3, hp]
          by_cases h4 : toUInt64 T ≤ calculateSecondsNotReadyForPlayer g st.ingame i now
          · left
            exact ⟨⟨trivial, h1, h2⟩, h3', h4, by rw [if_pos h4]⟩
          · right
            refine ⟨⟨trivial, h1, h2⟩, h3', by omega, ?_⟩
            rw [if_neg h4]
            by_cases h5 : p.ready = false ∧
                toUInt64 (T - 6) ≤ calculateSecondsNotReadyForPlayer g st.ingame i now
            · exact ⟨_, Or.inr rfl, by rw [if_pos h5]⟩
            · exact ⟨[], Or.inl rfl, by rw [if_neg h5, List.append_nil]⟩

/-- Every iteration of the not-ready loop is defined, keeps `ingame`, leaves
the kick count of another slot alone, and gives the slot itself one kick
exactly when it is examined, not pending, and over the threshold. -/
theorem notReady_body_slot (c : Consts) (x : Externals) (g : Globals)
    (now : Int) (T : Int) (i k : Nat) (st : LoopState)
    (hwf : c.MAX_CONNECTED_PLAYERS ≤ g.NetPlay.players.length) :
    ∃ st', autoLobbyNotReadyKickBody c x g now T i st = some st' ∧
      st'.ingame = st.ingame ∧
      (i ≠ k → kicksFor k st'.events = kicksFor k st.events) ∧
      kicksFor i st'.events = kicksFor i st.events +
        (if slotExamined c x g i ∧ st.ingame.PendingDisconnect i = false ∧
            toUInt64 T ≤ calculateSecondsNotReadyForPlayer g st.ingame i now then 1 else 0) := by
  rcases autoLobbyNotReadyKickBody_cases c x g now T i st hwf with
    ⟨hskip, h⟩ | ⟨hex, hp, ht, h⟩ | ⟨hex, hp, ht, E, hE, h⟩
  · refine ⟨st, h, rfl, fun _ => rfl, ?_⟩
    rw [if_neg (fun hc => hskip ⟨hc.1, hc.2.1⟩)]
    rfl
  · refine ⟨_, h, rfl, ?_, ?_⟩
    · intro hik
      show kicksFor k (st.events ++ _) = _
      rw [kicksFor_append, kicksFor_notReadyKickEvents, if_neg hik]
      rfl
    · show kicksFor i (st.events ++ _) = _
      rw [kicksFor_append, kicksFor_notReadyKickEvents, if_pos rfl, if_pos ⟨hex, hp, ht⟩]
  · have hE0 : ∀ k', kicksFor k' E = 0 := by
      intro k'
      rcases hE with rfl | rfl <;> rfl
    refine ⟨_, h, rfl, ?_, ?_⟩
    · intro _
      show kicksFor k (st.events ++ _) = _
      rw [kicksFor_append, hE0]
      rfl
    · show kicksFor i (st.events ++ _) = _
      rw [kicksFor_append, hE0, if_neg (fun hc => by omega)]

/-- A pass of the not-ready monitor, seen from one slot `k`: the pass
completes and changes no counter; when it returns early nobody is kicked;
when its loop runs, slot `k` gets exactly one kick if it is below
`MAX_CONNECTED_PLAYERS`, examined, not pending and over the threshold, and no
kick otherwise. -/
theorem autoLobbyNotReadyKickRoutine_slot (c : Consts) (x : Externals) (g : Globals)
    (ingame : MULTIPLAYERINGAME) (now : Int) (k : Nat)
    (hwf : c.MAX_CONNECTED_PLAYERS ≤ g.NetPlay.players.length) :
    ∃ r, autoLobbyNotReadyKickRoutine c x g ingame now = some r ∧
      r.1.LagCounter = ingame.LagCounter ∧ r.1.DesyncCounter = ingame.DesyncCounter ∧
      (kicksFor k r.2 = 0 ∨
        (kicksFor k r.2 = 1 ∧ k < c.MAX_CONNECTED_PLAYERS ∧ slotExamined c x g k ∧
          ingame.PendingDisconnect k = false ∧
          toUInt64 x.war_getAutoLagKickSeconds
            ≤ calculateSecondsNotReadyForPlayer g ingame k now)) ∧
      ((x.bMultiPlayer = true ∧ x.bComms = true ∧ g.NetPlay.isHost = true ∧
          g.localJoiningInProgress = true ∧ x.multiplayPlayersCanCheckReady = true ∧
          0 < x.war_getAutoLagKickSeconds ∧
          NOTREADY_CHECK_INTERVAL ≤ durationMilliseconds (now - ingame.lastNotReadyCheck)) →
        k < c.MAX_CONNECTED_PLAYERS → slotExamined c x g k →
        ingame.PendingDisconnect k = false →
        toUInt64 x.war_getAutoLagKickSeconds
          ≤ calculateSecondsNotReadyForPlayer g ingame k now →
        kicksFor k r.2 = 1) := by
  unfold autoLobbyNotReadyKickRoutine
  split_ifs with h1 h2 h3 h4 h5
  · refine ⟨_, rfl, rfl, rfl, Or.inl rfl, ?_⟩
    intro hr
    rcases h1 with h | h | h
    · rw [hr.1] at h; exact absurd h (by decide)
    · rw [hr.2.1] at h; exact absurd h (by decide)
    · rw [hr.2.2.1] at h; exact absurd h (by decide)
  · refine ⟨_, rfl, rfl, rfl, Or.inl rfl, ?_⟩
    intro hr
    rw [hr.2.2.2.1] at h2
    exact absurd h2 (by decide)
  · refine ⟨_, rfl, rfl, rfl, Or.inl rfl, ?_⟩
    intro hr
    rw [hr.2.2.2.2.1] at h3
    exact absurd h3 (by decide)
  · refine ⟨_, rfl, rfl, rfl, Or.inl rfl, ?_⟩
    intro hr
    have := hr.2.2.2.2.2.1
    omega
  · refine ⟨_, rfl, rfl, rfl, Or.inl rfl, ?_⟩
    intro hr
    have := hr.2.2.2.2.2.2
    omega
  · have key : ∀ (n : Nat), ∃ s',
        forLoop (autoLobbyNotReadyKickBody c x g now x.war_getAutoLagKickSeconds) 0 n
          { ingame := { ingame with lastNotReadyCheck := now }, events := [] } = some s' ∧
        notReadySlotInvariant c x g { ingame with lastNotReadyCheck := now } now
          x.war_getAutoLagKickSeconds k (0 + n) s' := by
      intro n
      refine forLoop_indexed
        (autoLobbyNotReadyKickBody c x g now x.war_getAutoLagKickSeconds)
        (notReadySlotInvariant c x g { ingame with lastNotReadyCheck := now } now
          x.war_getAutoLagKickSeconds k) n 0 _ ?_ ?_
      · intro i t _ _ hP
        obtain ⟨hI, hpre, hpost⟩ := hP
        obtain ⟨t', ht', bI, bother, bself⟩ :=
          notReady_body_slot c x g now x.war_getAutoLagKickSeconds i k t hwf
        refine ⟨t', ht', bI.trans hI, ?_, ?_⟩
        · intro hik
          rw [bother (by omega)]
          exact hpre (by omega)
        · intro hki
          by_cases hik : i = k
          · subst hik
            rw [bself, hpre (le_refl _), hI, Nat.zero_add]
          · rw [bother hik]
            exact hpost (by omega)
      · exact ⟨rfl, fun _ => rfl, fun h => absurd h (Nat.not_lt_zero k)⟩
    apply option_map_some
    obtain ⟨s', hs', hI, hpre, hpost⟩ := key c.MAX_CONNECTED_PLAYERS
    refine ⟨s', hs', by rw [hI], by rw [hI], ?_, ?_⟩
    · by_cases hk : k < c.MAX_CONNECTED_PLAYERS
      · have hv := hpost (by omega)
        by_cases hc : slotExamined c x g k ∧
            ({ ingame with lastNotReadyCheck := now } : MULTIPLAYERINGAME).PendingDisconnect k
              = false ∧
            toUInt64 x.war_getAutoLagKickSeconds ≤ calculateSecondsNotReadyForPlayer g
              { ingame with lastNotReadyCheck := now } k now
        · rw [if_pos hc] at hv
          exact Or.inr ⟨hv, hk, hc.1, hc.2.1, hc.2.2⟩
        · rw [if_neg hc] at hv
          exact Or.inl hv
      · exact Or.inl (hpre (by omega))
    · intro _ hk hex hp ht
      have hv := hpost (by omega)
      rw [if_pos ⟨hex, hp, ht⟩] at hv
      exact hv

/-! ## Theorems: skip rules shared by the three monitors -/

/-- C15: in a pass of each of the three monitors (`autoLagKickRoutine`,
`autoDesyncKickRoutine`, `autoLobbyNotReadyKickRoutine`), every pass completes,
no slot is kicked more than once, and a slot with `PendingDisconnect` set is
not kicked and its counter is not incremented: its `LagCounter` does not grow,
its `DesyncCounter` is unchanged or reset to 0, and the not-ready monitor
changes no counter. -/
theorem pending_slot_skipped (c : Consts) (x : Externals) (g : Globals)
    (ingame : MULTIPLAYERINGAME) (now : Int)
    (hwf : c.MAX_CONNECTED_PLAYERS ≤ g.NetPlay.players.length) :
    ∃ rl rd rn, autoLagKickRoutine c x g ingame now = some rl ∧
      autoDesyncKickRoutine c x g ingame now = some rd ∧
      autoLobbyNotReadyKickRoutine c x g ingame now = some rn ∧
      (∀ j, kicksFor j rl.2 ≤ 1 ∧ kicksFor j rd.2 ≤ 1 ∧ kicksFor j rn.2 ≤ 1) ∧
      (∀ k, ingame.PendingDisconnect k = true →
        kicksFor k rl.2 = 0 ∧ rl.1.LagCounter k ≤ ingame.LagCounter k ∧
        kicksFor k rd.2 = 0 ∧
        (rd.1.DesyncCounter k = ingame.DesyncCounter k ∨ rd.1.DesyncCounter k = 0) ∧
        kicksFor k rn.2 = 0 ∧ rn.1.LagCounter k = ingame.LagCounter k ∧
        rn.1.DesyncCounter k = ingame.DesyncCounter k) := by
  obtain ⟨rl, hl, _⟩ := autoLagKickRoutine_slot c x g ingame now 0 hwf
  obtain ⟨rd, hd, _⟩ := autoDesyncKickRoutine_slot c x g ingame now 0 hwf
  obtain ⟨rn, hn, _⟩ := autoLobbyNotReadyKickRoutine_slot c x g ingame now 0 hwf
  refine ⟨rl, rd, rn, hl, hd, hn, ?_, ?_⟩
  · intro j
    obtain ⟨rl', hl', a1, _⟩ := autoLagKickRoutine_slot c x g ingame now j hwf
    obtain ⟨rd', hd', b1, _⟩ := autoDesyncKickRoutine_slot c x g ingame now j hwf
    obtain ⟨rn', hn', _, _, c1, _⟩ := autoLobbyNotReadyKickRoutine_slot c x g ingame now j hwf
    rw [hl] at hl'
    rw [hd] at hd'
    rw [hn] at hn'
    cases hl'
    cases hd'
    cases hn'
    refine ⟨a1, b1, ?_⟩
    rcases c1 with h | ⟨h, _⟩ <;> omega
  · intro k hp
    obtain ⟨rl', hl', _, _, _, a⟩ := autoLagKickRoutine_slot c x g ingame now k hwf
    obtain ⟨rd', hd', _, _, _, b⟩ := autoDesyncKickRoutine_slot c x g ingame now k hwf
    obtain ⟨rn', hn', n1, n2, n3, _⟩ := autoLobbyNotReadyKickRoutine_slot c x g ingame now k hwf
    rw [hl] at hl'
    rw [hd] at hd'
    rw [hn] at hn'
    cases hl'
    cases hd'
    cases hn'
    refine ⟨(a hp).1, (a hp).2, (b hp).1, (b hp).2, ?_, by rw [n1], by rw [n2]⟩
    rcases n3 with h | ⟨_, _, _, hpf, _⟩
    · exact h
    · rw [hp] at hpf
      exact absurd hpf (by decide)

theorem pending_slot_skipped_witness :
    monitorConsts.MAX_CONNECTED_PLAYERS ≤ sampleHost.NetPlay.players.length ∧
    ∃ rl rd rn,
      autoLagKickRoutine monitorConsts sampleExternals sampleHost
        { sampleIngame with PendingDisconnect := fun _ => true } 5000000000 = some rl ∧
      autoDesyncKickRoutine monitorConsts sampleExternals sampleHost
        { sampleIngame with PendingDisconnect := fun _ => true } 5000000000 = some rd ∧
      autoLobbyNotReadyKickRoutine monitorConsts sampleExternals sampleHost
        { sampleIngame with PendingDisconnect := fun _ => true } 5000000000 = some rn ∧
      (∀ j, kicksFor j rl.2 ≤ 1 ∧ kicksFor j rd.2 ≤ 1 ∧ kicksFor j rn.2 ≤ 1) ∧
      (∀ k, ({ sampleIngame with PendingDisconnect := fun _ => true } :
            MULTIPLAYERINGAME).PendingDisconnect k = true →
        kicksFor k rl.2 = 0 ∧ rl.1.LagCounter k ≤ sampleIngame.LagCounter k ∧
        kicksFor k rd.2 = 0 ∧
        (rd.1.DesyncCounter k = sampleIngame.DesyncCounter k ∨ rd.1.DesyncCounter k = 0) ∧
        kicksFor k rn.2 = 0 ∧ rn.1.LagCounter k = sampleIngame.LagCounter k ∧
        rn.1.DesyncCounter k = sampleIngame.DesyncCounter k) :=
  ⟨by decide,
    pending_slot_skipped monitorConsts sampleExternals sampleHost
      { sampleIngame with PendingDisconnect := fun _ => true } 5000000000 (by decide)⟩

/-- C16: in a pass of each of the three monitors, a slot that is not human
(`isHumanPlayer` false) and the host's own slot are never kicked, and their
`LagCounter` and `DesyncCounter` entries are left unchanged. -/
theorem non_human_and_host_untouched (c : Consts) (x : Externals) (g : Globals)
    (ingame : MULTIPLAYERINGAME) (now : Int)
    (hwf : c.MAX_CONNECTED_PLAYERS ≤ g.NetPlay.players.length) :
    ∃ rl rd rn, autoLagKickRoutine c x g ingame now = some rl ∧
      autoDesyncKickRoutine c x g ingame now = some rd ∧
      autoLobbyNotReadyKickRoutine c x g ingame now = some rn ∧
      (∀ k : Nat, (isHumanPlayer c g.NetPlay (k : Int) = some false ∨ k = g.NetPlay.hostPlayer) →
        (kicksFor k rl.2 = 0 ∧ kicksFor k rd.2 = 0 ∧ kicksFor k rn.2 = 0) ∧
        (rl.1.LagCounter k = ingame.LagCounter k ∧
          rl.1.DesyncCounter k = ingame.DesyncCounter k) ∧
        (rd.1.LagCounter k = ingame.LagCounter k ∧
          rd.1.DesyncCounter k = ingame.DesyncCounter k) ∧
        (rn.1.LagCounter k = ingame.LagCounter k ∧
          rn.1.DesyncCounter k = ingame.DesyncCounter k)) := by
  obtain ⟨rl, hl, _⟩ := autoLagKickRoutine_slot c x g ingame now 0 hwf
  obtain ⟨rd, hd, _⟩ := autoDesyncKickRoutine_slot c x g ingame now 0 hwf
  obtain ⟨rn, hn, _⟩ := autoLobbyNotReadyKickRoutine_slot c x g ingame now 0 hwf
  refine ⟨rl, rd, rn, hl, hd, hn, ?_⟩
  intro k hk
  have hnot : ¬ slotExamined c x g k := by
    intro hex
    rcases hk with h | h
    · rw [hex.1] at h
      exact absurd h (by decide)
    · exact hex.2.1 h
  obtain ⟨rl', hl', _, a2, a3, _⟩ := autoLagKickRoutine_slot c x g ingame now k hwf
  obtain ⟨rd', hd', _, b2, b3, _⟩ := autoDesyncKickRoutine_slot c x g ingame now k hwf
  obtain ⟨rn', hn', n1, n2, n3, _⟩ := autoLobbyNotReadyKickRoutine_slot c x g ingame now k hwf
  rw [hl] at hl'
  rw [hd] at hd'
  rw [hn] at hn'
  cases hl'
  cases hd'
  cases hn'
  refine ⟨⟨(a3 hnot).1, (b3 hnot).1, ?_⟩, ⟨(a3 hnot).2, by rw [a2]⟩,
    ⟨by rw [b2], (b3 hnot).2⟩, ⟨by rw [n1], by rw [n2]⟩⟩
  rcases n3 with h | ⟨_, _, hex, _⟩
  · exact h
  · exact absurd hex hnot

theorem non_human_and_host_untouched_witness :
    monitorConsts.MAX_CONNECTED_PLAYERS ≤ sampleHost.NetPlay.players.length ∧
    ∃ rl rd rn,
      autoLagKickRoutine monitorConsts sampleExternals sampleHost sampleIngame 5000000000
        = some rl ∧
      autoDesyncKickRoutine monitorConsts sampleExternals sampleHost sampleIngame 5000000000
        = some rd ∧
      autoLobbyNotReadyKickRoutine monitorConsts sampleExternals sampleHost sampleIngame
        5000000000 = some rn ∧
      (∀ k : Nat, (isHumanPlayer monitorConsts sampleHost.NetPlay (k : Int) = some false
          ∨ k = sampleHost.NetPlay.hostPlayer) →
        (kicksFor k rl.2 = 0 ∧ kicksFor k rd.2 = 0 ∧ kicksFor k rn.2 = 0) ∧
        (rl.1.LagCounter k = sampleIngame.LagCounter k ∧
          rl.1.DesyncCounter k = sampleIngame.DesyncCounter k) ∧
        (rd.1.LagCounter k = sampleIngame.LagCounter k ∧
          rd.1.DesyncCounter k = sampleIngame.DesyncCounter k) ∧
        (rn.1.LagCounter k = sampleIngame.LagCounter k ∧
          rn.1.DesyncCounter k = sampleIngame.DesyncCounter k)) :=
  ⟨by decide,
    non_human_and_host_untouched monitorConsts sampleExternals sampleHost sampleIngame
      5000000000 (by decide)⟩

theorem toUInt64_le_iff (T : Int) (n : Nat) (h0 : 0 ≤ T) (h1 : T < 18446744073709551616) :
    toUInt64 T ≤ n ↔ T ≤ (n : Int) := by
  unfold toUInt64
  omega

/-- C18: in a pass of `autoLobbyNotReadyKickRoutine` that runs (multiplayer
host with comms, in the lobby, ready check allowed, threshold `T > 0`, check
interval elapsed), an examined slot (human, not the host, accepted by
`gtimeShouldWaitForPlayer`, not pending disconnect) is kicked, once, if and
only if its total not-ready seconds are at least `T`.  The total returned by
`calculateSecondsNotReadyForPlayer` is 0 for an index outside the player
array, `secondsNotReady[i]` when no timestamp is set, and `secondsNotReady[i]`
plus the whole seconds elapsed since `lastNotReadyTimes[i]` when it is set
(the timestamp not in the future, the sum within `uint64_t`). -/
theorem not_ready_kick_iff (c : Consts) (x : Externals) (g : Globals)
    (ingame : MULTIPLAYERINGAME) (now : Int) (k : Nat)
    (hwf : c.MAX_CONNECTED_PLAYERS ≤ g.NetPlay.players.length)
    (hrun : x.bMultiPlayer = true ∧ x.bComms = true ∧ g.NetPlay.isHost = true ∧
      g.localJoiningInProgress = true ∧ x.multiplayPlayersCanCheckReady = true ∧
      0 < x.war_getAutoLagKickSeconds ∧
      NOTREADY_CHECK_INTERVAL ≤ durationMilliseconds (now - ingame.lastNotReadyCheck))
    (hint : x.war_getAutoLagKickSeconds < 2147483648)
    (hk : k < c.MAX_CONNECTED_PLAYERS) (hex : slotExamined c x g k)
    (hp : ingame.PendingDisconnect k = false) :
    ∃ r, autoLobbyNotReadyKickRoutine c x g ingame now = some r ∧
      (kicksFor k r.2 = 1 ↔
        x.war_getAutoLagKickSeconds ≤ (calculateSecondsNotReadyForPlayer g ingame k now : Int)) ∧
      (kicksFor k r.2 = 0 ↔
        (calculateSecondsNotReadyForPlayer g ingame k now : Int) < x.war_getAutoLagKickSeconds) ∧
      (∀ i, g.NetPlay.players.length ≤ i →
        calculateSecondsNotReadyForPlayer g ingame i now = 0) ∧
      (∀ i, i < g.NetPlay.players.length → ingame.lastNotReadyTimes i = none →
        calculateSecondsNotReadyForPlayer g ingame i now = ingame.secondsNotReady i) ∧
      (∀ i t, i < g.NetPlay.players.length → ingame.lastNotReadyTimes i = some t → t ≤ now →
        (ingame.secondsNotReady i : Int) + (now - t) / 1000000000 < 18446744073709551616 →
        (calculateSecondsNotReadyForPlayer g ingame i now : Int)
          = (ingame.secondsNotReady i : Int) + (now - t) / 1000000000) := by
  obtain ⟨r, hr, _, _, hkick, hone⟩ := autoLobbyNotReadyKickRoutine_slot c x g ingame now k hwf
  have hiff := toUInt64_le_iff x.war_getAutoLagKickSeconds
    (calculateSecondsNotReadyForPlayer g ingame k now) (le_of_lt hrun.2.2.2.2.2.1)
    (by omega)
  refine ⟨r, hr, ?_, ?_, ?_, ?_, ?_⟩
  · constructor
    · intro h1
      rcases hkick with h | ⟨_, _, _, _, ht⟩
      · omega
      · exact hiff.1 ht
    · intro ht
      exact hone hrun hk hex hp (hiff.2 ht)
  · constructor
    · intro h0
      by_contra hge
      have := hone hrun hk hex hp (hiff.2 (by omega))
      omega
    · intro hlt
      rcases hkick with h | ⟨_, _, _, _, ht⟩
      · exact h
      · have := hiff.1 ht
        omega
  · intro i hi
    simp [calculateSecondsNotReadyForPlayer, hi]
  · intro i hi hnone
    have : ¬ g.NetPlay.players.length ≤ i := by omega
    simp [calculateSecondsNotReadyForPlayer, this, hnone]
  · intro i t hi hsome hle hsum
    have hlen : ¬ g.NetPlay.players.length ≤ i := by omega
    have hdur : durationSeconds (now - t) = (now - t) / 1000000000 := by
      unfold durationSeconds
      exact Int.tdiv_eq_ediv (by omega) (by norm_num)
    have hnn : 0 ≤ (now - t) / 1000000000 := Int.ediv_nonneg (by omega) (by norm_num)
    simp only [calculateSecondsNotReadyForPlayer, if_neg hlen, hsome, hdur]
    unfold toUInt64
    omega

theorem not_ready_kick_iff_witness :
    monitorConsts.MAX_CONNECTED_PLAYERS ≤ sampleLobby.NetPlay.players.length ∧
    (1 : Nat) < monitorConsts.MAX_CONNECTED_PLAYERS ∧
    slotExamined monitorConsts sampleExternals sampleLobby 1 ∧
    sampleLobbyIngame.PendingDisconnect 1 = false ∧
    ∃ r, autoLobbyNotReadyKickRoutine monitorConsts sampleExternals sampleLobby
        sampleLobbyIngame 5000000000 = some r ∧
      (kicksFor 1 r.2 = 1 ↔ sampleExternals.war_getAutoLagKickSeconds
        ≤ (calculateSecondsNotReadyForPlayer sampleLobby sampleLobbyIngame 1 5000000000 : Int)) :=
  ⟨by decide, by decide, by decide, rfl,
    (not_ready_kick_iff monitorConsts sampleExternals sampleLobby sampleLobbyIngame 5000000000 1
      (by decide) (by decide) (by decide) (by decide) (by decide) rfl).imp
      (fun _ h => ⟨h.1, h.2.1⟩)⟩

/-! ## Theorems: data check, phase 2, host requests -/

theorem sendsTo_append (k : Nat) (xs ys : List Event) :
    sendsTo k (xs ++ ys) = sendsTo k xs + sendsTo k ys := by
  simp [sendsTo, List.filter_append]

theorem kicksFor_dataCheck2TimeoutEvents (ingame : MULTIPLAYERINGAME) (i k : Nat) (W : Int) :
    kicksFor k (dataCheck2TimeoutEvents ingame i W) = if i = k then 1 else 0 := by
  unfold dataCheck2TimeoutEvents
  rw [kicksFor_append]
  have h1 : kicksFor k (if ingame.PendingDisconnect i = false then
      [ Event.sendInGameSystemMessage "%s (%u) has an incompatible mod, and has been kicked."
          i i,
        Event.addConsoleMessage "%s (%u) has an incompatible mod, and has been kicked." ]
    else []) = 0 := by
    split <;> rfl
  rw [h1]
  by_cases hk : i = k <;> simp [kicksFor, hk, List.filter_cons]

theorem sendsTo_dataCheck2TimeoutEvents (ingame : MULTIPLAYERINGAME) (i k : Nat) (W : Int) :
    sendsTo k (dataCheck2TimeoutEvents ingame i W) = 0 := by
  unfold dataCheck2TimeoutEvents
  rw [sendsTo_append]
  have h1 : sendsTo k (if ingame.PendingDisconnect i = false then
      [ Event.sendInGameSystemMessage "%s (%u) has an incompatible mod, and has been kicked."
          i i,
        Event.addConsoleMessage "%s (%u) has an incompatible mod, and has been kicked." ]
    else []) = 0 := by
    split <;> rfl
  rw [h1]
  rfl

theorem sendsTo_request (i k : Nat) (f : List Int) :
    sendsTo k [Event.NETsend i NET_DATA_CHECK2 f] = if i = k then 1 else 0 := by
  by_cases hk : i = k <;> simp [sendsTo, hk, List.filter_cons]

theorem kicksFor_request (i k t : Nat) (f : List Int) :
    kicksFor k [Event.NETsend i t f] = 0 := rfl

theorem timeoutKick_mem (ingame : MULTIPLAYERINGAME) (i : Nat) (W : Int) :
    dataCheck2TimeoutKick i ∈ dataCheck2TimeoutEvents ingame i W := by
  unfold dataCheck2TimeoutEvents dataCheck2TimeoutKick
  simp

/-- The three ways one iteration of the host loop of `sendDataCheck2` can end. -/
theorem sendDataCheck2Body_cases (c : Consts) (x : Externals) (g : Globals)
    (now : Int) (W : Int) (i : Nat) (st : LoopState)
    (hwf : c.MAX_CONNECTED_PLAYERS ≤ g.NetPlay.players.length)
    (hi : i < min x.maxPlayers c.MAX_PLAYERS) :
    (¬ dataCheck2Eligible c x g i ∧ sendDataCheck2Body c g now W i st = some st) ∨
    (dataCheck2Eligible c x g i ∧
      challengeTimedOut (st.ingame.lastSentPlayerDataCheck2 i) now W = true ∧
      sendDataCheck2Body c g now W i st
        = some { ingame := setLastSentPlayerDataCheck2 st.ingame i none,
                 events := st.events ++ dataCheck2TimeoutEvents st.ingame i W }) ∨
    (dataCheck2Eligible c x g i ∧
      challengeTimedOut (st.ingame.lastSentPlayerDataCheck2 i) now W = false ∧
      sendDataCheck2Body c g now W i st
        = some { ingame :=
                   if (st.ingame.lastSentPlayerDataCheck2 i).isSome = true then st.ingame
                   else setLastSentPlayerDataCheck2 st.ingame i (some now),
                 events := st.events ++
                   [Event.NETsend i NET_DATA_CHECK2 [(g.NetPlay.hostPlayer : Int)]] }) := by
  obtain ⟨b, hb⟩ := isHumanPlayer_slot c g.NetPlay i hwf
  unfold sendDataCheck2Body
  by_cases h1 : i = g.NetPlay.hostPlayer
  · left
    rw [if_pos h1]
    exact ⟨fun h => h.2.1 h1, rfl⟩
  · rw [if_neg h1]
    cases b with
    | false =>
      left
      rw [hb]
      refine ⟨fun h => ?_, rfl⟩
      have := h.2.2.1
      rw [hb] at this
      cases this
    | true =>
      obtain ⟨p, hp, _⟩ := human_slot_exists c g.NetPlay i hb
      simp only [hb, hp]
      by_cases h2 : p.isSpectator = true
      · left
        rw [if_pos h2]
        refine ⟨fun h => ?_, rfl⟩
        have := h.2.2.2
        rw [hp] at this
        simp [h2] at this
      · rw [if_neg h2]
        have hel : dataCheck2Eligible c x g i := ⟨hi, h1, hb, by rw [hp]; simpa using h2⟩
        right
        by_cases ht : challengeTimedOut (st.ingame.lastSentPlayerDataCheck2 i) now W = true
        · left
          refine ⟨hel, ht, ?_⟩
          unfold challengeTimedOut at ht
          rw [if_pos ht]
        · right
          refine ⟨hel, by simpa using ht, ?_⟩
          unfold challengeTimedOut at ht
          rw [if_neg ht]

/-- One iteration of the host loop of `sendDataCheck2` keeps the slot
invariant. -/
theorem sendDataCheck2Body_invariant (c : Consts) (x : Externals) (g : Globals)
    (ingame0 : MULTIPLAYERINGAME) (now : Int) (k i : Nat) (st : LoopState)
    (hwf : c.MAX_CONNECTED_PLAYERS ≤ g.NetPlay.players.length)
    (hi : i < min x.maxPlayers c.MAX_PLAYERS)
    (hinv : dataCheck2SlotInvariant c x g ingame0 now k i st) :
    ∃ st', sendDataCheck2Body c g now (maxDataCheck2WaitSeconds x) i st = some st' ∧
      dataCheck2SlotInvariant c x g ingame0 now k (i + 1) st' := by
  unfold dataCheck2SlotInvariant at hinv ⊢
  obtain ⟨hpd, hinv⟩ := hinv
  by_cases hik : i = k
  · subst hik
    have hlt : ¬ (i < i ∧ dataCheck2Eligible c x g i) := fun h => by omega
    rw [if_neg hlt] at hinv
    obtain ⟨hk0, hs0, hl0⟩ := hinv
    rcases sendDataCheck2Body_cases c x g now (maxDataCheck2WaitSeconds x) i st hwf hi with
      ⟨hne, h⟩ | ⟨hel, ht, h⟩ | ⟨hel, ht, h⟩
    · refine ⟨st, h, hpd, ?_⟩
      rw [if_neg (fun hc => hne hc.2)]
      exact ⟨hk0, hs0, hl0⟩
    · refine ⟨_, h, hpd, ?_⟩
      rw [hl0] at ht
      rw [if_pos ⟨by omega, hel⟩, if_pos ht]
      refine ⟨?_, ?_, ?_, ?_⟩
      · show kicksFor i (st.events ++ _) = 1
        rw [kicksFor_append, kicksFor_dataCheck2TimeoutEvents, if_pos rfl, hk0]
      · show _ ∈ st.events ++ _
        exact List.mem_append_right _ (timeoutKick_mem _ _ _)
      · show sendsTo i (st.events ++ _) = 0
        rw [sendsTo_append, sendsTo_dataCheck2TimeoutEvents, hs0]
      · show Function.update st.ingame.lastSentPlayerDataCheck2 i none i = none
        rw [Function.update_same]
    · rw [hl0] at ht
      have ht' : ¬ challengeTimedOut (ingame0.lastSentPlayerDataCheck2 i) now
          (maxDataCheck2WaitSeconds x) = true := by rw [ht]; decide
      by_cases hsome : (st.ingame.lastSentPlayerDataCheck2 i).isSome = true
      · rw [if_pos hsome] at h
        refine ⟨_, h, hpd, ?_⟩
        rw [if_pos ⟨by omega, hel⟩, if_neg ht']
        refine ⟨?_, ?_, ?_⟩
        · show kicksFor i (st.events ++ _) = 0
          rw [kicksFor_append, kicksFor_request, hk0]
        · show sendsTo i (st.events ++ _) = 1
          rw [sendsTo_append, sendsTo_request, if_pos rfl, hs0]
        · rw [hl0] at hsome
          rw [if_pos hsome]
          exact hl0
      · rw [if_neg hsome] at h
        refine ⟨_, h, hpd, ?_⟩
        rw [if_pos ⟨by omega, hel⟩, if_neg ht']
        refine ⟨?_, ?_, ?_⟩
        · show kicksFor i (st.events ++ _) = 0
          rw [kicksFor_append, kicksFor_request, hk0]
        · show sendsTo i (st.events ++ _) = 1
          rw [sendsTo_append, sendsTo_request, if_pos rfl, hs0]
        · rw [hl0] at hsome
          rw [if_neg hsome]
          show Function.update st.ingame.lastSentPlayerDataCheck2 i (some now) i = some now
          rw [Function.update_same]
  · have hcond : (k < i + 1 ∧ dataCheck2Eligible c x g k) ↔
        (k < i ∧ dataCheck2Eligible c x g k) := by
      constructor
      · intro h
        exact ⟨by omega, h.2⟩
      · intro h
        exact ⟨by omega, h.2⟩
    have hne : k ≠ i := fun h => hik h.symm
    simp only [hcond]
    rcases sendDataCheck2Body_cases c x g now (maxDataCheck2WaitSeconds x) i st hwf hi with
      ⟨_, h⟩ | ⟨_, _, h⟩ | ⟨_, _, h⟩
    · exact ⟨st, h, hpd, hinv⟩
    · refine ⟨_, h, hpd, ?_⟩
      have e1 : kicksFor k (st.events ++ dataCheck2TimeoutEvents st.ingame i
          (maxDataCheck2WaitSeconds x)) = kicksFor k st.events := by
        rw [kicksFor_append, kicksFor_dataCheck2TimeoutEvents, if_neg hik]
        rfl
      have e2 : sendsTo k (st.events ++ dataCheck2TimeoutEvents st.ingame i
          (maxDataCheck2WaitSeconds x)) = sendsTo k st.events := by
        rw [sendsTo_append, sendsTo_dataCheck2TimeoutEvents]
        rfl
      have e3 : (setLastSentPlayerDataCheck2 st.ingame i none).lastSentPlayerDataCheck2 k
          = st.ingame.lastSentPlayerDataCheck2 k := by
        show Function.update st.ingame.lastSentPlayerDataCheck2 i none k = _
        rw [Function.update_noteq hne]
      have e4 : dataCheck2TimeoutKick k ∈ st.events ++ dataCheck2TimeoutEvents st.ingame i
          (maxDataCheck2WaitSeconds x) ↔ dataCheck2TimeoutKick k ∈ st.events := by
        rw [List.mem_append]
        constructor
        · intro h
          rcases h with h | h
          · exact h
          · exfalso
            unfold dataCheck2TimeoutEvents dataCheck2TimeoutKick at h
            by_cases hp : st.ingame.PendingDisconnect i = false <;> simp [hp] at h <;>
              exact hik h.symm
        · intro h
          exact Or.inl h
      simp only [e1, e2, e3, e4]
      exact hinv
    · have e1 : kicksFor k (st.events ++
          [Event.NETsend i NET_DATA_CHECK2 [(g.NetPlay.hostPlayer : Int)]])
          = kicksFor k st.events := by
        rw [kicksFor_append, kicksFor_request]
        rfl
      have e2 : sendsTo k (st.events ++
          [Event.NETsend i NET_DATA_CHECK2 [(g.NetPlay.hostPlayer : Int)]])
          = sendsTo k st.events := by
        rw [sendsTo_append, sendsTo_request, if_neg hik]
        rfl
      have e4 : dataCheck2TimeoutKick k ∈ st.events ++
          [Event.NETsend i NET_DATA_CHECK2 [(g.NetPlay.hostPlayer : Int)]]
          ↔ dataCheck2TimeoutKick k ∈ st.events := by
        unfold dataCheck2TimeoutKick
        simp
      by_cases hsome : (st.ingame.lastSentPlayerDataCheck2 i).isSome = true
      · rw [if_pos hsome] at h
        refine ⟨_, h, hpd, ?_⟩
        simp only [e1, e2, e4]
        exact hinv
      · rw [if_neg hsome] at h
        refine ⟨_, h, hpd, ?_⟩
        have e3 : (setLastSentPlayerDataCheck2 st.ingame i (some now)).lastSentPlayerDataCheck2 k
            = st.ingame.lastSentPlayerDataCheck2 k := by
          show Function.update st.ingame.lastSentPlayerDataCheck2 i (some now) k = _
          rw [Function.update_noteq hne]
        simp only [e1, e2, e3, e4]
        exact hinv

/-- A host pass of `sendDataCheck2` seen from one slot `k`: the call returns
`true`; a pass inside the 10 s interval does nothing; a pass that runs kicks
an eligible slot whose challenge timed out (once, `ERROR_WRONGDATA`, no
request, timestamp cleared), sends every other eligible slot one request
(keeping an existing timestamp, else stamping `now`), and does nothing about
a slot that is not eligible. -/
theorem sendDataCheck2_slot (c : Consts) (x : Externals) (g : Globals)
    (ingame : MULTIPLAYERINGAME) (now : Int) (k : Nat)
    (hwf : c.MAX_CONNECTED_PLAYERS ≤ g.NetPlay.players.length)
    (hhost : g.NetPlay.isHost = true) :
    ∃ r, sendDataCheck2 c x g ingame now = some r ∧ r.2.2 = true ∧
      (durationMilliseconds (now - ingame.lastPlayerDataCheck2) < DATACHECK2_INTERVAL_MS →
        r.1 = ingame ∧ r.2.1 = []) ∧
      (DATACHECK2_INTERVAL_MS ≤ durationMilliseconds (now - ingame.lastPlayerDataCheck2) →
        dataCheck2SlotInvariant c x g ingame now k (min x.maxPlayers c.MAX_PLAYERS)
          { ingame := r.1, events := r.2.1 }) := by
  unfold sendDataCheck2
  rw [if_pos hhost]
  by_cases hint : durationMilliseconds (now - ingame.lastPlayerDataCheck2)
      < DATACHECK2_INTERVAL_MS
  · rw [if_pos hint]
    exact ⟨_, rfl, rfl, fun _ => ⟨rfl, rfl⟩, fun h => by omega⟩
  · rw [if_neg hint]
    have key : ∃ s', forLoop (sendDataCheck2Body c g now (maxDataCheck2WaitSeconds x)) 0
        (min x.maxPlayers c.MAX_PLAYERS) { ingame := ingame, events := [] } = some s' ∧
        dataCheck2SlotInvariant c x g ingame now k (0 + min x.maxPlayers c.MAX_PLAYERS) s' := by
      refine forLoop_indexed _ (dataCheck2SlotInvariant c x g ingame now k) _ 0 _ ?_ ?_
      · intro i t _ hi hinv
        exact sendDataCheck2Body_invariant c x g ingame now k i t hwf (by omega) hinv
      · unfold dataCheck2SlotInvariant
        refine ⟨rfl, ?_⟩
        rw [if_neg (fun h => by omega)]
        exact ⟨rfl, rfl, rfl⟩
    apply option_map_some
    obtain ⟨s', hs', hinv⟩ := key
    refine ⟨s', hs', rfl, fun h => by omega, fun _ => ?_⟩
    rw [Nat.zero_add] at hinv
    exact hinv

/-- C19, counterexample: slot 1 is eligible and has an unanswered challenge
sent 10 s ago (window 60 s); the host pass of `sendDataCheck2` sends it another
`NET_DATA_CHECK2` request and keeps the old timestamp. -/
theorem pending_challenge_resent :
    dataCheck2Eligible monitorConsts sampleExternals sampleHost 1 ∧
    sampleHost.NetPlay.isHost = true ∧
    sampleChallenged.lastSentPlayerDataCheck2 1 = some 0 ∧
    durationSeconds (10000000000 - 0) < maxDataCheck2WaitSeconds sampleExternals ∧
    (sendDataCheck2 monitorConsts sampleExternals sampleHost sampleChallenged 10000000000).map
        (fun r => r.2.1) = some [Event.NETsend 1 NET_DATA_CHECK2 [0]] ∧
    (sendDataCheck2 monitorConsts sampleExternals sampleHost sampleChallenged 10000000000).map
        (fun r => sendsTo 1 r.2.1) = some 1 ∧
    (sendDataCheck2 monitorConsts sampleExternals sampleHost sampleChallenged 10000000000).map
        (fun r => r.1.lastSentPlayerDataCheck2 1) = some (some 0) := by
  refine ⟨by decide, rfl, rfl, by decide, by decide, by decide, by decide⟩

/-- C19, amended: a host pass of `sendDataCheck2` inside the 10 s interval
sends nothing; a pass that runs sends an eligible slot exactly one
`NET_DATA_CHECK2` request when its outstanding challenge is younger than
`max(autoLagKickSeconds + 3, 60)` seconds (no kick, the original timestamp is
kept) or when it has no outstanding challenge (the timestamp becomes `now`),
and sends it no request when the challenge is at least that old (the
timestamp is cleared). -/
theorem challenge_resend_policy (c : Consts) (x : Externals) (g : Globals)
    (ingame : MULTIPLAYERINGAME) (now : Int) (k : Nat)
    (hwf : c.MAX_CONNECTED_PLAYERS ≤ g.NetPlay.players.length)
    (hhost : g.NetPlay.isHost = true)
    (hel : dataCheck2Eligible c x g k) :
    ∃ r, sendDataCheck2 c x g ingame now = some r ∧
      (durationMilliseconds (now - ingame.lastPlayerDataCheck2) < DATACHECK2_INTERVAL_MS →
        r.2.1 = [] ∧ r.1 = ingame) ∧
      (DATACHECK2_INTERVAL_MS ≤ durationMilliseconds (now - ingame.lastPlayerDataCheck2) →
        (∀ t, ingame.lastSentPlayerDataCheck2 k = some t →
          durationSeconds (now - t) < max (x.war_getAutoLagKickSeconds + 3) 60 →
          sendsTo k r.2.1 = 1 ∧ kicksFor k r.2.1 = 0 ∧
            r.1.lastSentPlayerDataCheck2 k = some t) ∧
        (ingame.lastSentPlayerDataCheck2 k = none →
          sendsTo k r.2.1 = 1 ∧ kicksFor k r.2.1 = 0 ∧
            r.1.lastSentPlayerDataCheck2 k = some now) ∧
        (∀ t, ingame.lastSentPlayerDataCheck2 k = some t →
          max (x.war_getAutoLagKickSeconds + 3) 60 ≤ durationSeconds (now - t) →
          sendsTo k r.2.1 = 0 ∧ r.1.lastSentPlayerDataCheck2 k = none)) := by
  obtain ⟨r, hr, _, hskip, hrun⟩ := sendDataCheck2_slot c x g ingame now k hwf hhost
  refine ⟨r, hr, fun h => ⟨(hskip h).2, (hskip h).1⟩, fun h => ?_⟩
  have hinv := hrun h
  unfold dataCheck2SlotInvariant at hinv
  obtain ⟨_, hinv⟩ := hinv
  rw [if_pos ⟨hel.1, hel⟩] at hinv
  refine ⟨?_, ?_, ?_⟩
  · intro t ht hyoung
    have hto : ¬ challengeTimedOut (ingame.lastSentPlayerDataCheck2 k) now
        (maxDataCheck2WaitSeconds x) = true := by
      rw [ht]
      unfold challengeTimedOut maxDataCheck2WaitSeconds
      simp only [decide_eq_true_eq]
      omega
    rw [if_neg hto, ht] at hinv
    exact ⟨hinv.2.1, hinv.1, hinv.2.2⟩
  · intro hnone
    have hto : ¬ challengeTimedOut (ingame.lastSentPlayerDataCheck2 k) now
        (maxDataCheck2WaitSeconds x) = true := by
      rw [hnone]
      exact Bool.false_ne_true
    rw [if_neg hto, hnone] at hinv
    exact ⟨hinv.2.1, hinv.1, hinv.2.2⟩
  · intro t ht hold
    have hto : challengeTimedOut (ingame.lastSentPlayerDataCheck2 k) now
        (maxDataCheck2WaitSeconds x) = true := by
      rw [ht]
      unfold challengeTimedOut maxDataCheck2WaitSeconds
      simp only [decide_eq_true_eq]
      exact hold
    rw [if_pos hto] at hinv
    exact ⟨hinv.2.2.1, hinv.2.2.2⟩

theorem challenge_resend_policy_witness :
    monitorConsts.MAX_CONNECTED_PLAYERS ≤ sampleHost.NetPlay.players.length ∧
    sampleHost.NetPlay.isHost = true ∧
    dataCheck2Eligible monitorConsts sampleExternals sampleHost 1 ∧
    ∃ r, sendDataCheck2 monitorConsts sampleExternals sampleHost sampleChallenged 10000000000
        = some r ∧
      (DATACHECK2_INTERVAL_MS
          ≤ durationMilliseconds (10000000000 - sampleChallenged.lastPlayerDataCheck2) →
        ∀ t, sampleChallenged.lastSentPlayerDataCheck2 1 = some t →
          durationSeconds (10000000000 - t)
            < max (sampleExternals.war_getAutoLagKickSeconds + 3) 60 →
          sendsTo 1 r.2.1 = 1 ∧ kicksFor 1 r.2.1 = 0 ∧
            r.1.lastSentPlayerDataCheck2 1 = some t) :=
  ⟨by decide, rfl, by decide,
    (challenge_resend_policy monitorConsts sampleExternals sampleHost sampleChallenged
      10000000000 1 (by decide) rfl (by decide)).imp
      (fun _ h => ⟨h.1, fun hi => (h.2.2 hi).1⟩)⟩

/-! ## Theorems: data check, phase 2, host validation -/

/-- The checksum search stops at the least index at which the two arrays
differ, inside both arrays. -/
theorem firstMismatch_spec : ∀ (a b : List Nat) (s : Nat), a.length = b.length → a ≠ b →
    ∃ i, firstMismatch a b s = some (s + i) ∧ i < a.length ∧ a[i]? ≠ b[i]? ∧
      ∀ j, j < i → a[j]? = b[j]?
  | [], [], _, _, hne => absurd rfl hne
  | [], _ :: _, _, hlen, _ => by simp at hlen
  | _ :: _, [], _, hlen, _ => by simp at hlen
  | a :: as, b :: bs, s, hlen, hne => by
    by_cases hab : a = b
    · subst hab
      have hlen' : as.length = bs.length := by simpa using hlen
      have hne' : as ≠ bs := fun h => hne (by rw [h])
      obtain ⟨i, hi, hlt, hd, hj⟩ := firstMismatch_spec as bs (s + 1) hlen' hne'
      refine ⟨i + 1, ?_, ?_, ?_, ?_⟩
      · simp only [firstMismatch, if_true]
        rw [hi]
        congr 1
        omega
      · simp only [List.length_cons]
        omega
      · simpa using hd
      · intro j hjlt
        cases j with
        | zero => simp
        | succ j' =>
          simp only [List.getElem?_cons_succ]
          exact hj j' (by omega)
    · refine ⟨0, ?_, ?_, ?_, ?_⟩
      · simp [firstMismatch, hab]
      · simp
      · simpa using hab
      · intro j hj
        omega

theorem kicksFor_of_logs (k : Nat) : ∀ (evs : List Event),
    evs.all isLogEvent = true → kicksFor k evs = 0
  | [], _ => rfl
  | e :: es, h => by
    rw [List.all_cons, Bool.and_eq_true] at h
    have ih := kicksFor_of_logs k es h.2
    cases e <;> first
      | (simp [isLogEvent] at h; done)
      | (unfold kicksFor at ih ⊢
         simpa [List.filter_cons] using ih)

theorem all_logs_ite (b : Prop) [Decidable b] (l f : String) (a : List Int) :
    (if b then [Event.log l f a] else []).all isLogEvent = true := by
  split <;> rfl

/-- The validation of a response always finishes when the two checksum arrays
have the same length; it only logs; the checksum search reports the least
differing index; and `hasWrongData` is the disjunction of the six checks. -/
theorem dataCheck2Validate_spec (x : Externals) (player : Nat) (p : PLAYER)
    (m : DataCheck2Message) (hlen : m.tempBuffer.length = x.DataHash.length) :
    ∃ idx logs, dataCheck2Validate x player p m =
        some (((!p.isSpectator && (decide (m.recvSelectedPlayer ≠ player)
              || decide (m.recvRealSelectedPlayer ≠ player)))
            || decide (1024 < m.layers.length)
            || (!p.isSpectator && (layerCount m.layers 65533).isSome && !x.debugMappingsAllowed)
            || decide (x.DataHash ≠ m.tempBuffer)
            || decide (m.aiIndex ≠ p.ai)
            || (!p.isSpectator && m.recvGM)), idx, logs) ∧
      logs.all isLogEvent = true ∧
      (1024 < m.layers.length → Event.log "LOG_INFO"
        "%s (%u) has a very high layersSize - something is probably wrong. (layersSize: %u)"
        [(player : Int), (m.layers.length : Int)] ∈ logs) ∧
      (x.DataHash = m.tempBuffer → idx = none) ∧
      (x.DataHash ≠ m.tempBuffer → idx = firstMismatch x.DataHash m.tempBuffer 0 ∧
        ∃ i, idx = some i) := by
  unfold dataCheck2Validate
  by_cases hne : x.DataHash = m.tempBuffer
  · simp only [ne_eq, hne, not_true_eq_false, if_false, decide_False, Bool.or_false]
    refine ⟨_, _, rfl, ?_, ?_, fun _ => rfl, fun h => h.elim⟩
    swap
    · intro hhigh
      simp only [List.mem_append]
      refine Or.inl (Or.inl (Or.inl (Or.inl (Or.inl (Or.inl (Or.inr ?_))))))
      simp [hhigh]
    simp only [List.all_append, Bool.and_eq_true]
    refine ⟨⟨⟨⟨⟨⟨⟨?_, ?_⟩, ?_⟩, ?_⟩, ?_⟩, ?_⟩, ?_⟩, ?_⟩
    · exact all_logs_ite _ _ _ _
    · exact all_logs_ite _ _ _ _
    · split
      · split
        · simp [isLogEvent]
        · rfl
      · rfl
    · exact all_logs_ite _ _ _ _
    · split
      · split
        · exact all_logs_ite _ _ _ _
        · rfl
      · rfl
    · rfl
    · exact all_logs_ite _ _ _ _
    · exact all_logs_ite _ _ _ _
  · obtain ⟨i, hi, _⟩ := firstMismatch_spec x.DataHash m.tempBuffer 0 hlen.symm hne
    rw [Nat.zero_add] at hi
    simp only [ne_eq, hne, not_false_eq_true, if_true, hi, decide_True, Bool.or_true,
      Bool.true_or]
    refine ⟨_, _, rfl, ?_, ?_, fun h => h.elim, fun _ => ⟨rfl, i, rfl⟩⟩
    swap
    · intro hhigh
      simp only [List.mem_append]
      refine Or.inl (Or.inl (Or.inl (Or.inl (Or.inl (Or.inl (Or.inr ?_))))))
      simp [hhigh]
    simp only [List.all_append, Bool.and_eq_true]
    refine ⟨⟨⟨⟨⟨⟨⟨?_, ?_⟩, ?_⟩, ?_⟩, ?_⟩, ?_⟩, ?_⟩, ?_⟩
    · exact all_logs_ite _ _ _ _
    · exact all_logs_ite _ _ _ _
    · split
      · split
        · simp [isLogEvent]
        · rfl
      · rfl
    · exact all_logs_ite _ _ _ _
    · split
      · split
        · exact all_logs_ite _ _ _ _
        · rfl
      · rfl
    · rfl
    · exact all_logs_ite _ _ _ _
    · exact all_logs_ite _ _ _ _

theorem isHumanPlayer_of_slot (c : Consts) (np : NETPLAY) (i : Nat) (p : PLAYER)
    (hidx : i < c.MAX_CONNECTED_PLAYERS) (hp : np.players[i]? = some p)
    (halloc : p.allocated = true) : isHumanPlayer c np (i : Int) = some true :=
  (isHumanPlayer_true_iff c np (i : Int)).2
    ⟨by omega, by exact_mod_cast hidx, p, by simpa using hp, halloc⟩

/-- On the host, a response from a connected human slot that is not being
kicked, naming an existing slot, reaches the validation; the outstanding
challenge is cleared and the call ends by the final `if (hasWrongData)`. -/
theorem recvDataCheck2_host (c : Consts) (x : Externals) (g : Globals)
    (ingame : MULTIPLAYERINGAME) (now : Int) (queue : NETQUEUE) (m : DataCheck2Message)
    (p : PLAYER) (w : Bool) (idx : Option Nat) (logs : List Event)
    (hhost : g.NetPlay.isHost = true)
    (hidx : queue.index < c.MAX_CONNECTED_PLAYERS)
    (hp : g.NetPlay.players[queue.index]? = some p)
    (halloc : p.allocated = true) (hkick : p.kick = false)
    (hreal : m.recvRealSelectedPlayer < g.NetPlay.players.length)
    (hval : dataCheck2Validate x queue.index p m = some (w, idx, logs)) :
    recvDataCheck2 c x g ingame now queue m =
      some (if w = true then
          ⟨false, true, idx, setLastSentPlayerDataCheck2 ingame queue.index none,
            [Event.log "LOG_NET" "** Received NET_DATA_CHECK2 from player %u"
              [(queue.index : Int)]] ++ logs ++ wrongDataKickEvents queue.index⟩
        else
          ⟨true, false, idx, setLastSentPlayerDataCheck2 ingame queue.index none,
            [Event.log "LOG_NET" "** Received NET_DATA_CHECK2 from player %u"
              [(queue.index : Int)]] ++ logs⟩) := by
  have hhum := isHumanPlayer_of_slot c g.NetPlay queue.index p hidx hp halloc
  have hresp : whosResponsible c g (queue.index : Int) = some (queue.index : Int) := by
    unfold whosResponsible
    rw [hhum]
  have h1 : ¬ g.NetPlay.isHost = false := by rw [hhost]; decide
  have h2 : ¬ c.MAX_CONNECTED_PLAYERS ≤ queue.index := by omega
  have h3 : ¬ g.NetPlay.players.length ≤ m.recvRealSelectedPlayer := by omega
  have h4 : ¬ p.kick = true := by rw [hkick]; decide
  unfold recvDataCheck2
  simp only [if_neg h1, if_neg h2, hresp, ne_eq, not_true_eq_false, if_false, if_neg h3, hhum,
    hp, if_neg h4, hval]
  cases w <;> rfl

theorem kicksFor_wrongDataKickEvents (k : Nat) : kicksFor k (wrongDataKickEvents k) = 1 := by
  simp [kicksFor, wrongDataKickEvents, List.filter_cons]

theorem wrongData_result_kick (k : Nat) (logs : List Event)
    (hlogs : logs.all isLogEvent = true) :
    kicksFor k ([Event.log "LOG_NET" "** Received NET_DATA_CHECK2 from player %u" [(k : Int)]]
      ++ logs ++ wrongDataKickEvents k) = 1 ∧
    Event.kickPlayer k "Your data doesn't match the host's!"
      LOBBY_ERROR_TYPES.ERROR_WRONGDATA false
      ∈ [Event.log "LOG_NET" "** Received NET_DATA_CHECK2 from player %u" [(k : Int)]]
        ++ logs ++ wrongDataKickEvents k := by
  constructor
  · rw [kicksFor_append, kicksFor_append, kicksFor_of_logs k logs hlogs,
      kicksFor_wrongDataKickEvents]
    rfl
  · apply List.mem_append_right
    simp [wrongDataKickEvents]

theorem rightData_result_kick (j k : Nat) (logs : List Event)
    (hlogs : logs.all isLogEvent = true) :
    kicksFor j ([Event.log "LOG_NET" "** Received NET_DATA_CHECK2 from player %u" [(k : Int)]]
      ++ logs) = 0 := by
  rw [kicksFor_append, kicksFor_of_logs j logs hlogs]
  rfl

/-- C20: on the host, for a response that reaches the validation (sender a
connected human slot not being kicked, named slot inside the player array,
checksum vector of the same length as `DataHash`): when the vector differs
from `DataHash` the search stops at the least differing index, inside both
arrays, that index is reported, `hasWrongData` is set, the call returns false
and the slot is kicked once with `ERROR_WRONGDATA`; when the vectors are
equal no index is reported and `hasWrongData` is the disjunction of the other
five checks only. -/
theorem checksum_mismatch_reported (c : Consts) (x : Externals) (g : Globals)
    (ingame : MULTIPLAYERINGAME) (now : Int) (queue : NETQUEUE) (m : DataCheck2Message)
    (p : PLAYER)
    (hhost : g.NetPlay.isHost = true)
    (hidx : queue.index < c.MAX_CONNECTED_PLAYERS)
    (hp : g.NetPlay.players[queue.index]? = some p)
    (halloc : p.allocated = true) (hkick : p.kick = false)
    (hreal : m.recvRealSelectedPlayer < g.NetPlay.players.length)
    (hlen : m.tempBuffer.length = x.DataHash.length) :
    ∃ r, recvDataCheck2 c x g ingame now queue m = some r ∧
      (x.DataHash ≠ m.tempBuffer →
        ∃ i, r.mismatchIndex = some i ∧ i < x.DataHash.length ∧ i < m.tempBuffer.length ∧
          x.DataHash[i]? ≠ m.tempBuffer[i]? ∧
          (∀ j, j < i → x.DataHash[j]? = m.tempBuffer[j]?) ∧
          r.hasWrongData = true ∧ r.returned = false ∧
          kicksFor queue.index r.events = 1 ∧
          Event.kickPlayer queue.index "Your data doesn't match the host's!"
            LOBBY_ERROR_TYPES.ERROR_WRONGDATA false ∈ r.events) ∧
      (x.DataHash = m.tempBuffer →
        r.mismatchIndex = none ∧
        r.hasWrongData =
          ((!p.isSpectator && (decide (m.recvSelectedPlayer ≠ queue.index)
              || decide (m.recvRealSelectedPlayer ≠ queue.index)))
            || decide (1024 < m.layers.length)
            || (!p.isSpectator && (layerCount m.layers 65533).isSome
                && !x.debugMappingsAllowed)
            || decide (m.aiIndex ≠ p.ai)
            || (!p.isSpectator && m.recvGM))) := by
  obtain ⟨idx, logs, hval, hlogs, _, heq, hne⟩ := dataCheck2Validate_spec x queue.index p m hlen
  have hr := recvDataCheck2_host c x g ingame now queue m p _ idx logs hhost hidx hp halloc
    hkick hreal hval
  refine ⟨_, hr, ?_, ?_⟩
  · intro hd
    obtain ⟨hfm, _⟩ := hne hd
    obtain ⟨i, hi, hlt, hdiff, hleast⟩ :=
      firstMismatch_spec x.DataHash m.tempBuffer 0 hlen.symm hd
    rw [Nat.zero_add] at hi
    have hw : decide (x.DataHash ≠ m.tempBuffer) = true := by simpa using hd
    simp only [hw, Bool.or_true, Bool.true_or, if_true]
    refine ⟨i, by rw [hfm, hi], hlt, by omega, hdiff, hleast, trivial, trivial, ?_⟩
    exact wrongData_result_kick queue.index logs hlogs
  · intro he
    have hw : decide (x.DataHash ≠ m.tempBuffer) = false := by simpa using he
    simp only [hw, Bool.or_false]
    split
    · rename_i hv
      exact ⟨heq he, hv.symm⟩
    · rename_i hv
      refine ⟨heq he, ?_⟩
      simp only [Bool.not_eq_true] at hv
      exact hv.symm

theorem checksum_mismatch_reported_witness :
    sampleHost.NetPlay.isHost = true ∧
    (1 : Nat) < monitorConsts.MAX_CONNECTED_PLAYERS ∧
    sampleHost.NetPlay.players[1]? = some (samplePlayer true false false) ∧
    sampleBadChecksum.recvRealSelectedPlayer < sampleHost.NetPlay.players.length ∧
    sampleBadChecksum.tempBuffer.length = sampleExternals.DataHash.length ∧
    sampleExternals.DataHash ≠ sampleBadChecksum.tempBuffer ∧
    ∃ r, recvDataCheck2 monitorConsts sampleExternals sampleHost sampleIngame 0
        { index := 1, queueType := 0 } sampleBadChecksum = some r ∧
      (sampleExternals.DataHash ≠ sampleBadChecksum.tempBuffer →
        ∃ i, r.mismatchIndex = some i ∧ i < sampleExternals.DataHash.length ∧
          i < sampleBadChecksum.tempBuffer.length ∧
          sampleExternals.DataHash[i]? ≠ sampleBadChecksum.tempBuffer[i]? ∧
          (∀ j, j < i → sampleExternals.DataHash[j]? = sampleBadChecksum.tempBuffer[j]?) ∧
          r.hasWrongData = true ∧ r.returned = false ∧
          kicksFor 1 r.events = 1 ∧
          Event.kickPlayer 1 "Your data doesn't match the host's!"
            LOBBY_ERROR_TYPES.ERROR_WRONGDATA false ∈ r.events) :=
  ⟨rfl, by decide, rfl, by decide, rfl, by decide,
    (checksum_mismatch_reported monitorConsts sampleExternals sampleHost sampleIngame 0
      { index := 1, queueType := 0 } sampleBadChecksum (samplePlayer true false false)
      rfl (by decide) rfl rfl rfl (by decide) rfl).imp (fun _ h => ⟨h.1, h.2.1⟩)⟩

/-! ## Theorems: the lag monitor at one slot -/

theorem forLoop_split {σ : Type} (body : Nat → σ → Option σ) :
    ∀ (a b s : Nat) (st : σ),
      forLoop body s (a + b) st = (forLoop body s a st).bind (forLoop body (s + a) b)
  | 0, b, s, st => by simp [forLoop]
  | a + 1, b, s, st => by
    have h : a + 1 + b = (a + b) + 1 := by omega
    rw [h]
    simp only [forLoop]
    cases hb : body s st with
    | none => rfl
    | some t =>
      simp only []
      rw [forLoop_split body a b (s + 1) t]
      have h2 : s + 1 + a = s + (a + 1) := by omega
      rw [h2]

theorem eventsAbout_append (k : Nat) (xs ys : List Event) :
    eventsAbout k (xs ++ ys) = eventsAbout k xs ++ eventsAbout k ys := by
  simp [eventsAbout, List.filter_append]

theorem kicksFor_eventsAbout (k : Nat) (evs : List Event) :
    kicksFor k (eventsAbout k evs) = kicksFor k evs := by
  unfold kicksFor eventsAbout
  rw [List.filter_filter]
  congr 1
  apply List.filter_congr
  intro e _
  cases e <;> simp [eventPlayer]

theorem eventsAbout_lagKickEvents (x : Externals) (i k : Nat) (L : Int) :
    eventsAbout k (lagKickEvents x i L) = if i = k then lagKickEvents x i L else [] := by
  unfold lagKickEvents
  by_cases h : x.wz_command_interface_enabled = true <;> by_cases hk : i = k <;>
    simp [eventsAbout, eventPlayer, h, hk, List.filter_cons]

theorem eventsAbout_lagWarnEvents (i k : Nat) (r : Int) :
    eventsAbout k (lagWarnEvents i r) = if i = k then lagWarnEvents i r else [] := by
  unfold lagWarnEvents
  by_cases hk : i = k <;> simp [eventsAbout, eventPlayer, hk, List.filter_cons]

theorem eventsAbout_lagCounterStep (x : Externals) (i k : Nat) (ingame : MULTIPLAYERINGAME)
    (l : LagSlotLocals) :
    eventsAbout k (lagCounterStep x i ingame l).2
      = if i = k then (lagCounterStep x i ingame l).2 else [] := by
  rcases lagCounterStep_cases x i ingame l with
    ⟨_, _, h⟩ | ⟨_, _, h⟩ | ⟨_, _, h⟩ | ⟨_, _, _, h⟩ | ⟨_, _, _, E, hE, _, h⟩ <;> rw [h]
  · split <;> rfl
  · split <;> rfl
  · split <;> rfl
  · exact eventsAbout_lagKickEvents x i k _
  · rcases hE with rfl | rfl
    · split <;> rfl
    · exact eventsAbout_lagWarnEvents i k _

/-- One iteration of the lag loop: it is defined, writes none of the fields
the loop only reads, leaves another slot's counter and calls alone, and keeps
the threshold or caps it at 10. -/
theorem lag_body_frame (c : Consts) (x : Externals) (g : Globals) (now : Int)
    (isInitialLoad : Bool) (i k : Nat) (st : LagLoopState)
    (hwf : c.MAX_CONNECTED_PLAYERS ≤ g.NetPlay.players.length) :
    ∃ st', autoLagKickBody c x g now isInitialLoad i st = some st' ∧
      st'.ingame.JoiningInProgress = st.ingame.JoiningInProgress ∧
      st'.ingame.PendingDisconnect = st.ingame.PendingDisconnect ∧
      st'.ingame.PingTimes = st.ingame.PingTimes ∧
      st'.ingame.startTime = st.ingame.startTime ∧
      (st'.LagAutoKickSeconds = st.LagAutoKickSeconds ∨
        st'.LagAutoKickSeconds = min 10 st.LagAutoKickSeconds) ∧
      (i ≠ k → st'.ingame.LagCounter k = st.ingame.LagCounter k ∧
        eventsAbout k st'.events = eventsAbout k st.events) := by
  rcases autoLagKickBody_cases c x g now isInitialLoad i st hwf with ⟨_, h⟩ | ⟨_, h⟩
  · exact ⟨st, h, rfl, rfl, rfl, rfl, Or.inl rfl, fun _ => ⟨rfl, rfl⟩⟩
  · refine ⟨_, h, ?_⟩
    obtain ⟨fJ, fP, fPing, fS, _, fC⟩ := lagCounterStep_frame x i st.ingame
      (lagSlotLocals c x g now isInitialLoad i st)
    refine ⟨fJ, fP, fPing, fS, lagSlotLocals_seconds c x g now isInitialLoad i st, ?_⟩
    intro hik
    refine ⟨fC k (fun h => hik h.symm), ?_⟩
    show eventsAbout k (st.events ++ _) = _
    rw [eventsAbout_append, eventsAbout_lagCounterStep, if_neg hik, List.append_nil]

theorem lag_prefix_step (c : Consts) (x : Externals) (g : Globals)
    (ingame : MULTIPLAYERINGAME) (now : Int) (isInitialLoad : Bool) (k i : Nat)
    (st : LagLoopState)
    (hwf : c.MAX_CONNECTED_PLAYERS ≤ g.NetPlay.players.length) (hik : i < k)
    (hP : lagPrefixInvariant x ingame k i st) :
    ∃ st', autoLagKickBody c x g now isInitialLoad i st = some st' ∧
      lagPrefixInvariant x ingame k (i + 1) st' := by
  obtain ⟨st', h, fJ, fP, fPing, fS, fT, fK⟩ :=
    lag_body_frame c x g now isInitialLoad i k st hwf
  obtain ⟨hJ, hPd, hPing, hS, hT, hK⟩ := hP
  refine ⟨st', h, by rw [fJ, hJ], by rw [fP, hPd], by rw [fPing, hPing], by rw [fS, hS], ?_, ?_⟩
  · rcases fT with e | e <;> rcases hT with e' | e' <;> rw [e, e']
    · exact Or.inl rfl
    · exact Or.inr rfl
    · exact Or.inr rfl
    · right
      simp
  · intro _
    obtain ⟨a, b⟩ := fK (by omega)
    obtain ⟨a', b'⟩ := hK (by omega)
    exact ⟨by rw [a, a'], by rw [b, b']⟩

theorem lag_suffix_step (c : Consts) (x : Externals) (g : Globals)
    (now : Int) (isInitialLoad : Bool) (k : Nat) (v : Int) (E : List Event) (i : Nat)
    (st : LagLoopState)
    (hwf : c.MAX_CONNECTED_PLAYERS ≤ g.NetPlay.players.length)
    (hP : lagSuffixInvariant k v E i st) :
    ∃ st', autoLagKickBody c x g now isInitialLoad i st = some st' ∧
      lagSuffixInvariant k v E (i + 1) st' := by
  obtain ⟨st', h, _, _, _, _, _, fK⟩ := lag_body_frame c x g now isInitialLoad i k st hwf
  obtain ⟨hki, hv, hE⟩ := hP
  obtain ⟨a, b⟩ := fK (by omega)
  exact ⟨st', h, by omega, by rw [a, hv], by rw [b, hE]⟩

/-- A pass of the lag monitor that runs, seen from an examined slot `k` below
the check limit: the loop reaches `k` in a state `st` in which slot `k` is
still untouched, and what the pass finally did to slot `k` (its counter, the
calls about it) is what the second part of the body did at iteration `k`. -/
theorem autoLagKickRoutine_at (c : Consts) (x : Externals) (g : Globals)
    (ingame : MULTIPLAYERINGAME) (now : Int) (k : Nat)
    (hwf : c.MAX_CONNECTED_PLAYERS ≤ g.NetPlay.players.length)
    (hrun : lagPassRuns x g ingame now)
    (hk : k < lagPlayerCheckLimit c g ingame)
    (hex : slotExamined c x g k) :
    ∃ st r, lagStateAt c x g ingame now k = some st ∧
      autoLagKickRoutine c x g ingame now = some r ∧
      lagPrefixInvariant x ingame k k st ∧
      r.1.LagCounter k = (lagCounterStep x k st.ingame
        (lagSlotLocals c x g now (lagIsInitialLoad g ingame) k st)).1.LagCounter k ∧
      eventsAbout k r.2 = (lagCounterStep x k st.ingame
        (lagSlotLocals c x g now (lagIsInitialLoad g ingame) k st)).2 := by
  obtain ⟨h1, h2, h3, h4, h5⟩ := hrun
  -- the iterations before `k`
  obtain ⟨st, hst, hinv⟩ : ∃ st, forLoop (autoLagKickBody c x g now (lagIsInitialLoad g ingame))
      0 k (lagLoopInit x ingame now) = some st ∧ lagPrefixInvariant x ingame k (0 + k) st := by
    refine forLoop_indexed _ (lagPrefixInvariant x ingame k) k 0 _ ?_ ?_
    · intro i t _ hi hP
      exact lag_prefix_step c x g ingame now _ k i t hwf (by omega) hP
    · exact ⟨rfl, rfl, rfl, rfl, Or.inl rfl, fun _ => ⟨rfl, rfl⟩⟩
  rw [Nat.zero_add] at hinv
  -- iteration `k`
  have hbody : autoLagKickBody c x g now (lagIsInitialLoad g ingame) k st = some
      { ingame := (lagCounterStep x k st.ingame
          (lagSlotLocals c x g now (lagIsInitialLoad g ingame) k st)).1,
        LagAutoKickSeconds :=
          (lagSlotLocals c x g now (lagIsInitialLoad g ingame) k st).LagAutoKickSeconds,
        numPlayersLoaded :=
          (lagSlotLocals c x g now (lagIsInitialLoad g ingame) k st).numPlayersLoaded,
        totalNumPlayers :=
          (lagSlotLocals c x g now (lagIsInitialLoad g ingame) k st).totalNumPlayers,
        events := st.events ++ (lagCounterStep x k st.ingame
          (lagSlotLocals c x g now (lagIsInitialLoad g ingame) k st)).2 } := by
    rcases autoLagKickBody_cases c x g now (lagIsInitialLoad g ingame) k st hwf with
      ⟨hn, _⟩ | ⟨_, h⟩
    · exact absurd hex hn
    · exact h
  -- the iterations after `k`
  obtain ⟨m, hm⟩ : ∃ m, lagPlayerCheckLimit c g ingame = k + (1 + m) :=
    ⟨lagPlayerCheckLimit c g ingame - k - 1, by omega⟩
  obtain ⟨fin, hfin, hsuf⟩ : ∃ fin, forLoop (autoLagKickBody c x g now (lagIsInitialLoad g ingame))
      (k + 1) m
      { ingame := (lagCounterStep x k st.ingame
          (lagSlotLocals c x g now (lagIsInitialLoad g ingame) k st)).1,
        LagAutoKickSeconds :=
          (lagSlotLocals c x g now (lagIsInitialLoad g ingame) k st).LagAutoKickSeconds,
        numPlayersLoaded :=
          (lagSlotLocals c x g now (lagIsInitialLoad g ingame) k st).numPlayersLoaded,
        totalNumPlayers :=
          (lagSlotLocals c x g now (lagIsInitialLoad g ingame) k st).totalNumPlayers,
        events := st.events ++ (lagCounterStep x k st.ingame
          (lagSlotLocals c x g now (lagIsInitialLoad g ingame) k st)).2 } = some fin ∧
      lagSuffixInvariant k
        ((lagCounterStep x k st.ingame
          (lagSlotLocals c x g now (lagIsInitialLoad g ingame) k st)).1.LagCounter k)
        ((lagCounterStep x k st.ingame
          (lagSlotLocals c x g now (lagIsInitialLoad g ingame) k st)).2) (k + 1 + m) fin := by
    refine forLoop_indexed _ (lagSuffixInvariant k _ _) m (k + 1) _ ?_ ?_
    · intro i t _ _ hP
      exact lag_suffix_step c x g now _ k _ _ i t hwf hP
    · refine ⟨by omega, rfl, ?_⟩
      show eventsAbout k (st.events ++ _) = _
      rw [eventsAbout_append, (hinv.2.2.2.2.2 (le_refl k)).2, eventsAbout_lagCounterStep,
        if_pos rfl, List.nil_append]
  have hloop : forLoop (autoLagKickBody c x g now (lagIsInitialLoad g ingame)) 0
      (lagPlayerCheckLimit c g ingame) (lagLoopInit x ingame now) = some fin := by
    rw [hm, forLoop_split, hst]
    show forLoop _ (0 + k) (1 + m) st = some fin
    rw [forLoop_split, Nat.zero_add]
    simp only [forLoop, hbody, Option.some_bind]
    exact hfin
  refine ⟨st, (fin.ingame, fin.events), hst, ?_, hinv, hsuf.2.1, hsuf.2.2⟩
  unfold autoLagKickRoutine
  have c1 : ¬ (x.bMultiPlayer = false ∨ x.bComms = false ∨ g.NetPlay.isHost = false) := by
    rw [h1, h2, h3]
    decide
  have c2 : ¬ x.war_getAutoLagKickSeconds ≤ 0 := by omega
  have c3 : ¬ durationMilliseconds (now - ingame.lastLagCheck) < LAG_CHECK_INTERVAL := by omega
  rw [if_neg c1, if_neg c2, if_neg c3]
  unfold lagPlayerCheckLimit lagIsInitialLoad lagLoopInit at hloop
  simp only []
  rw [hloop]
  rfl

/-- When the first part of the lag loop body declares a slot lagging or
waiting: outside the initial load of a joining slot it is the ping test alone;
for a joining slot in the initial load, 60 seconds after `startTime` the slot
is waiting whatever the grace period is. -/
theorem lagSlotLocals_flags (c : Consts) (x : Externals) (g : Globals) (now : Int)
    (isInitialLoad : Bool) (i : Nat) (st : LagLoopState) :
    ((isInitialLoad && st.ingame.JoiningInProgress i) = false →
      (lagSlotLocals c x g now isInitialLoad i st).isLagging
        = decide (x.PING_LIMIT ≤ st.ingame.PingTimes i) ∧
      (lagSlotLocals c x g now isInitialLoad i st).isWaitingForInitialLoad = false) ∧
    ((isInitialLoad && st.ingame.JoiningInProgress i) = true →
      60 ≤ durationSeconds (now - st.ingame.startTime) →
      (lagSlotLocals c x g now isInitialLoad i st).isWaitingForInitialLoad = true) := by
  unfold lagSlotLocals
  constructor
  · intro h
    simp only [h, Bool.false_and, Bool.false_eq_true, if_false]
    exact ⟨trivial, trivial⟩
  · intro h hw
    simp only [h, Bool.true_and]
    split_ifs <;> first
      | rfl
      | (exfalso
         simp_all [LAG_INITIAL_LOAD_GRACEPERIOD] <;> omega)

/-! ## Theorems: lag counter increment, kick and decay -/

/-- C25: in a pass of `autoLagKickRoutine` that runs, for an examined slot `k`
below the check limit that the pass finds not lagging (neither `isLagging`
nor `isWaitingForInitialLoad` after the grace test), the counter is
decremented by one when it is positive and otherwise left alone, so a
non-negative counter becomes `max(counter - 1, 0)`; the slot is not kicked and
no call is made about it.  A slot with ping below `PING_LIMIT` that is not a
joining slot of the initial load is not lagging. -/
theorem lag_counter_decay (c : Consts) (x : Externals) (g : Globals)
    (ingame : MULTIPLAYERINGAME) (now : Int) (k : Nat)
    (hwf : c.MAX_CONNECTED_PLAYERS ≤ g.NetPlay.players.length)
    (hrun : lagPassRuns x g ingame now)
    (hk : k < lagPlayerCheckLimit c g ingame)
    (hex : slotExamined c x g k) :
    ∃ st r l, lagStateAt c x g ingame now k = some st ∧
      autoLagKickRoutine c x g ingame now = some r ∧
      l = lagSlotLocals c x g now (lagIsInitialLoad g ingame) k st ∧
      ((l.isLagging = false ∧ l.isWaitingForInitialLoad = false) →
        r.1.LagCounter k
          = (if 0 < ingame.LagCounter k then ingame.LagCounter k - 1 else ingame.LagCounter k) ∧
        (0 ≤ ingame.LagCounter k → r.1.LagCounter k = max (ingame.LagCounter k - 1) 0) ∧
        kicksFor k r.2 = 0 ∧ eventsAbout k r.2 = []) ∧
      ((lagIsInitialLoad g ingame && ingame.JoiningInProgress k) = false →
        ingame.PingTimes k < x.PING_LIMIT →
        l.isLagging = false ∧ l.isWaitingForInitialLoad = false) := by
  obtain ⟨st, r, hst, hr, hinv, hcnt, hev⟩ := autoLagKickRoutine_at c x g ingame now k hwf hrun hk hex
  obtain ⟨hJ, hPd, hPing, hS, hT, hK⟩ := hinv
  obtain ⟨hC, _⟩ := hK (le_refl k)
  obtain ⟨hf1, _⟩ := lagSlotLocals_flags c x g now (lagIsInitialLoad g ingame) k st
  rw [hJ, hPing] at hf1
  refine ⟨st, r, _, hst, hr, rfl, ?_, ?_⟩
  · intro hidle
    have hval : r.1.LagCounter k
        = (if 0 < ingame.LagCounter k then ingame.LagCounter k - 1 else ingame.LagCounter k) ∧
        eventsAbout k r.2 = [] := by
      rcases lagCounterStep_cases x k st.ingame
          (lagSlotLocals c x g now (lagIsInitialLoad g ingame) k st) with
        ⟨_, hle, h⟩ | ⟨_, hlt, h⟩ | ⟨hn, _⟩ | ⟨hn, _⟩ | ⟨hn, _⟩
      · rw [hC] at hle
        rw [h] at hcnt hev
        exact ⟨by rw [hcnt, hC, if_neg (by omega)], hev⟩
      · rw [hC] at hlt
        rw [h] at hcnt hev
        exact ⟨by rw [hcnt, setLagCounter_apply, if_pos rfl, hC, if_pos hlt], hev⟩
      · exact absurd hidle hn
      · exact absurd hidle hn
      · exact absurd hidle hn
    refine ⟨hval.1, ?_, ?_, hval.2⟩
    · intro h0
      rw [hval.1]
      split_ifs <;> omega
    · rw [← kicksFor_eventsAbout, hval.2]
      rfl
  · intro hnj hping
    rw [(hf1 hnj).1]
    exact ⟨by simpa using hping, (hf1 hnj).2⟩

theorem lag_counter_decay_witness :
    monitorConsts.MAX_CONNECTED_PLAYERS ≤ sampleHost.NetPlay.players.length ∧
    lagPassRuns sampleExternals sampleHost
      { sampleIngame with LagCounter := fun _ => 1 } 5000000000 ∧
    1 < lagPlayerCheckLimit monitorConsts sampleHost
      { sampleIngame with LagCounter := fun _ => 1 } ∧
    slotExamined monitorConsts sampleExternals sampleHost 1 ∧
    ∃ st r l, lagStateAt monitorConsts sampleExternals sampleHost
        { sampleIngame with LagCounter := fun _ => 1 } 5000000000 1 = some st ∧
      autoLagKickRoutine monitorConsts sampleExternals sampleHost
        { sampleIngame with LagCounter := fun _ => 1 } 5000000000 = some r ∧
      l = lagSlotLocals monitorConsts sampleExternals sampleHost 5000000000
        (lagIsInitialLoad sampleHost { sampleIngame with LagCounter := fun _ => 1 }) 1 st :=
  ⟨by decide, by decide, by decide, by decide,
    (lag_counter_decay monitorConsts sampleExternals sampleHost
      { sampleIngame with LagCounter := fun _ => 1 } 5000000000 1
      (by decide) (by decide) (by decide) (by decide)).imp
      (fun _ h => h.imp (fun _ h => h.imp (fun _ h => ⟨h.1, h.2.1, h.2.2.1⟩)))⟩

/-! ## Theorems: the spectator shortcut of the lag monitor -/

/-- The threshold and the waiting flag computed by the first part of the lag
loop body, in terms of the spectator shortcut test. -/
theorem lagSlotLocals_shortcut (c : Consts) (x : Externals) (g : Globals) (now : Int)
    (isInitialLoad : Bool) (i : Nat) (st : LagLoopState) :
    (lagSlotLocals c x g now isInitialLoad i st).LagAutoKickSeconds =
      (if ((isInitialLoad && st.ingame.JoiningInProgress i) && decide (c.MAX_PLAYERS < i)
          && decide (0 < (lagSlotLocals c x g now isInitialLoad i st).totalNumPlayers)
          && decide ((lagSlotLocals c x g now isInitialLoad i st).numPlayersLoaded
              = (lagSlotLocals c x g now isInitialLoad i st).totalNumPlayers)
          && decide (i ≠ g.NetPlay.hostPlayer)) = true
        then min 10 st.LagAutoKickSeconds else st.LagAutoKickSeconds) ∧
    ((isInitialLoad && st.ingame.JoiningInProgress i) = true →
      (lagSlotLocals c x g now isInitialLoad i st).isWaitingForInitialLoad =
        decide ((if ((isInitialLoad && st.ingame.JoiningInProgress i) && decide (c.MAX_PLAYERS < i)
            && decide (0 < (lagSlotLocals c x g now isInitialLoad i st).totalNumPlayers)
            && decide ((lagSlotLocals c x g now isInitialLoad i st).numPlayersLoaded
                = (lagSlotLocals c x g now isInitialLoad i st).totalNumPlayers)
            && decide (i ≠ g.NetPlay.hostPlayer)) = true
          then (0 : Int) else 60) ≤ durationSeconds (now - st.ingame.startTime))) := by
  refine ⟨rfl, ?_⟩
  intro hw
  unfold lagSlotLocals
  simp only [hw, Bool.true_and, LAG_INITIAL_LOAD_GRACEPERIOD]
  split_ifs <;> simp_all

theorem countedSlot_examined (c : Consts) (x : Externals) (g : Globals) (j : Nat)
    (h : countedSlot c g j) : slotExamined c x g j :=
  ⟨h.2.1, h.2.2, fun hc => by have := h.1; omega⟩

theorem lag_count_step (c : Consts) (x : Externals) (g : Globals)
    (ingame : MULTIPLAYERINGAME) (now : Int) (isInitialLoad : Bool) (i : Nat)
    (st : LagLoopState)
    (hwf : c.MAX_CONNECTED_PLAYERS ≤ g.NetPlay.players.length)
    (hP : lagCountInvariant c x g ingame i st) :
    ∃ st', autoLagKickBody c x g now isInitialLoad i st = some st' ∧
      lagCountInvariant c x g ingame (i + 1) st' := by
  obtain ⟨hJ, hle, hEq, hLt, hPos, hThr⟩ := hP
  rcases autoLagKickBody_cases c x g now isInitialLoad i st hwf with ⟨hskip, h⟩ | ⟨hex, h⟩
  · have hni : ¬ countedSlot c g i := fun hc => hskip (countedSlot_examined c x g i hc)
    refine ⟨st, h, hJ, hle, ?_, ?_, ?_, ?_⟩
    · intro hall
      exact hEq (fun j hj hc => hall j (by omega) hc)
    · rintro ⟨j, hj, hc, hjo⟩
      by_cases hji : j = i
      · subst hji
        exact absurd hc hni
      · exact hLt ⟨j, by omega, hc, hjo⟩
    · rw [hPos]
      constructor
      · rintro ⟨j, hj, hc⟩
        exact ⟨j, by omega, hc⟩
      · rintro ⟨j, hj, hc⟩
        by_cases hji : j = i
        · subst hji
          exact absurd hc hni
        · exact ⟨j, by omega, hc⟩
    · intro hh
      apply hThr
      rcases hh with h1 | h1 | h1
      · exact Or.inl (by omega)
      · exact Or.inr (Or.inl h1)
      · exact Or.inr (Or.inr h1)
  · refine ⟨_, h, ?_⟩
    obtain ⟨hcT, hcL⟩ := lagSlotLocals_counts c x g now isInitialLoad i st
    obtain ⟨fJ, _, _, _, _, _⟩ := lagCounterStep_frame x i st.ingame
      (lagSlotLocals c x g now isInitialLoad i st)
    obtain ⟨hthr, _⟩ := lagSlotLocals_shortcut c x g now isInitialLoad i st
    have hcnt : i < c.MAX_PLAYERS → countedSlot c g i := fun hi => ⟨hi, hex.1, hex.2.1⟩
    have hle2 : (lagSlotLocals c x g now isInitialLoad i st).numPlayersLoaded
        ≤ (lagSlotLocals c x g now isInitialLoad i st).totalNumPlayers := by
      rw [hcT, hcL]
      split_ifs <;> omega
    have hEq2 : (∀ j, j < i + 1 → countedSlot c g j → ingame.JoiningInProgress j = false) →
        (lagSlotLocals c x g now isInitialLoad i st).numPlayersLoaded
          = (lagSlotLocals c x g now isInitialLoad i st).totalNumPlayers := by
      intro hall
      have e := hEq (fun j hj hc => hall j (by omega) hc)
      rw [hcT, hcL]
      by_cases hi : i < c.MAX_PLAYERS
      · have hjf : st.ingame.JoiningInProgress i = false := by
          rw [hJ]
          exact hall i (by omega) (hcnt hi)
        rw [if_pos hi, if_pos ⟨hi, hjf⟩, e]
      · rw [if_neg hi, if_neg (fun hc => hi hc.1), e]
    have hLt2 : (∃ j, j < i + 1 ∧ countedSlot c g j ∧ ingame.JoiningInProgress j = true) →
        (lagSlotLocals c x g now isInitialLoad i st).numPlayersLoaded
          < (lagSlotLocals c x g now isInitialLoad i st).totalNumPlayers := by
      rintro ⟨j, hj, hc, hjo⟩
      rw [hcT, hcL]
      by_cases hji : j = i
      · subst hji
        have hjs : st.ingame.JoiningInProgress j = true := by rw [hJ]; exact hjo
        rw [if_pos hc.1, if_neg (by rw [hjs]; simp)]
        omega
      · have := hLt ⟨j, by omega, hc, hjo⟩
        split_ifs <;> omega
    have hPos2 : 0 < (lagSlotLocals c x g now isInitialLoad i st).totalNumPlayers ↔
        ∃ j, j < i + 1 ∧ countedSlot c g j := by
      rw [hcT]
      by_cases hi : i < c.MAX_PLAYERS
      · rw [if_pos hi]
        exact ⟨fun _ => ⟨i, by omega, hcnt hi⟩, fun _ => by omega⟩
      · rw [if_neg hi, hPos]
        constructor
        · rintro ⟨j, hj, hc⟩
          exact ⟨j, by omega, hc⟩
        · rintro ⟨j, hj, hc⟩
          have : j ≠ i := fun e => hi (e ▸ hc.1)
          exact ⟨j, by omega, hc⟩
    refine ⟨?_, hle2, hEq2, hLt2, hPos2, ?_⟩
    · show (lagCounterStep x i st.ingame _).1.JoiningInProgress = ingame.JoiningInProgress
      rw [fJ, hJ]
    · intro hh
      show (lagSlotLocals c x g now isInitialLoad i st).LagAutoKickSeconds = _
      have hold : st.LagAutoKickSeconds = x.war_getAutoLagKickSeconds := by
        apply hThr
        rcases hh with h1 | h1 | h1
        · exact Or.inl (by omega)
        · exact Or.inr (Or.inl h1)
        · exact Or.inr (Or.inr h1)
      have hshort : ((isInitialLoad && st.ingame.JoiningInProgress i)
          && decide (c.MAX_PLAYERS < i)
          && decide (0 < (lagSlotLocals c x g now isInitialLoad i st).totalNumPlayers)
          && decide ((lagSlotLocals c x g now isInitialLoad i st).numPlayersLoaded
              = (lagSlotLocals c x g now isInitialLoad i st).totalNumPlayers)
          && decide (i ≠ g.NetPlay.hostPlayer)) = false := by
        by_cases hmp : c.MAX_PLAYERS < i
        · rcases hh with h1 | h1 | ⟨j, hc, hjo⟩
          · omega
          · have h0 : ¬ 0 < (lagSlotLocals c x g now isInitialLoad i st).totalNumPlayers := by
              rw [hPos2]
              rintro ⟨j, _, hc⟩
              exact h1 j hc
            simp [h0]
          · have hlt := hLt2 ⟨j, by have := hc.1; omega, hc, hjo⟩
            have hne : ¬ (lagSlotLocals c x g now isInitialLoad i st).numPlayersLoaded
                = (lagSlotLocals c x g now isInitialLoad i st).totalNumPlayers := by omega
            simp [hne]
        · simp [hmp]
      rw [hthr, hshort, hold]
      rfl

/-- The state in which the lag loop reaches index `k` satisfies the count
invariant. -/
theorem lagStateAt_counts (c : Consts) (x : Externals) (g : Globals)
    (ingame : MULTIPLAYERINGAME) (now : Int) (k : Nat)
    (hwf : c.MAX_CONNECTED_PLAYERS ≤ g.NetPlay.players.length) :
    ∃ st, lagStateAt c x g ingame now k = some st ∧ lagCountInvariant c x g ingame k st := by
  have key : ∃ st, forLoop (autoLagKickBody c x g now (lagIsInitialLoad g ingame))
      0 k (lagLoopInit x ingame now) = some st ∧ lagCountInvariant c x g ingame (0 + k) st := by
    refine forLoop_indexed _ (lagCountInvariant c x g ingame) k 0 _ ?_ ?_
    · intro i t _ _ hP
      exact lag_count_step c x g ingame now _ i t hwf hP
    · refine ⟨rfl, le_refl _, fun _ => rfl, ?_, ?_, fun _ => rfl⟩
      · rintro ⟨j, hj, _⟩
        omega
      · constructor
        · intro h
          exact absurd h (Nat.lt_irrefl 0)
        · rintro ⟨j, hj, _⟩
          omega
  rw [Nat.zero_add] at key
  exact key

theorem lagSlotLocals_shortcutTest (c : Consts) (x : Externals) (g : Globals) (now : Int)
    (isInitialLoad : Bool) (i : Nat) (st : LagLoopState) :
    (lagSlotLocals c x g now isInitialLoad i st).LagAutoKickSeconds =
      (if lagShortcutTest c x g now isInitialLoad i st = true
        then min 10 st.LagAutoKickSeconds else st.LagAutoKickSeconds) ∧
    ((isInitialLoad && st.ingame.JoiningInProgress i) = true →
      (lagSlotLocals c x g now isInitialLoad i st).isWaitingForInitialLoad =
        decide ((if lagShortcutTest c x g now isInitialLoad i st = true then (0 : Int) else 60)
          ≤ durationSeconds (now - st.ingame.startTime))) :=
  lagSlotLocals_shortcut c x g now isInitialLoad i st

/-- The shortcut does not apply at a slot up to `MAX_PLAYERS`, when no slot is
counted, or when a counted slot is still joining. -/
theorem lag_no_shortcut (c : Consts) (x : Externals) (g : Globals)
    (ingame : MULTIPLAYERINGAME) (now : Int) (isInitialLoad : Bool) (i : Nat)
    (st : LagLoopState) (hP : lagCountInvariant c x g ingame i st)
    (hh : i ≤ c.MAX_PLAYERS ∨ (∀ j, ¬ countedSlot c g j) ∨
      (∃ j, countedSlot c g j ∧ ingame.JoiningInProgress j = true)) :
    lagShortcutTest c x g now isInitialLoad i st = false := by
  obtain ⟨hJ, hle, hEq, hLt, hPos, hThr⟩ := hP
  obtain ⟨hcT, hcL⟩ := lagSlotLocals_counts c x g now isInitialLoad i st
  unfold lagShortcutTest
  by_cases hmp : c.MAX_PLAYERS < i
  · have hi : ¬ i < c.MAX_PLAYERS := by omega
    rw [if_neg hi] at hcT
    rw [if_neg (fun hc => hi hc.1)] at hcL
    rcases hh with h1 | h1 | ⟨j, hc, hjo⟩
    · omega
    · have h0 : ¬ 0 < (lagSlotLocals c x g now isInitialLoad i st).totalNumPlayers := by
        rw [hcT, hPos]
        rintro ⟨j, _, hc⟩
        exact h1 j hc
      simp [h0]
    · have hlt := hLt ⟨j, by have := hc.1; omega, hc, hjo⟩
      have hne : ¬ (lagSlotLocals c x g now isInitialLoad i st).numPlayersLoaded
          = (lagSlotLocals c x g now isInitialLoad i st).totalNumPlayers := by
        rw [hcT, hcL]
        omega
      simp [hne]
  · simp [hmp]

/-- The shortcut applies at a joining slot above `MAX_PLAYERS` other than the
host in the initial load when some slot is counted and every counted slot has
finished loading. -/
theorem lag_shortcut (c : Consts) (x : Externals) (g : Globals)
    (ingame : MULTIPLAYERINGAME) (now : Int) (isInitialLoad : Bool) (i : Nat)
    (st : LagLoopState) (hP : lagCountInvariant c x g ingame i st)
    (hw : (isInitialLoad && st.ingame.JoiningInProgress i) = true)
    (hmp : c.MAX_PLAYERS < i) (hhost : i ≠ g.NetPlay.hostPlayer)
    (hsome : ∃ j, countedSlot c g j)
    (hall : ∀ j, countedSlot c g j → ingame.JoiningInProgress j = false) :
    lagShortcutTest c x g now isInitialLoad i st = true := by
  obtain ⟨hJ, hle, hEq, hLt, hPos, hThr⟩ := hP
  obtain ⟨hcT, hcL⟩ := lagSlotLocals_counts c x g now isInitialLoad i st
  have hi : ¬ i < c.MAX_PLAYERS := by omega
  rw [if_neg hi] at hcT
  rw [if_neg (fun hc => hi hc.1)] at hcL
  obtain ⟨j, hc⟩ := hsome
  have h0 : 0 < (lagSlotLocals c x g now isInitialLoad i st).totalNumPlayers := by
    rw [hcT, hPos]
    exact ⟨j, by have := hc.1; omega, hc⟩
  have he : (lagSlotLocals c x g now isInitialLoad i st).numPlayersLoaded
      = (lagSlotLocals c x g now isInitialLoad i st).totalNumPlayers := by
    rw [hcT, hcL]
    exact hEq (fun j _ hc => hall j hc)
  unfold lagShortcutTest
  simp [hw, hmp, h0, he, hhost]

/-- C26, counterexample: in the initial load, 5 seconds after `startTime`,
configured threshold 20, still-joining spectator slot 3, every real player
loaded.  With `MAX_PLAYERS = 3` (slot index equal to `MAX_PLAYERS`) the slot
keeps the 60 s grace period (it is not waiting) and the threshold stays 20;
so does it with `MAX_PLAYERS = 2` when the host is the only real player;
whereas with `MAX_PLAYERS = 2` and the real player on slot 1 loaded the grace
period is 0 and the threshold 10. -/
theorem spectator_shortcut_not_applied :
    slotExamined sampleConsts sampleExternals sampleHost 3 ∧
    sampleConsts.MAX_PLAYERS ≤ 3 ∧
    (∀ j, countedSlot sampleConsts sampleHost j → sampleIngame.JoiningInProgress j = false) ∧
    (lagStateAt sampleConsts { sampleExternals with war_getAutoLagKickSeconds := 20 }
        sampleHost sampleIngame 5000000000 3).map
      (fun st => ((lagSlotLocals sampleConsts
          { sampleExternals with war_getAutoLagKickSeconds := 20 } sampleHost 5000000000
          (lagIsInitialLoad sampleHost sampleIngame) 3 st).LagAutoKickSeconds,
        (lagSlotLocals sampleConsts
          { sampleExternals with war_getAutoLagKickSeconds := 20 } sampleHost 5000000000
          (lagIsInitialLoad sampleHost sampleIngame) 3 st).isWaitingForInitialLoad))
      = some (20, false) ∧
    slotExamined monitorConsts sampleExternals sampleHostOnly 3 ∧
    (∀ j, ¬ countedSlot monitorConsts sampleHostOnly j) ∧
    (lagStateAt monitorConsts { sampleExternals with war_getAutoLagKickSeconds := 20 }
        sampleHostOnly sampleIngame 5000000000 3).map
      (fun st => ((lagSlotLocals monitorConsts
          { sampleExternals with war_getAutoLagKickSeconds := 20 } sampleHostOnly 5000000000
          (lagIsInitialLoad sampleHostOnly sampleIngame) 3 st).LagAutoKickSeconds,
        (lagSlotLocals monitorConsts
          { sampleExternals with war_getAutoLagKickSeconds := 20 } sampleHostOnly 5000000000
          (lagIsInitialLoad sampleHostOnly sampleIngame) 3 st).isWaitingForInitialLoad))
      = some (20, false) ∧
    (lagStateAt monitorConsts { sampleExternals with war_getAutoLagKickSeconds := 20 }
        sampleHost sampleIngame 5000000000 3).map
      (fun st => ((lagSlotLocals monitorConsts
          { sampleExternals with war_getAutoLagKickSeconds := 20 } sampleHost 5000000000
          (lagIsInitialLoad sampleHost sampleIngame) 3 st).LagAutoKickSeconds,
        (lagSlotLocals monitorConsts
          { sampleExternals with war_getAutoLagKickSeconds := 20 } sampleHost 5000000000
          (lagIsInitialLoad sampleHost sampleIngame) 3 st).isWaitingForInitialLoad))
      = some (10, true) := by
  refine ⟨by decide, by decide, ?_, by decide, by decide, ?_, by decide, by decide⟩
  · intro j hj
    have h3 : j < 3 := hj.1
    interval_cases j
    · exact absurd rfl hj.2.2
    · rfl
    · rfl
  · intro j hj
    have h2 : j < 2 := hj.1
    interval_cases j
    · exact absurd rfl hj.2.2
    · exact absurd hj.2.1 (by decide)

/-- C26, amended: in a pass of `autoLagKickRoutine` that runs in the initial
load, for an examined slot `k` below the check limit that is still joining:
if `k` is above `MAX_PLAYERS`, some slot is counted as a real player (human,
not the host, below `MAX_PLAYERS`) and every counted slot has finished
loading, the grace period is 0 (the slot is waiting as soon as the elapsed
time is not negative) and the threshold is `min(10, configured)`, so a slot
that is not pending disconnect is kicked once when its counter plus one
reaches that; if `k` is at most `MAX_PLAYERS`, or no slot is counted (the host
is the only real player), or a counted slot is still joining, the grace
period stays 60 s and the threshold stays the configured one. -/
theorem spectator_shortcut_policy (c : Consts) (x : Externals) (g : Globals)
    (ingame : MULTIPLAYERINGAME) (now : Int) (k : Nat)
    (hwf : c.MAX_CONNECTED_PLAYERS ≤ g.NetPlay.players.length)
    (hrun : lagPassRuns x g ingame now)
    (hk : k < lagPlayerCheckLimit c g ingame)
    (hex : slotExamined c x g k)
    (hload : lagIsInitialLoad g ingame = true)
    (hjoin : ingame.JoiningInProgress k = true) :
    ∃ st r l, lagStateAt c x g ingame now k = some st ∧
      autoLagKickRoutine c x g ingame now = some r ∧
      l = lagSlotLocals c x g now (lagIsInitialLoad g ingame) k st ∧
      ((c.MAX_PLAYERS < k ∧ (∃ j, countedSlot c g j) ∧
          (∀ j, countedSlot c g j → ingame.JoiningInProgress j = false)) →
        l.LagAutoKickSeconds = min 10 x.war_getAutoLagKickSeconds ∧
        l.isWaitingForInitialLoad = decide (0 ≤ durationSeconds (now - ingame.startTime)) ∧
        (0 ≤ durationSeconds (now - ingame.startTime) → ingame.PendingDisconnect k = false →
          min 10 x.war_getAutoLagKickSeconds ≤ ingame.LagCounter k + 1 →
          kicksFor k r.2 = 1 ∧ r.1.LagCounter k = 0)) ∧
      ((k ≤ c.MAX_PLAYERS ∨ (∀ j, ¬ countedSlot c g j) ∨
          (∃ j, countedSlot c g j ∧ ingame.JoiningInProgress j = true)) →
        l.LagAutoKickSeconds = x.war_getAutoLagKickSeconds ∧
        l.isWaitingForInitialLoad = decide (60 ≤ durationSeconds (now - ingame.startTime))) := by
  obtain ⟨st, r, hst, hr, hinv, hcnt, hev⟩ := autoLagKickRoutine_at c x g ingame now k hwf hrun hk hex
  obtain ⟨st2, hst2, hcount⟩ := lagStateAt_counts c x g ingame now k hwf
  rw [hst] at hst2
  cases hst2
  obtain ⟨hJ, hPd, hPing, hS, hT, hK⟩ := hinv
  obtain ⟨hC, _⟩ := hK (le_refl k)
  have hw : (lagIsInitialLoad g ingame && st.ingame.JoiningInProgress k) = true := by
    rw [hload, hJ, hjoin]
    rfl
  obtain ⟨hthr, hwait⟩ := lagSlotLocals_shortcutTest c x g now (lagIsInitialLoad g ingame) k st
  have hwait' := hwait hw
  rw [hS] at hwait'
  refine ⟨st, r, _, hst, hr, rfl, ?_, ?_⟩
  · rintro ⟨hmp, hsome, hall⟩
    have hs := lag_shortcut c x g ingame now (lagIsInitialLoad g ingame) k st hcount hw hmp
      hex.2.1 hsome hall
    rw [hs] at hthr hwait'
    simp only [if_true] at hthr hwait'
    have hL : (lagSlotLocals c x g now (lagIsInitialLoad g ingame) k st).LagAutoKickSeconds
        = min 10 x.war_getAutoLagKickSeconds := by
      rw [hthr]
      rcases hT with e | e <;> rw [e]
      simp
    refine ⟨hL, hwait', ?_⟩
    intro h0 hp hle
    have hwt : (lagSlotLocals c x g now (lagIsInitialLoad g ingame) k st).isWaitingForInitialLoad
        = true := by
      rw [hwait']
      simpa using h0
    have hps : st.ingame.PendingDisconnect k = false := by rw [hPd]; exact hp
    rcases lagCounterStep_cases x k st.ingame
        (lagSlotLocals c x g now (lagIsInitialLoad g ingame) k st) with
      ⟨h, _⟩ | ⟨h, _⟩ | ⟨_, h, _⟩ | ⟨_, _, _, h⟩ | ⟨_, _, hlt, _⟩
    · rw [h.2] at hwt
      exact absurd hwt (by decide)
    · rw [h.2] at hwt
      exact absurd hwt (by decide)
    · rw [hps] at h
      exact absurd h (by decide)
    · rw [h] at hcnt hev
      constructor
      · rw [← kicksFor_eventsAbout, hev, kicksFor_lagKickEvents, if_pos rfl]
      · rw [hcnt, setLagCounter_apply, if_pos rfl]
    · rw [hC, hL] at hlt
      omega
  · intro hh
    have hs := lag_no_shortcut c x g ingame now (lagIsInitialLoad g ingame) k st hcount hh
    rw [hs] at hthr hwait'
    simp only [Bool.false_eq_true, if_false] at hthr hwait'
    refine ⟨?_, hwait'⟩
    rw [hthr]
    apply hcount.2.2.2.2.2
    rcases hh with h1 | h1 | h1
    · exact Or.inl (by omega)
    · exact Or.inr (Or.inl h1)
    · exact Or.inr (Or.inr h1)

theorem spectator_shortcut_policy_witness :
    monitorConsts.MAX_CONNECTED_PLAYERS ≤ sampleHost.NetPlay.players.length ∧
    lagPassRuns sampleExternals sampleHost sampleIngame 5000000000 ∧
    3 < lagPlayerCheckLimit monitorConsts sampleHost sampleIngame ∧
    slotExamined monitorConsts sampleExternals sampleHost 3 ∧
    lagIsInitialLoad sampleHost sampleIngame = true ∧
    sampleIngame.JoiningInProgress 3 = true ∧
    ∃ st r l, lagStateAt monitorConsts sampleExternals sampleHost sampleIngame 5000000000 3
        = some st ∧
      autoLagKickRoutine monitorConsts sampleExternals sampleHost sampleIngame 5000000000
        = some r ∧
      l = lagSlotLocals monitorConsts sampleExternals sampleHost 5000000000
        (lagIsInitialLoad sampleHost sampleIngame) 3 st ∧
      ((monitorConsts.MAX_PLAYERS < 3 ∧ (∃ j, countedSlot monitorConsts sampleHost j) ∧
          (∀ j, countedSlot monitorConsts sampleHost j →
            sampleIngame.JoiningInProgress j = false)) →
        l.LagAutoKickSeconds = min 10 sampleExternals.war_getAutoLagKickSeconds ∧
        l.isWaitingForInitialLoad
          = decide (0 ≤ durationSeconds (5000000000 - sampleIngame.startTime))) :=
  ⟨by decide, by decide, by decide, by decide, rfl, rfl,
    (spectator_shortcut_policy monitorConsts sampleExternals sampleHost sampleIngame
      5000000000 3 (by decide) (by decide) (by decide) (by decide) rfl rfl).imp
      (fun _ h => h.imp (fun _ h => h.imp (fun _ h =>
        ⟨h.1, h.2.1, h.2.2.1, fun hc => ⟨(h.2.2.2.1 hc).1, (h.2.2.2.1 hc).2.1⟩⟩)))⟩

/-! ## Theorems: the not-ready warning -/

/-- C27, evaluation at threshold 3: slot 1 is examined, not pending, not
ready, and has been not ready for 1 second, so `T - 6 ≤ t < T`; the pass of
`autoLobbyNotReadyKickRoutine` runs and makes no call about slot 1 (no
warning), because `T - 6 = -3` is converted to `uint64_t` before the
comparison.  With threshold 7 the same slot is sent the warning. -/
theorem not_ready_warning_missed :
    slotExamined monitorConsts sampleExternals sampleLobby 1 ∧
    sampleLobbyIngame.PendingDisconnect 1 = false ∧
    (sampleLobby.NetPlay.players[1]?).map (fun p => p.ready) = some false ∧
    calculateSecondsNotReadyForPlayer sampleLobby sampleLobbyIngame 1 5000000000 = 1 ∧
    ((3 : Int) - 6 ≤ 1 ∧ (1 : Int) < 3) ∧
    toUInt64 (3 - 6) = 18446744073709551613 ∧
    (autoLobbyNotReadyKickRoutine monitorConsts
        { sampleExternals with war_getAutoLagKickSeconds := 3 } sampleLobby sampleLobbyIngame
        5000000000).map (fun r => eventsAbout 1 r.2) = some [] ∧
    (autoLobbyNotReadyKickRoutine monitorConsts
        { sampleExternals with war_getAutoLagKickSeconds := 7 } sampleLobby sampleLobbyIngame
        5000000000).map (fun r => eventsAbout 1 r.2)
      = some [Event.sendQuickChat "NotReadyKickWarning" 1 (some 1)] := by
  refine ⟨by decide, rfl, by decide, by decide, by decide, by decide, by decide, by decide⟩

/-! ## Theorems: data check, phase 2, timeout -/

/-- C28: in a host pass of `sendDataCheck2` that runs (at least 10 s since the
previous pass), an eligible slot whose outstanding challenge is at least
`max(autoLagKickSeconds + 3, 60)` seconds old is kicked once, with
`ERROR_WRONGDATA`, its timestamp is cleared and no request is sent to it; an
eligible slot whose outstanding challenge is younger is not kicked. -/
theorem challenge_timeout_kick (c : Consts) (x : Externals) (g : Globals)
    (ingame : MULTIPLAYERINGAME) (now : Int) (k : Nat)
    (hwf : c.MAX_CONNECTED_PLAYERS ≤ g.NetPlay.players.length)
    (hhost : g.NetPlay.isHost = true)
    (hrun : DATACHECK2_INTERVAL_MS ≤ durationMilliseconds (now - ingame.lastPlayerDataCheck2))
    (hel : dataCheck2Eligible c x g k) :
    ∃ r, sendDataCheck2 c x g ingame now = some r ∧
      (∀ t, ingame.lastSentPlayerDataCheck2 k = some t →
        max (x.war_getAutoLagKickSeconds + 3) 60 ≤ durationSeconds (now - t) →
        kicksFor k r.2.1 = 1 ∧
          Event.kickPlayer k "Your data doesn't match the host's!"
            LOBBY_ERROR_TYPES.ERROR_WRONGDATA false ∈ r.2.1 ∧
          r.1.lastSentPlayerDataCheck2 k = none ∧ sendsTo k r.2.1 = 0) ∧
      (∀ t, ingame.lastSentPlayerDataCheck2 k = some t →
        durationSeconds (now - t) < max (x.war_getAutoLagKickSeconds + 3) 60 →
        kicksFor k r.2.1 = 0) := by
  obtain ⟨r, hr, _, _, hloop⟩ := sendDataCheck2_slot c x g ingame now k hwf hhost
  refine ⟨r, hr, ?_, ?_⟩
  all_goals
    have hinv := hloop hrun
    unfold dataCheck2SlotInvariant at hinv
    obtain ⟨_, hinv⟩ := hinv
    rw [if_pos ⟨hel.1, hel⟩] at hinv
  · intro t ht hold
    have hto : challengeTimedOut (ingame.lastSentPlayerDataCheck2 k) now
        (maxDataCheck2WaitSeconds x) = true := by
      rw [ht]
      unfold challengeTimedOut maxDataCheck2WaitSeconds
      simp only [decide_eq_true_eq]
      exact hold
    rw [if_pos hto] at hinv
    exact ⟨hinv.1, hinv.2.1, hinv.2.2.2, hinv.2.2.1⟩
  · intro t ht hyoung
    have hto : ¬ challengeTimedOut (ingame.lastSentPlayerDataCheck2 k) now
        (maxDataCheck2WaitSeconds x) = true := by
      rw [ht]
      unfold challengeTimedOut maxDataCheck2WaitSeconds
      simp only [decide_eq_true_eq]
      omega
    rw [if_neg hto] at hinv
    exact hinv.1

theorem challenge_timeout_kick_witness :
    monitorConsts.MAX_CONNECTED_PLAYERS ≤ sampleHost.NetPlay.players.length ∧
    sampleHost.NetPlay.isHost = true ∧
    DATACHECK2_INTERVAL_MS
      ≤ durationMilliseconds (60000000000 - sampleChallenged.lastPlayerDataCheck2) ∧
    dataCheck2Eligible monitorConsts sampleExternals sampleHost 1 ∧
    sampleChallenged.lastSentPlayerDataCheck2 1 = some 0 ∧
    max (sampleExternals.war_getAutoLagKickSeconds + 3) 60 ≤ durationSeconds (60000000000 - 0) ∧
    ∃ r, sendDataCheck2 monitorConsts sampleExternals sampleHost sampleChallenged 60000000000
        = some r ∧
      (∀ t, sampleChallenged.lastSentPlayerDataCheck2 1 = some t →
        max (sampleExternals.war_getAutoLagKickSeconds + 3) 60
          ≤ durationSeconds (60000000000 - t) →
        kicksFor 1 r.2.1 = 1 ∧
          Event.kickPlayer 1 "Your data doesn't match the host's!"
            LOBBY_ERROR_TYPES.ERROR_WRONGDATA false ∈ r.2.1 ∧
          r.1.lastSentPlayerDataCheck2 1 = none ∧ sendsTo 1 r.2.1 = 0) :=
  ⟨by decide, rfl, by decide, by decide, rfl, by decide,
    (challenge_timeout_kick monitorConsts sampleExternals sampleHost sampleChallenged
      60000000000 1 (by decide) rfl (by decide) (by decide)).imp
      (fun _ h => ⟨h.1, h.2.1⟩)⟩

theorem layerCount_sampleLayers (n k : Nat) (h : n ≤ k) :
    layerCount (sampleLayers n) k = none := by
  unfold layerCount sampleLayers
  rw [List.lookup_eq_none_iff]
  intro a hab
  simp only [List.mem_reverse, List.mem_map, List.mem_range] at hab
  obtain ⟨z, hz, he⟩ := hab
  subst he
  simp only [bne_iff_ne, ne_eq]
  omega

/-- C29, counterexample: a response from slot 1 that matches the host in every
field but carries 1025 overlay layers sets `hasWrongData`; `recvDataCheck2`
returns false and the slot is kicked. -/
theorem many_layers_kicked :
    sampleManyLayers.layers.length = 1025 ∧
    sampleManyLayers.tempBuffer = sampleExternals.DataHash ∧
    layerCount sampleManyLayers.layers 65533 = none ∧
    (recvDataCheck2 monitorConsts sampleExternals sampleHost sampleIngame 0
        { index := 1, queueType := 0 } sampleManyLayers).map
      (fun r => (r.returned, r.hasWrongData, kicksFor 1 r.events)) = some (false, true, 1) := by
  have hl : sampleManyLayers.layers = sampleLayers 1025 := by
    simp only [sampleManyLayers]
  have hlen : sampleManyLayers.layers.length = 1025 := by
    rw [hl]
    unfold sampleLayers
    rw [List.length_map, List.length_range]
  have hlayer : layerCount sampleManyLayers.layers 65533 = none := by
    rw [hl]
    exact layerCount_sampleLayers 1025 65533 (by decide)
  refine ⟨hlen, rfl, hlayer, ?_⟩
  obtain ⟨idx, logs, hval, hlogs, _, _, _⟩ :=
    dataCheck2Validate_spec sampleExternals 1 (samplePlayer true false false)
      sampleManyLayers rfl
  have hr := recvDataCheck2_host monitorConsts sampleExternals sampleHost sampleIngame 0
    { index := 1, queueType := 0 } sampleManyLayers (samplePlayer true false false) _ idx logs
    rfl (by decide) rfl rfl rfl (by decide) hval
  rw [hr]
  have hhigh : decide (1024 < sampleManyLayers.layers.length) = true := by
    rw [hlen]
    decide
  simp only [hhigh, Bool.or_true, Bool.true_or, if_true, Option.map_some']
  have hk := (wrongData_result_kick 1 logs hlogs).1
  simp only [Nat.cast_one] at hk ⊢
  rw [hk]

/-- C29, amended: on the host, for a response that reaches the validation, an
overlay-layer count above 1024 is logged and sets `hasWrongData`: the call
returns false and the slot is kicked once with `ERROR_WRONGDATA`, whatever the
other fields are; a response with at most 1024 layers that is consistent in
every other check leaves `hasWrongData` false, returns true and kicks nobody. -/
theorem high_layer_count_policy (c : Consts) (x : Externals) (g : Globals)
    (ingame : MULTIPLAYERINGAME) (now : Int) (queue : NETQUEUE) (m : DataCheck2Message)
    (p : PLAYER)
    (hhost : g.NetPlay.isHost = true)
    (hidx : queue.index < c.MAX_CONNECTED_PLAYERS)
    (hp : g.NetPlay.players[queue.index]? = some p)
    (halloc : p.allocated = true) (hkick : p.kick = false)
    (hreal : m.recvRealSelectedPlayer < g.NetPlay.players.length)
    (hlen : m.tempBuffer.length = x.DataHash.length) :
    ∃ r, recvDataCheck2 c x g ingame now queue m = some r ∧
      (1024 < m.layers.length →
        r.hasWrongData = true ∧ r.returned = false ∧ kicksFor queue.index r.events = 1 ∧
          Event.kickPlayer queue.index "Your data doesn't match the host's!"
            LOBBY_ERROR_TYPES.ERROR_WRONGDATA false ∈ r.events ∧
          Event.log "LOG_INFO"
            "%s (%u) has a very high layersSize - something is probably wrong. (layersSize: %u)"
            [(queue.index : Int), (m.layers.length : Int)] ∈ r.events) ∧
      (m.layers.length ≤ 1024 →
        (p.isSpectator = true ∨
          (m.recvSelectedPlayer = queue.index ∧ m.recvRealSelectedPlayer = queue.index)) →
        (p.isSpectator = true ∨ layerCount m.layers 65533 = none
          ∨ x.debugMappingsAllowed = true) →
        x.DataHash = m.tempBuffer → m.aiIndex = p.ai →
        (p.isSpectator = true ∨ m.recvGM = false) →
        r.hasWrongData = false ∧ r.returned = true ∧ ∀ j, kicksFor j r.events = 0) := by
  obtain ⟨idx, logs, hval, hlogs, hlog, _, _⟩ := dataCheck2Validate_spec x queue.index p m hlen
  have hr := recvDataCheck2_host c x g ingame now queue m p _ idx logs hhost hidx hp halloc
    hkick hreal hval
  refine ⟨_, hr, ?_, ?_⟩
  · intro hhigh
    have hw : decide (1024 < m.layers.length) = true := by simpa using hhigh
    simp only [hw, Bool.or_true, Bool.true_or, if_true]
    refine ⟨trivial, trivial, (wrongData_result_kick queue.index logs hlogs).1,
      (wrongData_result_kick queue.index logs hlogs).2, ?_⟩
    apply List.mem_append_left
    apply List.mem_append_right
    exact hlog hhigh
  · intro hlow h1 h2 h3 h4 h5
    have e1 : (!p.isSpectator && (decide (m.recvSelectedPlayer ≠ queue.index)
        || decide (m.recvRealSelectedPlayer ≠ queue.index))) = false := by
      rcases h1 with h | ⟨ha, hb⟩
      · simp [h]
      · simp [ha, hb]
    have e2 : decide (1024 < m.layers.length) = false := by
      simp only [decide_eq_false_iff_not]
      omega
    have e3 : (!p.isSpectator && (layerCount m.layers 65533).isSome
        && !x.debugMappingsAllowed) = false := by
      rcases h2 with h | h | h
      · simp [h]
      · simp [h]
      · simp [h]
    have e4 : decide (x.DataHash ≠ m.tempBuffer) = false := by simpa using h3
    have e5 : decide (m.aiIndex ≠ p.ai) = false := by simpa using h4
    have e6 : (!p.isSpectator && m.recvGM) = false := by
      rcases h5 with h | h
      · simp [h]
      · simp [h]
    simp only [e1, e2, e3, e4, e5, e6, Bool.or_false, Bool.false_eq_true, if_false]
    exact ⟨trivial, trivial, fun j => rightData_result_kick j queue.index logs hlogs⟩

theorem high_layer_count_policy_witness :
    sampleHost.NetPlay.isHost = true ∧
    (1 : Nat) < monitorConsts.MAX_CONNECTED_PLAYERS ∧
    sampleHost.NetPlay.players[1]? = some (samplePlayer true false false) ∧
    sampleResponse.recvRealSelectedPlayer < sampleHost.NetPlay.players.length ∧
    sampleResponse.tempBuffer.length = sampleExternals.DataHash.length ∧
    ∃ r, recvDataCheck2 monitorConsts sampleExternals sampleHost sampleIngame 0
        { index := 1, queueType := 0 } sampleResponse = some r ∧
      r.hasWrongData = false ∧ r.returned = true ∧ ∀ j, kicksFor j r.events = 0 :=
  ⟨rfl, by decide, rfl, by decide, rfl,
    (high_layer_count_policy monitorConsts sampleExternals sampleHost sampleIngame 0
      { index := 1, queueType := 0 } sampleResponse (samplePlayer true false false)
      rfl (by decide) rfl rfl rfl (by decide) rfl).imp
      (fun _ h => ⟨h.1, h.2.2 (by decide) (Or.inr ⟨rfl, rfl⟩) (Or.inr (Or.inl rfl)) rfl rfl
        (Or.inr rfl)⟩)⟩

/-! ## Theorems: the data integrity kick of the main loop -/

theorem joinCount_spec (c : Consts) (g : Globals) (ingame : MULTIPLAYERINGAME)
    (hwf : c.MAX_CONNECTED_PLAYERS ≤ g.NetPlay.players.length) :
    ∃ n, joinCount c g ingame = some n ∧
      ((∀ j, j < c.MAX_CONNECTED_PLAYERS → isHumanPlayer c g.NetPlay (j : Int) = some true →
        ingame.JoiningInProgress j = false) → n = 0) := by
  have key : ∃ n, forLoop (joinCountBody c g ingame) 0 c.MAX_CONNECTED_PLAYERS 0 = some n ∧
      joinCountInvariant c g ingame (0 + c.MAX_CONNECTED_PLAYERS) n := by
    refine forLoop_indexed _ (joinCountInvariant c g ingame) _ 0 _ ?_ ?_
    · intro i n _ _ hP
      obtain ⟨b, hb⟩ := isHumanPlayer_slot c g.NetPlay i hwf
      unfold joinCountBody
      rw [hb]
      refine ⟨_, rfl, ?_⟩
      intro hall
      have hn : n = 0 := hP (fun j hj => hall j (by omega))
      by_cases hc : b = true ∧ ingame.JoiningInProgress i = true
      · exfalso
        have := hall i (by omega) (by rw [hb, hc.1])
        rw [this] at hc
        exact absurd hc.2 (by decide)
      · rw [if_neg hc]
        exact hn
    · intro _
      rfl
  rw [Nat.zero_add] at key
  exact key

theorem noInvalidKick_append (xs ys : List Event) :
    noInvalidKick (xs ++ ys) = (noInvalidKick xs && noInvalidKick ys) := by
  simp [noInvalidKick, List.all_append]

theorem invalidKicksFor_append (k : Nat) (xs ys : List Event) :
    invalidKicksFor k (xs ++ ys) = invalidKicksFor k xs + invalidKicksFor k ys := by
  simp [invalidKicksFor, List.filter_append]

theorem invalidKicksFor_of_noInvalidKick (k : Nat) : ∀ (evs : List Event),
    noInvalidKick evs = true → invalidKicksFor k evs = 0
  | [], _ => rfl
  | e :: es, h => by
    unfold noInvalidKick at h
    rw [List.all_cons, Bool.and_eq_true] at h
    have ih := invalidKicksFor_of_noInvalidKick k es h.2
    have he : isInvalidKick e = false := by simpa using h.1
    unfold invalidKicksFor at ih ⊢
    rw [List.filter_cons]
    simp only [he, Bool.false_and, Bool.false_eq_true, if_false]
    exact ih

theorem integrityFrame_refl (a : MULTIPLAYERINGAME) : integrityFrame a a :=
  ⟨rfl, rfl, rfl, rfl⟩

theorem integrityFrame_trans (a b d : MULTIPLAYERINGAME) (h1 : integrityFrame a b)
    (h2 : integrityFrame b d) : integrityFrame a d :=
  ⟨by rw [h2.1, h1.1], by rw [h2.2.1, h1.2.1], by rw [h2.2.2.1, h1.2.2.1],
    by rw [h2.2.2.2, h1.2.2.2]⟩

theorem noInvalidKick_lagKickEvents (x : Externals) (i : Nat) (L : Int) :
    noInvalidKick (lagKickEvents x i L) = true := by
  unfold lagKickEvents
  by_cases h : x.wz_command_interface_enabled = true <;>
    simp [noInvalidKick, isInvalidKick, h]

theorem noInvalidKick_desyncKickEvents (x : Externals) (i : Nat) (D : Int) :
    noInvalidKick (desyncKickEvents x i D) = true := by
  unfold desyncKickEvents
  by_cases h : x.wz_command_interface_enabled = true <;>
    simp [noInvalidKick, isInvalidKick, h]

theorem noInvalidKick_timeoutEvents (ingame : MULTIPLAYERINGAME) (i : Nat) (W : Int) :
    noInvalidKick (dataCheck2TimeoutEvents ingame i W) = true := by
  unfold dataCheck2TimeoutEvents
  by_cases h : ingame.PendingDisconnect i = false <;>
    simp [noInvalidKick, isInvalidKick, h]

theorem lagCounterStep_integrity (x : Externals) (i : Nat) (ingame : MULTIPLAYERINGAME)
    (l : LagSlotLocals) :
    integrityFrame ingame (lagCounterStep x i ingame l).1 ∧
    noInvalidKick (lagCounterStep x i ingame l).2 = true := by
  rcases lagCounterStep_cases x i ingame l with
    ⟨_, _, h⟩ | ⟨_, _, h⟩ | ⟨_, _, h⟩ | ⟨_, _, _, h⟩ | ⟨_, _, _, E, hE, _, h⟩ <;> rw [h]
  · exact ⟨integrityFrame_refl _, rfl⟩
  · exact ⟨⟨rfl, rfl, rfl, rfl⟩, rfl⟩
  · exact ⟨integrityFrame_refl _, rfl⟩
  · exact ⟨⟨rfl, rfl, rfl, rfl⟩, noInvalidKick_lagKickEvents x i _⟩
  · refine ⟨⟨rfl, rfl, rfl, rfl⟩, ?_⟩
    rcases hE with rfl | rfl
    · rfl
    · rfl

/-- A pass of the lag monitor completes, writes none of the fields the data
integrity check reads, and makes no `ERROR_INVALID` kick. -/
theorem autoLagKickRoutine_integrity (c : Consts) (x : Externals) (g : Globals)
    (ingame : MULTIPLAYERINGAME) (now : Int)
    (hwf : c.MAX_CONNECTED_PLAYERS ≤ g.NetPlay.players.length) :
    ∃ r, autoLagKickRoutine c x g ingame now = some r ∧ integrityFrame ingame r.1 ∧
      noInvalidKick r.2 = true := by
  unfold autoLagKickRoutine
  split_ifs
  · exact ⟨_, rfl, integrityFrame_refl _, rfl⟩
  · exact ⟨_, rfl, integrityFrame_refl _, rfl⟩
  · exact ⟨_, rfl, integrityFrame_refl _, rfl⟩
  · simp only []
    apply option_map_some
    refine forLoop_invariant _ (lagQuietInvariant ingame) _ 0 _ ?_ ⟨⟨rfl, rfl, rfl, rfl⟩, rfl⟩
    intro i t _ _ hP
    rcases autoLagKickBody_cases c x g now _ i t hwf with ⟨_, h⟩ | ⟨_, h⟩
    · exact ⟨t, h, hP⟩
    · refine ⟨_, h, ?_⟩
      obtain ⟨hf, he⟩ := lagCounterStep_integrity x i t.ingame
        (lagSlotLocals c x g now _ i t)
      refine ⟨integrityFrame_trans _ _ _ hP.1 hf, ?_⟩
      show noInvalidKick (t.events ++ _) = true
      rw [noInvalidKick_append, hP.2, he]
      rfl

/-- A pass of the desync monitor completes, writes none of the fields the
data integrity check reads, and makes no `ERROR_INVALID` kick. -/
theorem autoDesyncKickRoutine_integrity (c : Consts) (x : Externals) (g : Globals)
    (ingame : MULTIPLAYERINGAME) (now : Int)
    (hwf : c.MAX_CONNECTED_PLAYERS ≤ g.NetPlay.players.length) :
    ∃ r, autoDesyncKickRoutine c x g ingame now = some r ∧ integrityFrame ingame r.1 ∧
      noInvalidKick r.2 = true := by
  unfold autoDesyncKickRoutine
  split_ifs
  · exact ⟨_, rfl, integrityFrame_refl _, rfl⟩
  · exact ⟨_, rfl, integrityFrame_refl _, rfl⟩
  · exact ⟨_, rfl, integrityFrame_refl _, rfl⟩
  · exact ⟨_, rfl, integrityFrame_refl _, rfl⟩
  · apply option_map_some
    refine forLoop_invariant _ (loopQuietInvariant ingame) _ 0 _ ?_ ⟨⟨rfl, rfl, rfl, rfl⟩, rfl⟩
    intro i t _ _ hP
    rcases autoDesyncKickBody_cases c x g x.war_getAutoDesyncKickSeconds i t hwf with
      ⟨_, h⟩ | ⟨_, _, h⟩ | ⟨_, _, _, h⟩ | ⟨_, _, _, _, h⟩ | ⟨_, _, _, _, E, hE, h⟩
    · exact ⟨t, h, hP⟩
    · refine ⟨_, h, integrityFrame_trans _ _ _ hP.1 ⟨rfl, rfl, rfl, rfl⟩, ?_⟩
      show noInvalidKick (t.events ++ []) = true
      rw [List.append_nil]
      exact hP.2
    · exact ⟨t, h, hP⟩
    · refine ⟨_, h, integrityFrame_trans _ _ _ hP.1 ⟨rfl, rfl, rfl, rfl⟩, ?_⟩
      show noInvalidKick (t.events ++ _) = true
      rw [noInvalidKick_append, hP.2, noInvalidKick_desyncKickEvents]
      rfl
    · refine ⟨_, h, integrityFrame_trans _ _ _ hP.1 ⟨rfl, rfl, rfl, rfl⟩, ?_⟩
      show noInvalidKick (t.events ++ E) = true
      rw [noInvalidKick_append, hP.2]
      rcases hE with rfl | rfl <;> rfl

/-- A host pass of `sendDataCheck2` completes, writes none of the fields the
data integrity check reads, and makes no `ERROR_INVALID` kick. -/
theorem sendDataCheck2_integrity (c : Consts) (x : Externals) (g : Globals)
    (ingame : MULTIPLAYERINGAME) (now : Int)
    (hwf : c.MAX_CONNECTED_PLAYERS ≤ g.NetPlay.players.length)
    (hhost : g.NetPlay.isHost = true) :
    ∃ r, sendDataCheck2 c x g ingame now = some r ∧ integrityFrame ingame r.1 ∧
      noInvalidKick r.2.1 = true := by
  unfold sendDataCheck2
  rw [if_pos hhost]
  split_ifs
  · exact ⟨_, rfl, integrityFrame_refl _, rfl⟩
  · apply option_map_some
    obtain ⟨s', hs', hP⟩ : ∃ s', forLoop (sendDataCheck2Body c g now (maxDataCheck2WaitSeconds x))
        0 (min x.maxPlayers c.MAX_PLAYERS) { ingame := ingame, events := [] } = some s' ∧
        loopQuietInvariant ingame s' := by
      refine forLoop_invariant _ (loopQuietInvariant ingame) _ 0 _ ?_
        ⟨integrityFrame_refl _, rfl⟩
      intro i t _ hi hP
      rcases sendDataCheck2Body_cases c x g now (maxDataCheck2WaitSeconds x) i t hwf
          (by omega) with ⟨_, h⟩ | ⟨_, _, h⟩ | ⟨_, _, h⟩
      · exact ⟨t, h, hP⟩
      · refine ⟨_, h, integrityFrame_trans _ _ _ hP.1 ⟨rfl, rfl, rfl, rfl⟩, ?_⟩
        show noInvalidKick (t.events ++ _) = true
        rw [noInvalidKick_append, hP.2, noInvalidKick_timeoutEvents]
        rfl
      · refine ⟨_, h, integrityFrame_trans _ _ _ hP.1 ?_, ?_⟩
        · show integrityFrame t.ingame (if _ then _ else _)
          split
          · exact integrityFrame_refl _
          · exact ⟨rfl, rfl, rfl, rfl⟩
        · show noInvalidKick (t.events ++ _) = true
          rw [noInvalidKick_append, hP.2]
          rfl
    exact ⟨s', hs', ⟨hP.1.1, hP.1.2.1, hP.1.2.2.1, hP.1.2.2.2⟩, hP.2⟩

theorem invalidKicksFor_dataIntegrityKickEvents (d p : Bool) (i k : Nat) :
    invalidKicksFor k (dataIntegrityKickEvents d p i)
      = if i = k ∧ d = false then 1 else 0 := by
  unfold dataIntegrityKickEvents
  cases d <;> cases p <;> by_cases hk : i = k <;>
    simp [invalidKicksFor, isInvalidKick, eventPlayer, hk, List.filter_cons]

theorem integrity_loop_step (c : Consts) (g : Globals) (ingame : MULTIPLAYERINGAME)
    (d : Bool) (k i : Nat) (st : LoopState)
    (hwf : c.MAX_CONNECTED_PLAYERS ≤ g.NetPlay.players.length)
    (hi : i < c.MAX_CONNECTED_PLAYERS)
    (hP : integrityLoopInvariant c g ingame d k i st) :
    ∃ st', dataIntegrityBody c g d i st = some st' ∧
      integrityLoopInvariant c g ingame d k (i + 1) st' := by
  obtain ⟨hI, hK⟩ := hP
  obtain ⟨b, hb⟩ := isHumanPlayer_slot c g.NetPlay i hwf
  have hskip : ¬ failsIntegrity c g ingame i →
      integrityLoopInvariant c g ingame d k (i + 1) st := by
    intro hn
    refine ⟨hI, ?_⟩
    rw [hK]
    by_cases hki : k = i
    · subst hki
      rw [if_neg (fun h => by omega), if_neg (fun h => hn h.2.1)]
    · have hiff : (k < i + 1 ∧ failsIntegrity c g ingame k ∧ d = false) ↔
          (k < i ∧ failsIntegrity c g ingame k ∧ d = false) :=
        ⟨fun h => ⟨by omega, h.2⟩, fun h => ⟨by omega, h.2⟩⟩
      rw [if_congr hiff rfl rfl]
  unfold dataIntegrityBody
  by_cases hflag : st.ingame.DataIntegrity i = false
  · rw [if_pos hflag, hb]
    cases b with
    | false =>
      refine ⟨st, rfl, hskip ?_⟩
      intro h
      rw [h.2.1] at hb
      cases hb
    | true =>
      by_cases hh : i ≠ g.NetPlay.hostPlayer
      · simp only [if_pos hh]
        refine ⟨_, rfl, hI, ?_⟩
        have hf : failsIntegrity c g ingame i := ⟨hi, hb, hh, by rw [← hI]; exact hflag⟩
        show invalidKicksFor k (st.events ++ _) = _
        rw [invalidKicksFor_append, hK, invalidKicksFor_dataIntegrityKickEvents]
        by_cases hki : i = k
        · subst hki
          have e0 : (if i < i ∧ failsIntegrity c g ingame i ∧ d = false then 1 else 0) = 0 :=
            if_neg (fun h => absurd h.1 (Nat.lt_irrefl i))
          rw [e0, Nat.zero_add]
          by_cases hd : d = false
          · rw [if_pos ⟨rfl, hd⟩, if_pos ⟨Nat.lt_succ_self i, hf, hd⟩]
          · rw [if_neg (fun h => hd h.2), if_neg (fun h => hd h.2.2)]
        · have e1 : (if i = k ∧ d = false then 1 else 0) = 0 := if_neg (fun h => hki h.1)
          have hiff : (k < i + 1 ∧ failsIntegrity c g ingame k ∧ d = false) ↔
              (k < i ∧ failsIntegrity c g ingame k ∧ d = false) :=
            ⟨fun h => ⟨by omega, h.2⟩, fun h => ⟨by omega, h.2⟩⟩
          rw [e1, Nat.add_zero, if_congr hiff rfl rfl]
      · simp only [if_neg hh]
        exact ⟨st, rfl, hskip (fun h => hh h.2.2.1)⟩
  · rw [if_neg hflag]
    refine ⟨st, rfl, hskip ?_⟩
    intro h
    rw [hI] at hflag
    exact hflag h.2.2.2

/-- The data integrity check when it fires: it completes, sets
`isAllPlayersDataOK` only, and gives each slot its one `ERROR_INVALID` kick
exactly when the slot fails the check and the build is not a `DEBUG` one. -/
theorem dataIntegrityCheck_fires (c : Consts) (x : Externals) (g : Globals)
    (ingame : MULTIPLAYERINGAME) (inp : LoopInputs) (t : Nat)
    (hwf : c.MAX_CONNECTED_PLAYERS ≤ g.NetPlay.players.length)
    (hhost : g.NetPlay.isHost = true) (hcomms : x.bComms = true)
    (hok : ingame.isAllPlayersDataOK = false)
    (ht : ingame.TimeEveryoneIsInGame = some t)
    (hlate : toUInt32 ((inp.GAME_TICKS_PER_SEC : Int) * 60)
      < toUInt32 ((inp.gameTime : Int) - (t : Int))) :
    ∃ r, dataIntegrityCheck c x g ingame inp = some r ∧
      r.1 = { ingame with isAllPlayersDataOK := true } ∧
      ∀ k, invalidKicksFor k r.2 =
        if failsIntegrity c g ingame k ∧ inp.debugBuild = false then 1 else 0 := by
  have key : ∀ k, ∃ s', forLoop (dataIntegrityBody c g inp.debugBuild) 0
      c.MAX_CONNECTED_PLAYERS { ingame := ingame, events := [] } = some s' ∧
      integrityLoopInvariant c g ingame inp.debugBuild k (0 + c.MAX_CONNECTED_PLAYERS) s' := by
    intro k
    refine forLoop_indexed _ (integrityLoopInvariant c g ingame inp.debugBuild k) _ 0 _ ?_ ?_
    · intro i st _ hi hP
      exact integrity_loop_step c g ingame inp.debugBuild k i st hwf (by omega) hP
    · refine ⟨rfl, ?_⟩
      rw [if_neg (fun h => by omega)]
      rfl
  obtain ⟨s, hs, hinv⟩ := key 0
  refine ⟨({ s.ingame with isAllPlayersDataOK := true }, s.events), ?_, ?_, ?_⟩
  · unfold dataIntegrityCheck
    rw [if_pos ⟨hhost, hok, hcomms⟩, ht]
    simp only [if_pos hlate, hs, Option.map_some']
  · show { s.ingame with isAllPlayersDataOK := true } = _
    rw [hinv.1]
  · intro k
    obtain ⟨s', hs', hinv'⟩ := key k
    rw [hs] at hs'
    cases hs'
    show invalidKicksFor k s.events = _
    rw [hinv'.2, Nat.zero_add]
    have hiff : (k < c.MAX_CONNECTED_PLAYERS ∧ failsIntegrity c g ingame k ∧
        inp.debugBuild = false) ↔ (failsIntegrity c g ingame k ∧ inp.debugBuild = false) :=
      ⟨fun h => h.2, fun h => ⟨h.1.1, h⟩⟩
    rw [if_congr hiff rfl rfl]

theorem dataIntegrityCheck_done (c : Consts) (x : Externals) (g : Globals)
    (ingame : MULTIPLAYERINGAME) (inp : LoopInputs)
    (hok : ingame.isAllPlayersDataOK = true) :
    dataIntegrityCheck c x g ingame inp = some (ingame, []) := by
  unfold dataIntegrityCheck
  rw [if_neg (fun h => by rw [hok] at h; exact absurd h.2.1 (by decide))]

theorem noInvalidKick_enterGame (c : Consts) (g : Globals) (ingame : MULTIPLAYERINGAME)
    (inp : LoopInputs) :
    noInvalidKick (enterGame c g ingame inp).2 = true ∧
    (enterGame c g ingame inp).1.isAllPlayersDataOK = ingame.isAllPlayersDataOK := by
  unfold enterGame
  split
  · refine ⟨?_, rfl⟩
    simp only [noInvalidKick_append, Bool.and_eq_true]
    refine ⟨⟨⟨rfl, ?_⟩, rfl⟩, ?_⟩
    · split <;> rfl
    · split
      · rw [noInvalidKick_append, Bool.and_eq_true]
        refine ⟨rfl, ?_⟩
        unfold noInvalidKick
        rw [List.all_eq_true]
        intro e he
        obtain ⟨idx, _, rfl⟩ := List.mem_map.1 he
        rfl
      · rfl
  · exact ⟨rfl, rfl⟩

/-- The block of monitors that ends `multiPlayerLoop` completes, writes none
of the fields the data integrity check reads and makes no `ERROR_INVALID`
kick. -/
theorem hostMonitors_integrity (c : Consts) (x : Externals) (g : Globals)
    (ingame : MULTIPLAYERINGAME) (inp : LoopInputs)
    (hwf : c.MAX_CONNECTED_PLAYERS ≤ g.NetPlay.players.length) :
    ∃ b, hostMonitors c x g ingame inp = some b ∧ integrityFrame ingame b.1 ∧
      noInvalidKick b.2 = true := by
  unfold hostMonitors
  split
  · obtain ⟨lag, hlag, hf1, he1⟩ := autoLagKickRoutine_integrity c x g ingame inp.nowMonitors hwf
    obtain ⟨ds, hds, hf2, he2⟩ :=
      autoDesyncKickRoutine_integrity c x g lag.1 inp.nowMonitors hwf
    rw [hlag]
    simp only [hds, Option.map_some']
    refine ⟨_, rfl, integrityFrame_trans _ _ _ hf1 hf2, ?_⟩
    show noInvalidKick (lag.2 ++ ds.2 ++ _) = true
    rw [noInvalidKick_append, noInvalidKick_append, he1, he2]
    rfl
  · exact ⟨_, rfl, integrityFrame_refl _, rfl⟩

theorem multiPlayerLoop_eq (c : Consts) (x : Externals) (g : Globals)
    (ingame : MULTIPLAYERINGAME) (inp : LoopInputs) (n : Nat)
    (a b : MULTIPLAYERINGAME × List Event)
    (hn : joinCount c g ingame = some n)
    (ha : (if n ≠ 0 then
        some (ingame, [Event.call "selDroidDeselect" [(g.selectedPlayer : Int)]])
      else everyoneInGame c x g ingame inp) = some a)
    (hb : hostMonitors c x g a.1 inp = some b) :
    multiPlayerLoop c x g ingame inp =
      some (b.1, a.2 ++ b.2 ++ (if inp.testPlayerHasWon = true then
        [Event.call "multiplayerWinSequence" [0]] else []), true) := by
  unfold multiPlayerLoop
  simp only [hn, ha, hb]

theorem everyoneInGame_done (c : Consts) (x : Externals) (g : Globals)
    (ingame : MULTIPLAYERINGAME) (inp : LoopInputs)
    (hwf : c.MAX_CONNECTED_PLAYERS ≤ g.NetPlay.players.length)
    (hok : ingame.isAllPlayersDataOK = true) :
    ∃ a, everyoneInGame c x g ingame inp = some a ∧ a.1.isAllPlayersDataOK = true ∧
      noInvalidKick a.2 = true := by
  obtain ⟨he, hk⟩ := noInvalidKick_enterGame c g ingame inp
  rw [hok] at hk
  have hping : noInvalidKick (if x.bComms = true then [Event.call "sendPing" []] else [])
      = true := by
    split <;> rfl
  unfold everyoneInGame
  by_cases hc : g.NetPlay.isHost = true ∧ x.bComms = true
  · obtain ⟨r, hr, hf, hn⟩ :=
      sendDataCheck2_integrity c x g (enterGame c g ingame inp).1 inp.nowDataCheck hwf hc.1
    have hok2 : r.1.isAllPlayersDataOK = true := by rw [hf.1, hk]
    simp only [if_pos hc, hr, Option.map_some',
      dataIntegrityCheck_done c x g r.1 inp hok2]
    refine ⟨_, rfl, hok2, ?_⟩
    show noInvalidKick (_ ++ _ ++ r.2.1 ++ []) = true
    rw [List.append_nil, noInvalidKick_append, noInvalidKick_append, he, hping, hn]
    rfl
  · simp only [if_neg hc, dataIntegrityCheck_done c x g (enterGame c g ingame inp).1 inp hk,
      Option.map_some']
    refine ⟨_, rfl, hk, ?_⟩
    show noInvalidKick (_ ++ _ ++ [] ++ []) = true
    rw [List.append_nil, List.append_nil, noInvalidKick_append, he, hping]
    rfl

/-- Once `isAllPlayersDataOK` is set, a call of `multiPlayerLoop` completes,
keeps it set and makes no `ERROR_INVALID` kick. -/
theorem multiPlayerLoop_done (c : Consts) (x : Externals) (g : Globals)
    (ingame : MULTIPLAYERINGAME) (inp : LoopInputs)
    (hwf : c.MAX_CONNECTED_PLAYERS ≤ g.NetPlay.players.length)
    (hok : ingame.isAllPlayersDataOK = true) :
    ∃ r, multiPlayerLoop c x g ingame inp = some r ∧ r.1.isAllPlayersDataOK = true ∧
      ∀ k, invalidKicksFor k r.2.1 = 0 := by
  obtain ⟨n, hn, _⟩ := joinCount_spec c g ingame hwf
  obtain ⟨a, ha, hao, hae⟩ : ∃ a, (if n ≠ 0 then
        some (ingame, [Event.call "selDroidDeselect" [(g.selectedPlayer : Int)]])
      else everyoneInGame c x g ingame inp) = some a ∧ a.1.isAllPlayersDataOK = true ∧
      noInvalidKick a.2 = true := by
    by_cases h0 : n ≠ 0
    · rw [if_pos h0]
      exact ⟨_, rfl, hok, rfl⟩
    · rw [if_neg h0]
      exact everyoneInGame_done c x g ingame inp hwf hok
  obtain ⟨b, hb, hbf, hbe⟩ := hostMonitors_integrity c x g a.1 inp hwf
  refine ⟨_, multiPlayerLoop_eq c x g ingame inp n a b hn ha hb, by rw [hbf.1, hao], ?_⟩
  intro k
  apply invalidKicksFor_of_noInvalidKick
  show noInvalidKick (a.2 ++ b.2 ++ _) = true
  rw [noInvalidKick_append, noInvalidKick_append, hae, hbe]
  split <;> rfl

theorem failsIntegrity_congr (c : Consts) (g : Globals) (a b : MULTIPLAYERINGAME) (k : Nat)
    (h : b.DataIntegrity = a.DataIntegrity) :
    failsIntegrity c g b k ↔ failsIntegrity c g a k := by
  unfold failsIntegrity
  rw [h]

/-- C21: on the host with comms, when no human slot is still joining,
`isAllPlayersDataOK` is false and more than `60 * GAME_TICKS_PER_SEC` of game
time has passed since `TimeEveryoneIsInGame` (the `uint32_t` difference), a
call of `multiPlayerLoop` completes and kicks with `ERROR_INVALID`, once each,
exactly the slots below `MAX_CONNECTED_PLAYERS` that are human, are not the
host and have `DataIntegrity` false (none at all in a `DEBUG` build); it
leaves `isAllPlayersDataOK` set, and every later call of `multiPlayerLoop` from
a state with the flag set makes no `ERROR_INVALID` kick and keeps the flag. -/
theorem integrity_kick_once (c : Consts) (x : Externals) (g : Globals)
    (ingame : MULTIPLAYERINGAME) (inp : LoopInputs) (t : Nat)
    (hwf : c.MAX_CONNECTED_PLAYERS ≤ g.NetPlay.players.length)
    (hhost : g.NetPlay.isHost = true) (hcomms : x.bComms = true)
    (hjoined : ∀ j, j < c.MAX_CONNECTED_PLAYERS →
      isHumanPlayer c g.NetPlay (j : Int) = some true → ingame.JoiningInProgress j = false)
    (hok : ingame.isAllPlayersDataOK = false)
    (ht : ingame.TimeEveryoneIsInGame = some t)
    (hlate : toUInt32 ((inp.GAME_TICKS_PER_SEC : Int) * 60)
      < toUInt32 ((inp.gameTime : Int) - (t : Int))) :
    ∃ r, multiPlayerLoop c x g ingame inp = some r ∧
      (∀ k, invalidKicksFor k r.2.1 =
        if failsIntegrity c g ingame k ∧ inp.debugBuild = false then 1 else 0) ∧
      (∀ k, ingame.DataIntegrity k = true → invalidKicksFor k r.2.1 = 0) ∧
      r.1.isAllPlayersDataOK = true ∧
      (∀ (x2 : Externals) (g2 : Globals) (ingame2 : MULTIPLAYERINGAME) (inp2 : LoopInputs),
        c.MAX_CONNECTED_PLAYERS ≤ g2.NetPlay.players.length →
        ingame2.isAllPlayersDataOK = true →
        ∃ r2, multiPlayerLoop c x2 g2 ingame2 inp2 = some r2 ∧
          r2.1.isAllPlayersDataOK = true ∧ ∀ k, invalidKicksFor k r2.2.1 = 0) := by
  obtain ⟨n, hn, hzero⟩ := joinCount_spec c g ingame hwf
  have hn0 : n = 0 := hzero hjoined
  subst hn0
  -- the branch taken when everyone is in the game
  have hent : enterGame c g ingame inp = (ingame, []) := by
    unfold enterGame
    rw [ht]
    rfl
  obtain ⟨dc, hdc, hf, hdn⟩ := sendDataCheck2_integrity c x g ingame inp.nowDataCheck hwf hhost
  obtain ⟨ic, hic, hic1, hick⟩ := dataIntegrityCheck_fires c x g dc.1 inp t hwf hhost hcomms
    (by rw [hf.1, hok]) (by rw [hf.2.2.2, ht]) hlate
  have ha : (if (0 : Nat) ≠ 0 then
        some (ingame, [Event.call "selDroidDeselect" [(g.selectedPlayer : Int)]])
      else everyoneInGame c x g ingame inp)
      = some (ic.1, ([] : List Event) ++ [Event.call "sendPing" []] ++ dc.2.1 ++ ic.2) := by
    rw [if_neg (fun h => h rfl)]
    unfold everyoneInGame
    simp only [hent, hhost, hcomms, and_self, if_true, hdc, Option.map_some', hic]
  obtain ⟨b, hb, hbf, hbe⟩ := hostMonitors_integrity c x g ic.1 inp hwf
  have hcount : ∀ k, invalidKicksFor k
      (([] : List Event) ++ [Event.call "sendPing" []] ++ dc.2.1 ++ ic.2 ++ b.2 ++
        (if inp.testPlayerHasWon = true then [Event.call "multiplayerWinSequence" [0]] else []))
      = if failsIntegrity c g ingame k ∧ inp.debugBuild = false then 1 else 0 := by
    intro k
    have hwon : invalidKicksFor k (if inp.testPlayerHasWon = true then
        [Event.call "multiplayerWinSequence" [0]] else []) = 0 := by
      split <;> rfl
    rw [invalidKicksFor_append, invalidKicksFor_append, invalidKicksFor_append,
      invalidKicksFor_append, hwon, invalidKicksFor_of_noInvalidKick k b.2 hbe,
      invalidKicksFor_of_noInvalidKick k dc.2.1 hdn, hick k]
    have hiff : (failsIntegrity c g dc.1 k ∧ inp.debugBuild = false) ↔
        (failsIntegrity c g ingame k ∧ inp.debugBuild = false) := by
      rw [failsIntegrity_congr c g ingame dc.1 k hf.2.1]
    rw [if_congr hiff rfl rfl]
    show 0 + 0 + 0 + _ + 0 + 0 = _
    omega
  refine ⟨_, multiPlayerLoop_eq c x g ingame inp 0 _ b hn ha hb, hcount, ?_, ?_, ?_⟩
  · intro k hflag
    show invalidKicksFor k _ = 0
    rw [hcount k, if_neg]
    intro h
    have := h.1.2.2.2
    rw [hflag] at this
    exact absurd this (by decide)
  · show b.1.isAllPlayersDataOK = true
    rw [hbf.1, hic1]
  · intro x2 g2 ingame2 inp2 hwf2 hok2
    exact multiPlayerLoop_done c x2 g2 ingame2 inp2 hwf2 hok2

theorem integrity_kick_once_witness :
    monitorConsts.MAX_CONNECTED_PLAYERS ≤ sampleHost.NetPlay.players.length ∧
    sampleHost.NetPlay.isHost = true ∧ sampleExternals.bComms = true ∧
    sampleJoined.isAllPlayersDataOK = false ∧
    sampleJoined.TimeEveryoneIsInGame = some 0 ∧
    toUInt32 ((sampleLoopInputs.GAME_TICKS_PER_SEC : Int) * 60)
      < toUInt32 ((sampleLoopInputs.gameTime : Int) - ((0 : Nat) : Int)) ∧
    ∃ r, multiPlayerLoop monitorConsts sampleExternals sampleHost sampleJoined sampleLoopInputs
        = some r ∧
      (∀ k, invalidKicksFor k r.2.1 =
        if failsIntegrity monitorConsts sampleHost sampleJoined k
          ∧ sampleLoopInputs.debugBuild = false then 1 else 0) ∧
      r.1.isAllPlayersDataOK = true :=
  ⟨by decide, rfl, rfl, rfl, rfl, by decide,
    (integrity_kick_once monitorConsts sampleExternals sampleHost sampleJoined sampleLoopInputs 0
      (by decide) rfl rfl (fun _ _ _ => rfl) rfl rfl (by decide)).imp
      (fun _ h => ⟨h.1, h.2.1, h.2.2.2.1⟩)⟩

/-! ## Theorems: text message sender -/

theorem whosResponsible_values (c : Consts) (g : Globals) (s : Int)
    (hwf : c.MAX_CONNECTED_PLAYERS ≤ g.NetPlay.players.length) :
    whosResponsible c g s = some s ∨
      whosResponsible c g s = some (toInt32 g.NetPlay.hostPlayer) := by
  obtain ⟨b, hb⟩ := isHumanPlayer_total c g.NetPlay s hwf
  unfold whosResponsible
  rw [hb]
  cases b
  · simp only []
    split
    · exact Or.inl rfl
    · exact Or.inr rfl
  · exact Or.inl rfl

/-- C22: `NetworkTextMessage::receive` always completes; if
`whosResponsible(sender)` differs from the queue index the sender becomes the
queue index, otherwise it is kept; so afterwards the sender is the queue
index or a slot the queue's peer is responsible for; a message from a queue
other than the host's is always attributed to that queue's slot (a client on
slot 1 naming slot 2 or a negative system sender is attributed to slot 1);
text and team flag are kept and `NetPlay` (every slot's `PLAYER`) is not
modified. -/
theorem text_sender_fixed (c : Consts) (AI_OPEN : Int) (g : Globals) (queue : NETQUEUE)
    (m : NetworkTextMessage)
    (hwf : c.MAX_CONNECTED_PLAYERS ≤ g.NetPlay.players.length) :
    ∃ r, NetworkTextMessage.receive c AI_OPEN g queue m = some r ∧
      (whosResponsible c g m.sender ≠ some (queue.index : Int) →
        r.message.sender = (queue.index : Int)) ∧
      (whosResponsible c g m.sender = some (queue.index : Int) →
        r.message.sender = m.sender) ∧
      (r.message.sender = (queue.index : Int) ∨
        whosResponsible c g r.message.sender = some (queue.index : Int)) ∧
      (queue.index ≠ g.NetPlay.hostPlayer → g.NetPlay.hostPlayer < 2147483648 →
        r.message.sender = (queue.index : Int)) ∧
      r.message.text = m.text ∧ r.message.teamSpecific = m.teamSpecific ∧
      r.NetPlay = g.NetPlay := by
  obtain ⟨resp, hresp⟩ : ∃ resp, whosResponsible c g m.sender = some resp := by
    rcases whosResponsible_values c g m.sender hwf with h | h
    · exact ⟨_, h⟩
    · exact ⟨_, h⟩
  have hfix : ∀ (s2 : Int) (r : TextReceiveResult),
      (if resp ≠ (queue.index : Int) then (queue.index : Int) else m.sender) = s2 →
      r.message = { m with sender := s2 } →
      r.NetPlay = g.NetPlay →
      (whosResponsible c g m.sender ≠ some (queue.index : Int) →
        r.message.sender = (queue.index : Int)) ∧
      (whosResponsible c g m.sender = some (queue.index : Int) →
        r.message.sender = m.sender) ∧
      (r.message.sender = (queue.index : Int) ∨
        whosResponsible c g r.message.sender = some (queue.index : Int)) ∧
      (queue.index ≠ g.NetPlay.hostPlayer → g.NetPlay.hostPlayer < 2147483648 →
        r.message.sender = (queue.index : Int)) ∧
      r.message.text = m.text ∧ r.message.teamSpecific = m.teamSpecific ∧
      r.NetPlay = g.NetPlay := by
    intro s2 r hs hm hnp
    subst hs
    rw [hm, hresp]
    by_cases hne : resp ≠ (queue.index : Int)
    · rw [if_pos hne]
      refine ⟨fun _ => rfl, fun h => ?_, Or.inl rfl, fun _ _ => rfl, rfl, rfl, hnp⟩
      exact absurd (Option.some.inj h) hne
    · have he : resp = (queue.index : Int) := by
        by_contra h
        exact hne h
      rw [if_neg hne]
      refine ⟨fun h => ?_, fun _ => rfl, Or.inr ?_, ?_, rfl, rfl, hnp⟩
      · exact absurd (by rw [he]) h
      · rw [hresp, he]
      · intro hq hh
        rcases whosResponsible_values c g m.sender hwf with h | h
        · rw [hresp] at h
          rw [← Option.some.inj h, he]
        · rw [hresp] at h
          have h2 := Option.some.inj h
          rw [he] at h2
          unfold toInt32 at h2
          have hmod : g.NetPlay.hostPlayer % 4294967296 = g.NetPlay.hostPlayer :=
            Nat.mod_eq_of_lt (by omega)
          rw [hmod, if_pos hh] at h2
          exact absurd (by exact_mod_cast h2) hq
  have hrun : ∃ r, NetworkTextMessage.receive c AI_OPEN g queue m = some r ∧
      r.message = { m with sender :=
        if resp ≠ (queue.index : Int) then (queue.index : Int) else m.sender } ∧
      r.NetPlay = g.NetPlay := by
    unfold NetworkTextMessage.receive
    rw [hresp]
    simp only []
    generalize (if resp ≠ (queue.index : Int) then (queue.index : Int) else m.sender) = s2
    by_cases h1 : (c.MAX_CONNECTED_PLAYERS : Int) ≤ s2
    · rw [if_pos h1]
      exact ⟨_, rfl, rfl, rfl⟩
    · rw [if_neg h1]
      by_cases h2 : 0 ≤ s2
      · rw [if_pos h2]
        have hin : s2.toNat < g.NetPlay.players.length := by omega
        rw [List.getElem?_eq_getElem hin]
        simp only []
        by_cases h3 : (g.NetPlay.players[s2.toNat]).allocated = false ∧
            (g.NetPlay.players[s2.toNat]).ai = AI_OPEN
        · rw [if_pos h3]
          exact ⟨_, rfl, rfl, rfl⟩
        · rw [if_neg h3]
          exact ⟨_, rfl, rfl, rfl⟩
      · rw [if_neg h2]
        exact ⟨_, rfl, rfl, rfl⟩
  obtain ⟨r, hr, hm, hnp⟩ := hrun
  exact ⟨r, hr, hfix _ r rfl hm hnp⟩

theorem text_sender_fixed_witness :
    sampleConsts.MAX_CONNECTED_PLAYERS ≤ sampleHost.NetPlay.players.length ∧
    ∃ r, NetworkTextMessage.receive sampleConsts (-2) sampleHost { index := 1, queueType := 0 }
        { sender := 2, teamSpecific := false, text := "hello" } = some r ∧
      (({ index := 1, queueType := 0 } : NETQUEUE).index ≠ sampleHost.NetPlay.hostPlayer →
        sampleHost.NetPlay.hostPlayer < 2147483648 →
        r.message.sender = ((({ index := 1, queueType := 0 } : NETQUEUE).index : Nat) : Int)) ∧
      r.NetPlay = sampleHost.NetPlay :=
  ⟨by decide,
    (text_sender_fixed sampleConsts (-2) sampleHost { index := 1, queueType := 0 }
      { sender := 2, teamSpecific := false, text := "hello" } (by decide)).imp
      (fun _ h => ⟨h.1, h.2.2.2.2.1, h.2.2.2.2.2.2.2⟩)⟩

/-! ## Theorems: player references -/

/-- C23, counterexample: slot 0 holds a player with a pending download; after
`disconnect()` a read of `wzFiles` through the reference gives the empty list,
not the value the slot had at the time of `disconnect()`. -/
theorem snapshot_drops_wzFiles :
    (({ players := [sampleDownloading], hostPlayer := 0, isHost := true } : NETPLAY).players[0]?).map
        (fun p => p.wzFiles) = some [7] ∧
    ((PlayerReference.disconnect
        { players := [sampleDownloading], hostPlayer := 0, isHost := true }
        (PlayerReference.ofIndex 0)).bind
      (fun r => PlayerReference.arrow
        { players := [sampleDownloading], hostPlayer := 0, isHost := true } r)).map
        (fun p => p.wzFiles) = some [] ∧
    (PlayerReference.disconnect
        { players := [sampleDownloading], hostPlayer := 0, isHost := true }
        (PlayerReference.ofIndex 0)).bind
      (fun r => PlayerReference.arrow
        { players := [sampleDownloading], hostPlayer := 0, isHost := true } r)
      ≠ some sampleDownloading := by
  refine ⟨by decide, by decide, by decide⟩

/-- C23, amended: a new reference over slot `k` is not detached and its reads
go to the live `NetPlay.players[k]` of whatever state they are made in; after
`disconnect()` in a state where the slot holds `p` the reference is detached,
keeps its index, and every read through it, in any later state, returns `p`
with `wzFiles` replaced by the empty list. -/
theorem player_reference_snapshot (np : NETPLAY) (k : Nat) (p : PLAYER)
    (hp : np.players[k]? = some p) :
    PlayerReference.isDetached (PlayerReference.ofIndex k) = false ∧
    (∀ live : NETPLAY,
      PlayerReference.arrow live (PlayerReference.ofIndex k) = live.players[k]?) ∧
    ∃ r, PlayerReference.disconnect np (PlayerReference.ofIndex k) = some r ∧
      PlayerReference.isDetached r = true ∧ PlayerReference.originalIndex r = k ∧
      ∀ later : NETPLAY, PlayerReference.arrow later r = some { p with wzFiles := [] } := by
  refine ⟨rfl, fun _ => rfl, ?_⟩
  unfold PlayerReference.disconnect PlayerReference.ofIndex
  simp only [hp, Option.map_some']
  exact ⟨_, rfl, rfl, rfl, fun _ => rfl⟩

theorem player_reference_snapshot_witness :
    sampleHost.NetPlay.players[1]? = some (samplePlayer true false false) ∧
    ∃ r, PlayerReference.disconnect sampleHost.NetPlay (PlayerReference.ofIndex 1) = some r ∧
      PlayerReference.isDetached r = true ∧ PlayerReference.originalIndex r = 1 ∧
      ∀ later : NETPLAY, PlayerReference.arrow later r
        = some { samplePlayer true false false with wzFiles := [] } :=
  ⟨rfl, (player_reference_snapshot sampleHost.NetPlay 1 (samplePlayer true false false) rfl).2.2⟩

/-! ## Theorems: spectator info packing -/

theorem toUint32_layout (a b : Nat) (ha : a < 65536) (hb : b < 65536) :
    SpectatorInfo.toUint32 { spectatorsJoined := a, totalSpectatorSlots := b }
      = a * 65536 + b := by
  unfold SpectatorInfo.toUint32
  simp only [Nat.shiftLeft_eq]
  have h1 : toUInt32 (toInt32 (a * 2 ^ 16)) = a * 65536 := by
    unfold toUInt32 toInt32
    have hlt : a * 2 ^ 16 < 4294967296 := by omega
    rw [Nat.mod_eq_of_lt hlt]
    split <;> omega
  have h2 : b % 4294967296 = b := Nat.mod_eq_of_lt (by omega)
  rw [h1, h2]
  have h3 := Nat.mul_add_lt_is_or (show b < 2 ^ 16 by omega) a
  have h4 : a * 65536 = 2 ^ 16 * a := by omega
  rw [h4, ← h3]

/-- C30: for every `uint32_t` word `d`, `fromUint32(d).toUint32()` is `d`; for
every pair of `uint16_t` values, `fromUint32(toUint32())` is the same pair;
`spectatorsJoined` occupies the high 16 bits and `totalSpectatorSlots` the low
16 bits, also when `spectatorsJoined` is `0x8000` or more. -/
theorem spectator_info_roundtrip :
    (∀ d : Nat, d < 4294967296 →
      SpectatorInfo.toUint32 (SpectatorInfo.fromUint32 d) = d) ∧
    (∀ a b : Nat, a < 65536 → b < 65536 →
      SpectatorInfo.fromUint32
          (SpectatorInfo.toUint32 { spectatorsJoined := a, totalSpectatorSlots := b })
        = { spectatorsJoined := a, totalSpectatorSlots := b } ∧
      SpectatorInfo.toUint32 { spectatorsJoined := a, totalSpectatorSlots := b }
        = a * 65536 + b ∧
      SpectatorInfo.toUint32 { spectatorsJoined := a, totalSpectatorSlots := b }
        < 4294967296) := by
  have hfrom : ∀ d : Nat, SpectatorInfo.fromUint32 d
      = { spectatorsJoined := d / 65536 % 65536, totalSpectatorSlots := d % 65536 } := by
    intro d
    unfold SpectatorInfo.fromUint32
    have e1 : d >>> 16 = d / 65536 := by
      rw [Nat.shiftRight_eq_div_pow]
    have e2 : d &&& 0xFFFF = d % 65536 := by
      have := Nat.and_pow_two_sub_one_eq_mod d 16
      simpa using this
    rw [e1, e2, Nat.mod_mod]
  constructor
  · intro d hd
    rw [hfrom, toUint32_layout _ _ (Nat.mod_lt _ (by decide)) (Nat.mod_lt _ (by decide))]
    omega
  · intro a b ha hb
    rw [toUint32_layout a b ha hb, hfrom]
    refine ⟨?_, rfl, by omega⟩
    congr 1 <;> omega

theorem spectator_info_roundtrip_witness :
    (2147549186 : Nat) < 4294967296 ∧
    SpectatorInfo.toUint32 (SpectatorInfo.fromUint32 2147549186) = 2147549186 ∧
    SpectatorInfo.fromUint32
        (SpectatorInfo.toUint32 { spectatorsJoined := 32769, totalSpectatorSlots := 2 })
      = { spectatorsJoined := 32769, totalSpectatorSlots := 2 } :=
  ⟨by decide, spectator_info_roundtrip.1 2147549186 (by decide),
    (spectator_info_roundtrip.2 32769 2 (by decide) (by decide)).1⟩

end Warzone
